import Mathlib

/-!
# orion: resource-handle lifetimes, the streaming buffer, the window frame,
shaders, images, array textures, stream meshes and input polling

A shallow embedding of `src/wrappers.cpp`, `src/wrappers.hpp` and `src/Frame.cpp`.

Conventions of the embedding.

* Every call into OpenGL, GLFW or stb_image is recorded, in program order, in
  a trace of call records (`GLCall`, `StreamCall`, `GLFWCall`, `ShaderCall`,
  `ImageCall`, `TextureCall`, `MeshCall`).  A value that the library hands
  back (an object name, a sync object, a wait result, a window pointer, a
  status) is an input of the embedded function, so every theorem quantifies
  over what the library may answer.
* C++ objects are identified by their address (a `Nat`); pointers are `Nat`
  with `0` for `nullptr`.
* `std::size_t` arithmetic is arithmetic on `Nat` modulo `SIZE_MOD = 2 ^ 64`;
  `std::uint32_t` parameters cut their arguments down modulo `UINT32_MOD`.
* A function that may throw returns an `Outcome`; `Option` is kept for calls
  with no defined result.
-/

namespace ori

/-! ## Part I. Definitions -/

/-! ### Resource handles (`wrappers.hpp` 141-266, `wrappers.cpp` 110-316) -/

/-- The `type` argument of `glCreateShader`, one per shader handle class. -/
inductive ShaderType
  | GL_VERTEX_SHADER
  | GL_FRAGMENT_SHADER
  | GL_GEOMETRY_SHADER
  | GL_TESS_CONTROL_SHADER
  | GL_TESS_EVALUATION_SHADER
  | GL_COMPUTE_SHADER
  deriving DecidableEq, Repr

/-- The `target` argument of `glCreateTextures`. -/
inductive TextureTarget
  | GL_TEXTURE_2D
  | GL_TEXTURE_2D_ARRAY
  deriving DecidableEq, Repr

/-- The seven families of OpenGL objects behind the handle classes; each family
has one deletion entry point. -/
inductive ObjectKind
  | shader
  | program
  | buffer
  | texture
  | vertexArray
  | framebuffer
  | renderbuffer
  deriving DecidableEq, Repr

/-- The creation and deletion entry points used by the handle classes.  A
creation record carries the object name the call produced (for the
`glCreate*s(1, &_id)` forms, the value found in `_id` afterwards); a deletion
record carries the name passed in. -/
inductive GLCall
  | glCreateShader (type : ShaderType) (ret : Nat)
  | glCreateProgram (ret : Nat)
  | glCreateBuffers (ret : Nat)
  | glCreateTextures (target : TextureTarget) (ret : Nat)
  | glCreateVertexArrays (ret : Nat)
  | glCreateFramebuffers (ret : Nat)
  | glCreateRenderbuffers (ret : Nat)
  | glDeleteShader (id : Nat)
  | glDeleteProgram (id : Nat)
  | glDeleteBuffers (id : Nat)
  | glDeleteTextures (id : Nat)
  | glDeleteVertexArrays (id : Nat)
  | glDeleteFramebuffers (id : Nat)
  | glDeleteRenderbuffers (id : Nat)
  deriving DecidableEq, Repr

/-- The thirteen classes derived from `ResourceHandle`. -/
inductive HandleClass
  | VertexShaderHandle
  | FragmentShaderHandle
  | GeometryShaderHandle
  | TessControlShaderHandle
  | TessEvaluationShaderHandle
  | ComputeShaderHandle
  | ShaderProgramHandle
  | BufferHandle
  | Texture2DHandle
  | ArrayTexture2DHandle
  | MeshHandle
  | FramebufferHandle
  | RenderbufferHandle
  deriving DecidableEq, Repr

/-- Base class for OpenGL object handles: `std::uint32_t _id = 0`. -/
structure ResourceHandle where
  _id : Nat := 0
  deriving DecidableEq, Repr

/-- `ResourceHandle::id`. -/
def ResourceHandle.id (h : ResourceHandle) : Nat := h._id

/-- `ResourceHandle::ResourceHandle(ResourceHandle&& other)`: `_id = other._id;
other._id = 0;`.  Returns the new handle and the source as it is left.  The
derived classes all declare their move constructor `= default`, which runs
this one on the base sub-object. -/
def ResourceHandle.move (other : ResourceHandle) : ResourceHandle × ResourceHandle :=
  ({ _id := other._id }, { other with _id := 0 })

/-- The creation call made by the default constructor of each handle class,
with the name it produced. -/
def HandleClass.createCall : HandleClass → Nat → GLCall
  | .VertexShaderHandle, r => .glCreateShader .GL_VERTEX_SHADER r
  | .FragmentShaderHandle, r => .glCreateShader .GL_FRAGMENT_SHADER r
  | .GeometryShaderHandle, r => .glCreateShader .GL_GEOMETRY_SHADER r
  | .TessControlShaderHandle, r => .glCreateShader .GL_TESS_CONTROL_SHADER r
  | .TessEvaluationShaderHandle, r => .glCreateShader .GL_TESS_EVALUATION_SHADER r
  | .ComputeShaderHandle, r => .glCreateShader .GL_COMPUTE_SHADER r
  | .ShaderProgramHandle, r => .glCreateProgram r
  | .BufferHandle, r => .glCreateBuffers r
  | .Texture2DHandle, r => .glCreateTextures .GL_TEXTURE_2D r
  | .ArrayTexture2DHandle, r => .glCreateTextures .GL_TEXTURE_2D_ARRAY r
  | .MeshHandle, r => .glCreateVertexArrays r
  | .FramebufferHandle, r => .glCreateFramebuffers r
  | .RenderbufferHandle, r => .glCreateRenderbuffers r

/-- The deletion call made by the destructor of each handle class. -/
def HandleClass.deleteCall : HandleClass → Nat → GLCall
  | .VertexShaderHandle, i => .glDeleteShader i
  | .FragmentShaderHandle, i => .glDeleteShader i
  | .GeometryShaderHandle, i => .glDeleteShader i
  | .TessControlShaderHandle, i => .glDeleteShader i
  | .TessEvaluationShaderHandle, i => .glDeleteShader i
  | .ComputeShaderHandle, i => .glDeleteShader i
  | .ShaderProgramHandle, i => .glDeleteProgram i
  | .BufferHandle, i => .glDeleteBuffers i
  | .Texture2DHandle, i => .glDeleteTextures i
  | .ArrayTexture2DHandle, i => .glDeleteTextures i
  | .MeshHandle, i => .glDeleteVertexArrays i
  | .FramebufferHandle, i => .glDeleteFramebuffers i
  | .RenderbufferHandle, i => .glDeleteRenderbuffers i

/-- The object family a handle class wraps. -/
def HandleClass.kind : HandleClass → ObjectKind
  | .VertexShaderHandle => .shader
  | .FragmentShaderHandle => .shader
  | .GeometryShaderHandle => .shader
  | .TessControlShaderHandle => .shader
  | .TessEvaluationShaderHandle => .shader
  | .ComputeShaderHandle => .shader
  | .ShaderProgramHandle => .program
  | .BufferHandle => .buffer
  | .Texture2DHandle => .texture
  | .ArrayTexture2DHandle => .texture
  | .MeshHandle => .vertexArray
  | .FramebufferHandle => .framebuffer
  | .RenderbufferHandle => .renderbuffer

/-- Default constructor of a handle class, e.g. `_id = glCreateShader(...)` or
`glCreateBuffers(1, &_id)`; `ret` is the name the call produced. -/
def HandleClass.construct (c : HandleClass) (ret : Nat) : List GLCall × ResourceHandle :=
  ([c.createCall ret], { _id := ret })

/-- Destructor of a handle class:
`if (_id) { glDelete...(_id); _id = 0; }`. -/
def HandleClass.destruct (c : HandleClass) (h : ResourceHandle) : List GLCall × ResourceHandle :=
  if h._id ≠ 0 then ([c.deleteCall h._id], { h with _id := 0 }) else ([], h)

/-- Whether a call record is the creation of an object of family `k` that
produced name `i`. -/
def GLCall.creates (k : ObjectKind) (i : Nat) : GLCall → Bool
  | .glCreateShader _ r => k = .shader ∧ r = i
  | .glCreateProgram r => k = .program ∧ r = i
  | .glCreateBuffers r => k = .buffer ∧ r = i
  | .glCreateTextures _ r => k = .texture ∧ r = i
  | .glCreateVertexArrays r => k = .vertexArray ∧ r = i
  | .glCreateFramebuffers r => k = .framebuffer ∧ r = i
  | .glCreateRenderbuffers r => k = .renderbuffer ∧ r = i
  | _ => false

/-- Whether a call record is the deletion of name `i` in family `k`. -/
def GLCall.deletes (k : ObjectKind) (i : Nat) : GLCall → Bool
  | .glDeleteShader j => k = .shader ∧ j = i
  | .glDeleteProgram j => k = .program ∧ j = i
  | .glDeleteBuffers j => k = .buffer ∧ j = i
  | .glDeleteTextures j => k = .texture ∧ j = i
  | .glDeleteVertexArrays j => k = .vertexArray ∧ j = i
  | .glDeleteFramebuffers j => k = .framebuffer ∧ j = i
  | .glDeleteRenderbuffers j => k = .renderbuffer ∧ j = i
  | _ => false

/-- A live handle object: where it is, its class, and its base sub-object. -/
structure HandleObj where
  addr : Nat
  cls : HandleClass
  handle : ResourceHandle
  deriving DecidableEq, Repr

/-- The handle objects alive at some point of a run and the OpenGL calls made
so far (oldest first). -/
structure HandleWorld where
  objects : List HandleObj := []
  trace : List GLCall := []
  deriving DecidableEq, Repr

/-- The three things a program can do with a handle object.  `construct`
carries the name the creation call produced. -/
inductive HandleOp
  | construct (addr : Nat) (c : HandleClass) (ret : Nat)
  | moveConstruct (addr : Nat) (src : Nat)
  | destruct (addr : Nat)
  deriving DecidableEq, Repr

/-- The live object at address `a`, if any. -/
def HandleWorld.lookup (w : HandleWorld) (a : Nat) : Option HandleObj :=
  w.objects.find? (fun o => o.addr = a)

/-- Replace the base sub-object of the (first) object at address `a`. -/
def setHandle (a : Nat) (h : ResourceHandle) : List HandleObj → List HandleObj
  | [] => []
  | o :: os => if o.addr = a then { o with handle := h } :: os else o :: setHandle a h os

/-- Remove the (first) object at address `a`. -/
def removeObj (a : Nat) : List HandleObj → List HandleObj
  | [] => []
  | o :: os => if o.addr = a then os else o :: removeObj a os

/-- One operation.  `none` is a program that C++ does not allow: constructing
over a live object, moving from or destroying an object that is not alive. -/
def HandleWorld.step (w : HandleWorld) : HandleOp → Option HandleWorld
  | .construct a c ret =>
    match w.lookup a with
    | some _ => none
    | none =>
      let r := c.construct ret
      some { objects := { addr := a, cls := c, handle := r.2 } :: w.objects,
             trace := w.trace ++ r.1 }
  | .moveConstruct a src =>
    match w.lookup a, w.lookup src with
    | none, some o =>
      let r := o.handle.move
      some { objects := { addr := a, cls := o.cls, handle := r.1 } :: setHandle src r.2 w.objects,
             trace := w.trace }
    | _, _ => none
  | .destruct a =>
    match w.lookup a with
    | none => none
    | some o =>
      let r := o.cls.destruct o.handle
      some { objects := removeObj a w.objects, trace := w.trace ++ r.1 }

/-- A sequence of operations, left to right. -/
def HandleWorld.run (w : HandleWorld) : List HandleOp → Option HandleWorld
  | [] => some w
  | op :: ops =>
    match w.step op with
    | none => none
    | some w' => w'.run ops

/-- Number of creation calls of family `k` in the trace that produced `i`. -/
def creations (k : ObjectKind) (i : Nat) (t : List GLCall) : Nat :=
  t.countP (GLCall.creates k i)

/-- Number of deletion calls of family `k` in the trace that were passed `i`. -/
def deletions (k : ObjectKind) (i : Nat) (t : List GLCall) : Nat :=
  t.countP (GLCall.deletes k i)

/-- Number of live handle objects of family `k` whose `_id` is `i`. -/
def holders (k : ObjectKind) (i : Nat) (os : List HandleObj) : Nat :=
  os.countP (fun o => o.cls.kind = k ∧ o.handle._id = i)

/-! ### The streaming buffer (`wrappers.hpp` 391-408 and 464-489, `wrappers.cpp` 500-527 and 555-626) -/

/-- Number of values of `std::size_t`; unsigned arithmetic wraps modulo this. -/
def SIZE_MOD : Nat := 2 ^ 64

/-- `gsl::span<std::byte>`: where it starts and how many bytes it has. -/
structure Span where
  data : Nat
  size : Nat
  deriving DecidableEq, Repr

/-- `gsl::span::subspan(offset, count)`.  The library checks
`offset <= size() && count <= size() - offset` and terminates the program
otherwise (`none`). -/
def Span.subspan (b : Span) (offset count : Nat) : Option Span :=
  if offset ≤ b.size ∧ count ≤ b.size - offset then
    some { data := b.data + offset, size := count }
  else none

/-- What `glClientWaitSync` can return. -/
inductive WaitResult
  | GL_ALREADY_SIGNALED
  | GL_TIMEOUT_EXPIRED
  | GL_CONDITION_SATISFIED
  | GL_WAIT_FAILED
  deriving DecidableEq, Repr

/-- The `flags` bits handed to buffer storage and mapping. -/
inductive BufferFlag
  | GL_MAP_PERSISTENT_BIT
  | GL_MAP_WRITE_BIT
  deriving DecidableEq, Repr

/-- The `target` argument of `glBindBufferRange`. -/
inductive BufferTarget
  | GL_UNIFORM_BUFFER
  | GL_SHADER_STORAGE_BUFFER
  deriving DecidableEq, Repr

/-- What a stream buffer does that can be seen from outside: its OpenGL calls
(answers included) and the call of the writer handed to `update`. -/
inductive StreamCall
  | glFenceSync (ret : Nat)
  | glDeleteSync (sync : Nat)
  | glClientWaitSync (sync : Nat) (ret : WaitResult)
  | glMemoryBarrier
  | glCreateBuffers (ret : Nat)
  | glNamedBufferStorage (id size data : Nat) (flags : List BufferFlag)
  | glMapNamedBufferRange (id offset length : Nat) (flags : List BufferFlag) (ret : Nat)
  | writer (span : Span)
  | glBindBufferRange (target : BufferTarget) (index buffer offset size : Nat)
  deriving DecidableEq, Repr

/-- Class `FenceSync`: a `GLsync` pointer. -/
structure FenceSync where
  handle : Nat
  deriving DecidableEq, Repr

/-- `FenceSync::FenceSync()`: `handle = glFenceSync(...)`. -/
def FenceSync.new (ret : Nat) : FenceSync × List StreamCall :=
  ({ handle := ret }, [.glFenceSync ret])

/-- `FenceSync::resubmit`: `glDeleteSync(handle); handle = glFenceSync(...)`. -/
def FenceSync.resubmit (f : FenceSync) (ret : Nat) : FenceSync × List StreamCall :=
  ({ handle := ret }, [.glDeleteSync f.handle, .glFenceSync ret])

/-- The test `FenceSync::is_ready` applies to the answer of `glClientWaitSync`:
`res == GL_CONDITION_SATISFIED || res == GL_ALREADY_SIGNALED`. -/
def WaitResult.ready (res : WaitResult) : Bool :=
  decide (res = .GL_CONDITION_SATISFIED) || decide (res = .GL_ALREADY_SIGNALED)

/-- `FenceSync::is_ready`, given the answer of `glClientWaitSync(handle, 0, 0)`. -/
def FenceSync.is_ready (f : FenceSync) (res : WaitResult) : Bool × List StreamCall :=
  (res.ready, [.glClientWaitSync f.handle res])

/-- `std::array<FenceSync, 3>`. -/
structure FenceArray where
  f0 : FenceSync
  f1 : FenceSync
  f2 : FenceSync
  deriving DecidableEq, Repr

/-- `std::array<FenceSync, 3>::size`. -/
def FenceArray.size (_ : FenceArray) : Nat := 3

/-- `operator[]` for reading; an index past the end has no defined result. -/
def FenceArray.get (a : FenceArray) : Nat → Option FenceSync
  | 0 => some a.f0
  | 1 => some a.f1
  | 2 => some a.f2
  | _ => none

/-- `operator[]` for writing; an index past the end has no defined result. -/
def FenceArray.set (a : FenceArray) (f : FenceSync) : Nat → Option FenceArray
  | 0 => some { a with f0 := f }
  | 1 => some { a with f1 := f }
  | 2 => some { a with f2 := f }
  | _ => none

/-- Class `BufferStreamBase`. -/
structure BufferStreamBase where
  fences : FenceArray
  buffer : Span
  slot : Nat
  handle : ResourceHandle
  deriving DecidableEq, Repr

/-- `BufferStreamBase::id`. -/
def BufferStreamBase.id (s : BufferStreamBase) : Nat := s.handle.id

/-- `BufferStreamBase::current_slot`. -/
def BufferStreamBase.current_slot (s : BufferStreamBase) : Nat := s.slot

/-- `BufferStreamBase::slots`: `fences.size()`. -/
def BufferStreamBase.slots (s : BufferStreamBase) : Nat := s.fences.size

/-- `BufferStreamBase::size_bytes`: `buffer.size() / slots()`. -/
def BufferStreamBase.size_bytes (s : BufferStreamBase) : Nat := s.buffer.size / s.slots

/-- `BufferStreamBase::slot_span`:
`buffer.subspan(slot * size_bytes(), size_bytes())`. -/
def BufferStreamBase.slot_span (s : BufferStreamBase) : Option Span :=
  s.buffer.subspan ((s.slot * s.size_bytes) % SIZE_MOD) s.size_bytes

/-- `BufferStreamBase::BufferStreamBase(size_bytes)`.  The members are built in
declaration order (three fences, then the buffer handle), then the body runs:
`size_bytes *= slots()`, storage, mapping, `slot = 0`.  Inputs besides the
argument: the three sync objects, the buffer name and the mapped address that
OpenGL hands back. -/
def BufferStreamBase.new (size_bytes : Nat) (sync0 sync1 sync2 id data : Nat) :
    BufferStreamBase × List StreamCall :=
  let flags := [BufferFlag.GL_MAP_PERSISTENT_BIT, BufferFlag.GL_MAP_WRITE_BIT]
  let a0 := FenceSync.new sync0
  let a1 := FenceSync.new sync1
  let a2 := FenceSync.new sync2
  let fences : FenceArray := { f0 := a0.1, f1 := a1.1, f2 := a2.1 }
  let handle : ResourceHandle := { _id := id }
  let size_bytes := (size_bytes * fences.size) % SIZE_MOD
  ({ fences := fences, buffer := { data := data, size := size_bytes }, slot := 0,
     handle := handle },
   a0.2 ++ a1.2 ++ a2.2 ++
    [.glCreateBuffers id,
     .glNamedBufferStorage handle.id size_bytes 0 flags,
     .glMapNamedBufferRange handle.id 0 size_bytes flags data])

/-- The loop `while (!fences[slot].is_ready());` run against the answers that
successive `glClientWaitSync` calls get.  It ends at the first answer that
`is_ready` accepts; `none` when the answers supplied run out first (the loop
is still spinning). -/
def spin (f : FenceSync) : List WaitResult → Option (List StreamCall)
  | [] => none
  | res :: rest =>
    let r := f.is_ready res
    if r.1 then some r.2 else (spin f rest).map (fun t => r.2 ++ t)

/-- `BufferStreamBase::write_lock_acquire`:
`slot = (slot + 1) % slots(); while (!fences[slot].is_ready());`. -/
def BufferStreamBase.write_lock_acquire (s : BufferStreamBase) (answers : List WaitResult) :
    Option (BufferStreamBase × List StreamCall) :=
  let s1 := { s with slot := ((s.slot + 1) % SIZE_MOD) % s.slots }
  match s1.fences.get s1.slot with
  | none => none
  | some fence => (spin fence answers).map (fun t => (s1, t))

/-- `BufferStreamBase::write_lock_release`:
`glMemoryBarrier(GL_CLIENT_MAPPED_BUFFER_BARRIER_BIT); fences[slot].resubmit();`. -/
def BufferStreamBase.write_lock_release (s : BufferStreamBase) (sync : Nat) :
    Option (BufferStreamBase × List StreamCall) :=
  match s.fences.get s.slot with
  | none => none
  | some fence =>
    let r := fence.resubmit sync
    (s.fences.set r.1 s.slot).map
      (fun fs => ({ s with fences := fs }, StreamCall.glMemoryBarrier :: r.2))

/-- `BufferStreamBase::update(f)`:
`write_lock_acquire(); f(slot_span()); write_lock_release();`.  The call of
`f` is recorded with the span it is given.  Inputs: the answers to the polls
of the wait loop and the sync object the re-created fence gets. -/
def BufferStreamBase.update (s : BufferStreamBase) (answers : List WaitResult) (sync : Nat) :
    Option (BufferStreamBase × List StreamCall) :=
  match s.write_lock_acquire answers with
  | none => none
  | some (s1, t1) =>
    match s1.slot_span with
    | none => none
    | some span =>
      match s1.write_lock_release sync with
      | none => none
      | some (s2, t2) => some (s2, t1 ++ [StreamCall.writer span] ++ t2)

/-- `BufferStreamBase::bind_to_uniform`: `glBindBufferRange(GL_UNIFORM_BUFFER,
index, handle.id(), slot * size_bytes(), size_bytes())`. -/
def BufferStreamBase.bind_to_uniform (s : BufferStreamBase) (index : Nat) : List StreamCall :=
  [.glBindBufferRange .GL_UNIFORM_BUFFER index s.handle.id
    ((s.slot * s.size_bytes) % SIZE_MOD) s.size_bytes]

/-- `BufferStreamBase::bind_to_storage`: the same range on
`GL_SHADER_STORAGE_BUFFER`. -/
def BufferStreamBase.bind_to_storage (s : BufferStreamBase) (index : Nat) : List StreamCall :=
  [.glBindBufferRange .GL_SHADER_STORAGE_BUFFER index s.handle.id
    ((s.slot * s.size_bytes) % SIZE_MOD) s.size_bytes]

/-- The state invariant of a stream buffer: the size of the mapped span is a
`std::size_t` value and the slot index is below `slots()`. -/
def BufferStreamBase.Valid (s : BufferStreamBase) : Prop :=
  s.buffer.size < SIZE_MOD ∧ s.slot < s.slots

/-- A run of `update` calls, each with its own inputs (poll answers, new sync
object).  Yields, per call, the state it leaves and the calls it made. -/
def BufferStreamBase.updates (s : BufferStreamBase) :
    List (List WaitResult × Nat) → Option (List (BufferStreamBase × List StreamCall))
  | [] => some []
  | (answers, sync) :: rest =>
    match s.update answers sync with
    | none => none
    | some (s1, t) => (s1.updates rest).map (fun l => (s1, t) :: l)

/-- The spans handed to the writer in a trace, in order. -/
def writes : List StreamCall → List Span
  | [] => []
  | .writer span :: t => span :: writes t
  | _ :: t => writes t

/-- The polls a wait loop makes given the answers on offer: all answers up to
and including the first one that `is_ready` accepts. -/
def polled : List WaitResult → List WaitResult
  | [] => []
  | res :: rest => if res.ready then [res] else res :: polled rest

/-- The counting invariant of the handle world: every non-zero name has been
deleted or is held exactly as often as it was created, and name 0 is never
deleted. -/
def HandleWorld.Balanced (w : HandleWorld) : Prop :=
  (∀ k i, i ≠ 0 → deletions k i w.trace + holders k i w.objects = creations k i w.trace)
    ∧ ∀ k, deletions k 0 w.trace = 0

/-! ### The window frame (`Frame.hpp`, `Frame.cpp`) -/

/-- A C `double`, by its bit pattern.  The code below only copies such values. -/
structure CDouble where
  bits : Nat
  deriving DecidableEq, Repr

/-- A C `float`, by its bit pattern.  The code below only copies such values. -/
structure CFloat where
  bits : Nat
  deriving DecidableEq, Repr

/-- `enum class Key : int`. -/
structure Key where
  val : Int
  deriving DecidableEq, Repr

/-- `enum class MouseButton : int`. -/
structure MouseButton where
  val : Int
  deriving DecidableEq, Repr

/-- `enum class InputAction : int`. -/
structure InputAction where
  val : Int
  deriving DecidableEq, Repr

/-- `enum class InputModifier : int`. -/
structure InputModifier where
  val : Int
  deriving DecidableEq, Repr

/-- Conversion of an `int` argument to a `bool` parameter. -/
def intToBool (x : Int) : Bool := decide (x ≠ 0)

/-- The file-level callback functions of `Frame.cpp` that take a window. -/
inductive Trampoline
  | on_key_w
  | on_char_w
  | on_char_mods_w
  | on_mouse_button_w
  | on_cursor_w
  | on_cursor_enter_w
  | on_scroll_w
  | on_drop_w
  | on_window_move_w
  | window_size_cb_w
  | on_window_close_w
  | on_window_refresh_w
  | on_window_focus_w
  | on_window_iconify_w
  | on_window_maximize_w
  | on_window_resize_w
  | on_window_content_scale_w
  deriving DecidableEq, Repr

/-- The per-window callback slots of GLFW that the constructor fills, named
after their `glfwSet...Callback` functions. -/
inductive CallbackSlot
  | Key
  | Char
  | CharMods
  | MouseButton
  | CursorPos
  | CursorEnter
  | Scroll
  | Drop
  | WindowPos
  | WindowClose
  | WindowRefresh
  | WindowFocus
  | WindowIconify
  | WindowMaximize
  | FramebufferSize
  | WindowContentScale
  deriving DecidableEq, Repr

/-- The arguments GLFW passes after the window, by C signature of the
callback type. -/
inductive NativeArgs
  | key (key scancode action mods : Int)
  | char (codepoint : Nat)
  | charMods (codepoint : Nat) (mods : Int)
  | int3 (a b c : Int)
  | double2 (x y : CDouble)
  | int1 (a : Int)
  | drop (path_count : Int) (paths : List String)
  | int2 (a b : Int)
  | unit
  | float2 (x y : CFloat)
  deriving DecidableEq, Repr

/-- A call of one of the virtual event methods of `Frame`, with its arguments. -/
inductive MethodCall
  | on_key (k : Key) (action : InputAction) (mods : InputModifier)
  | on_char (codepoint : Nat)
  | on_char_mods (codepoint : Nat) (mods : InputModifier)
  | on_mouse_button (mb : MouseButton) (action : InputAction) (mods : InputModifier)
  | on_cursor (position : CDouble × CDouble)
  | on_cursor_enter (entered : Bool)
  | on_scroll (offset : CDouble × CDouble)
  | on_drop (paths : List String)
  | on_window_move (position : Int × Int)
  | on_window_resize (width height : Int)
  | on_window_close
  | on_window_refresh
  | on_window_focus (focused : Bool)
  | on_window_iconify (iconified : Bool)
  | on_window_maximize (maximized : Bool)
  | on_window_content_scale (scale : CFloat × CFloat)
  deriving DecidableEq, Repr

/-- Window hints set by the constructor. -/
inductive WindowHint
  | GLFW_OPENGL_DEBUG_CONTEXT
  | GLFW_CLIENT_API
  | GLFW_CONTEXT_VERSION_MAJOR
  | GLFW_CONTEXT_VERSION_MINOR
  | GLFW_OPENGL_PROFILE
  | GLFW_RESIZABLE
  deriving DecidableEq, Repr

/-- Values given to the window hints. -/
inductive HintValue
  | GLFW_TRUE
  | GLFW_FALSE
  | GLFW_OPENGL_API
  | GLFW_OPENGL_COMPAT_PROFILE
  | number (n : Int)
  deriving DecidableEq, Repr

/-- Capabilities enabled in debug builds. -/
inductive DebugCap
  | GL_DEBUG_OUTPUT
  | GL_DEBUG_OUTPUT_SYNCHRONOUS
  deriving DecidableEq, Repr

/-- What `Frame` does that can be seen from outside: calls into GLFW, the
loader and the logger, with the answers that matter. -/
inductive GLFWCall
  | glfwSetErrorCallback
  | glfwInit
  | glfwTerminate
  | glfwWindowHint (hint : WindowHint) (value : HintValue)
  | glfwCreateWindow (width height : Int) (title : String) (ret : Nat)
  | glfwWindowShouldClose (window : Nat) (ret : Bool)
  | glfwSetWindowUserPointer (window pointer : Nat)
  | glfwSetCallback (slot : CallbackSlot) (window : Nat) (cb : Trampoline)
  | glfwMakeContextCurrent (window : Nat)
  | glfwSwapInterval (interval : Int)
  | gladLoadGLLoader (ret : Int)
  | glad_set_pre_callback
  | glEnable (cap : DebugCap)
  | glDebugMessageCallback
  | glDebugMessageControl
  | glfwSetWindowShouldClose (window : Nat) (value : Bool)
  | glfwPollEvents
  | glfwDestroyWindow (window : Nat)
  | glfwSwapBuffers (window : Nat)
  | loggerError (msg : String)
  deriving DecidableEq, Repr

/-- What GLFW keeps for a window: the user pointer, the close flag and the
callbacks set (newest first). -/
structure GLFWwindow where
  ptr : Nat
  userPointer : Nat := 0
  shouldClose : Bool := false
  callbacks : List (CallbackSlot × Trampoline) := []
  deriving DecidableEq, Repr

/-- Class `Frame`: its only data member, `GLFWwindow* window = nullptr`. -/
structure Frame where
  window : Nat := 0
  deriving DecidableEq, Repr

/-- A live `Frame` object: where it is and its member. -/
structure FrameObj where
  addr : Nat
  frame : Frame
  deriving DecidableEq, Repr

/-- `class FrameException`. -/
inductive FrameException
  | mk
  deriving DecidableEq, Repr

/-- How a constructor call ends. -/
inductive Constructed
  | returned (f : Frame)
  | threw (e : FrameException)
  deriving DecidableEq, Repr

/-- The state of a program that uses frames: the static `GLFW::ref_count`, the
windows alive inside GLFW, the live `Frame` objects, whether the build defines
`NDEBUG`, and the calls made so far (oldest first). -/
structure FrameWorld where
  ref_count : Int := 0
  windows : List GLFWwindow := []
  frames : List FrameObj := []
  ndebug : Bool := false
  trace : List GLFWCall := []
  deriving DecidableEq, Repr

/-- Append call records to the trace. -/
def FrameWorld.emit (w : FrameWorld) (cs : List GLFWCall) : FrameWorld :=
  { w with trace := w.trace ++ cs }

/-- The window GLFW keeps under a pointer, if it is alive. -/
def FrameWorld.findWindow (w : FrameWorld) (window : Nat) : Option GLFWwindow :=
  w.windows.find? (fun x => x.ptr = window)

/-- Apply `f` to the (first) window kept under a pointer. -/
def modifyWindow (window : Nat) (f : GLFWwindow → GLFWwindow) : List GLFWwindow → List GLFWwindow
  | [] => []
  | x :: xs => if x.ptr = window then f x :: xs else x :: modifyWindow window f xs

/-- Remove the (first) window kept under a pointer. -/
def removeWindow (window : Nat) : List GLFWwindow → List GLFWwindow
  | [] => []
  | x :: xs => if x.ptr = window then xs else x :: removeWindow window xs

/-- The live `Frame` object at an address, if any. -/
def FrameWorld.findFrame (w : FrameWorld) (a : Nat) : Option FrameObj :=
  w.frames.find? (fun o => o.addr = a)

/-- Replace the member of the (first) `Frame` object at address `a`. -/
def setFrame (a : Nat) (f : Frame) : List FrameObj → List FrameObj
  | [] => []
  | o :: os => if o.addr = a then { o with frame := f } :: os else o :: setFrame a f os

/-- Remove the (first) `Frame` object at address `a`. -/
def removeFrame (a : Nat) : List FrameObj → List FrameObj
  | [] => []
  | o :: os => if o.addr = a then os else o :: removeFrame a os

/-- `glfwGetWindowUserPointer`; `0` (a null pointer) for a window GLFW does
not know. -/
def FrameWorld.glfwGetWindowUserPointer (w : FrameWorld) (window : Nat) : Nat :=
  match w.findWindow window with
  | some x => x.userPointer
  | none => 0

/-- `glfwSetWindowUserPointer`. -/
def FrameWorld.glfwSetWindowUserPointer (w : FrameWorld) (window pointer : Nat) : FrameWorld :=
  { w with windows := modifyWindow window (fun x => { x with userPointer := pointer }) w.windows,
           trace := w.trace ++ [.glfwSetWindowUserPointer window pointer] }

/-- One of the sixteen `glfwSet...Callback` functions. -/
def FrameWorld.glfwSetCallback (w : FrameWorld) (slot : CallbackSlot) (window : Nat)
    (cb : Trampoline) : FrameWorld :=
  { w with windows :=
             modifyWindow window (fun x => { x with callbacks := (slot, cb) :: x.callbacks })
               w.windows,
           trace := w.trace ++ [.glfwSetCallback slot window cb] }

/-- `glfwSetWindowShouldClose`. -/
def FrameWorld.glfwSetWindowShouldClose (w : FrameWorld) (window : Nat) (value : Bool) :
    FrameWorld :=
  { w with windows := modifyWindow window (fun x => { x with shouldClose := value }) w.windows,
           trace := w.trace ++ [.glfwSetWindowShouldClose window value] }

/-- `glfwCreateWindow`, given the pointer it returns and the close flag the new
window starts with; a null pointer creates nothing. -/
def FrameWorld.glfwCreateWindow (w : FrameWorld) (width height : Int) (title : String)
    (ret : Nat) (flagged : Bool) : FrameWorld :=
  { w with windows := if ret = 0 then w.windows
                      else { ptr := ret, shouldClose := flagged } :: w.windows,
           trace := w.trace ++ [.glfwCreateWindow width height title ret] }

/-- `glfwDestroyWindow`. -/
def FrameWorld.glfwDestroyWindow (w : FrameWorld) (window : Nat) : FrameWorld :=
  { w with windows := removeWindow window w.windows,
           trace := w.trace ++ [.glfwDestroyWindow window] }

/-- `GLFW::inc_ref_count`: `if (ref_count == 0) glfwInit(); ++ref_count;`. -/
def FrameWorld.inc_ref_count (w : FrameWorld) : FrameWorld :=
  let w1 := if w.ref_count = 0 then w.emit [.glfwInit] else w
  { w1 with ref_count := w1.ref_count + 1 }

/-- `GLFW::dec_ref_count`: `--ref_count; if (ref_count == 0) glfwTerminate();`
(`glfwTerminate` destroys the windows that remain). -/
def FrameWorld.dec_ref_count (w : FrameWorld) : FrameWorld :=
  let w1 := { w with ref_count := w.ref_count - 1 }
  if w1.ref_count = 0 then { w1 with windows := [], trace := w1.trace ++ [.glfwTerminate] }
  else w1

/-- `glfwWindowShouldClose`.  For a pointer GLFW does not know the call has no
defined result; the embedding answers `false` there. -/
def FrameWorld.glfwWindowShouldClose (w : FrameWorld) (window : Nat) : Bool × FrameWorld :=
  let r := match w.findWindow window with
    | some x => x.shouldClose
    | none => false
  (r, w.emit [.glfwWindowShouldClose window r])

/-- `Frame::is_open`: `if (window == nullptr) return false;
return glfwWindowShouldClose(window) == false;`. -/
def Frame.is_open (f : Frame) (w : FrameWorld) : Bool × FrameWorld :=
  if f.window = 0 then (false, w)
  else
    let r := w.glfwWindowShouldClose f.window
    (r.1 == false, r.2)

/-- `Frame::swap_buffers`: `if (is_open()) glfwSwapBuffers(window);`. -/
def Frame.swap_buffers (f : Frame) (w : FrameWorld) : FrameWorld :=
  let r := f.is_open w
  if r.1 then r.2.emit [.glfwSwapBuffers f.window] else r.2

/-- The sixteen registrations of the constructor, in source order. -/
def Frame.set_callbacks (w : FrameWorld) (window : Nat) : FrameWorld :=
  let w := w.glfwSetCallback .Key window .on_key_w
  let w := w.glfwSetCallback .Char window .on_char_w
  let w := w.glfwSetCallback .CharMods window .on_char_mods_w
  let w := w.glfwSetCallback .MouseButton window .on_mouse_button_w
  let w := w.glfwSetCallback .CursorPos window .on_cursor_w
  let w := w.glfwSetCallback .CursorEnter window .on_cursor_enter_w
  let w := w.glfwSetCallback .Scroll window .on_scroll_w
  let w := w.glfwSetCallback .Drop window .on_drop_w
  let w := w.glfwSetCallback .WindowPos window .on_window_move_w
  let w := w.glfwSetCallback .WindowClose window .on_window_close_w
  let w := w.glfwSetCallback .WindowRefresh window .on_window_refresh_w
  let w := w.glfwSetCallback .WindowFocus window .on_window_focus_w
  let w := w.glfwSetCallback .WindowIconify window .on_window_iconify_w
  let w := w.glfwSetCallback .WindowMaximize window .on_window_maximize_w
  let w := w.glfwSetCallback .FramebufferSize window .on_window_resize_w
  w.glfwSetCallback .WindowContentScale window .on_window_content_scale_w

/-- `Frame::Frame(int width, int height, std::string_view title)` for the
object at address `this`.  Inputs besides the arguments: the pointer
`glfwCreateWindow` returns, the close flag the new window starts with, and
what `gladLoadGLLoader` returns.  A constructor that throws leaves no object. -/
def Frame.ctor (w : FrameWorld) (this : Nat) (width height : Int) (title : String)
    (created : Nat) (flagged : Bool) (glad : Int) : FrameWorld × Constructed :=
  let w := w.emit [.glfwSetErrorCallback]
  let w := w.inc_ref_count
  let w := w.emit
    [.glfwWindowHint .GLFW_OPENGL_DEBUG_CONTEXT (if w.ndebug then .GLFW_FALSE else .GLFW_TRUE),
     .glfwWindowHint .GLFW_CLIENT_API .GLFW_OPENGL_API,
     .glfwWindowHint .GLFW_CONTEXT_VERSION_MAJOR (.number 4),
     .glfwWindowHint .GLFW_CONTEXT_VERSION_MINOR (.number 5),
     .glfwWindowHint .GLFW_OPENGL_PROFILE .GLFW_OPENGL_COMPAT_PROFILE,
     .glfwWindowHint .GLFW_RESIZABLE .GLFW_FALSE]
  let w := w.glfwCreateWindow width height title created flagged
  let f : Frame := { window := created }
  let r := if f.window ≠ 0 then f.is_open w else (false, w)
  if r.1 = false then
    (r.2.emit [.loggerError "Window creation failed"], .threw .mk)
  else
    let w := r.2.glfwSetWindowUserPointer f.window this
    let w := Frame.set_callbacks w f.window
    let w := w.emit [.glfwMakeContextCurrent f.window, .glfwSwapInterval 0,
      .gladLoadGLLoader glad]
    if glad = 0 then
      (w.emit [.loggerError "Unable to load OpenGL pointers"], .threw .mk)
    else
      let w := if w.ndebug then w
        else w.emit [.glad_set_pre_callback, .glEnable .GL_DEBUG_OUTPUT,
          .glEnable .GL_DEBUG_OUTPUT_SYNCHRONOUS, .glDebugMessageCallback,
          .glDebugMessageControl]
      (w, .returned f)

/-- `Frame::Frame(Frame&& other)`: `window = other.window; other.window =
nullptr;`.  Returns the new object and the source as it is left. -/
def Frame.move (other : Frame) : Frame × Frame :=
  ({ window := other.window }, { other with window := 0 })

/-- `Frame::~Frame`: `if (window) { glfwSetWindowShouldClose(window, true);
glfwPollEvents(); glfwDestroyWindow(window); GLFW::dec_ref_count(); }`. -/
def Frame.dtor (f : Frame) (w : FrameWorld) : FrameWorld :=
  if f.window ≠ 0 then
    let w := w.glfwSetWindowShouldClose f.window true
    let w := w.emit [.glfwPollEvents]
    let w := w.glfwDestroyWindow f.window
    w.dec_ref_count
  else w

/-- The macro `FORWARD_CB` reads the user pointer of the window and calls a
method on the `Frame` it points to; a trampoline yields that pointer and the
method call it makes. -/
def on_key_w (w : FrameWorld) (window : Nat) (key _scancode action mods : Int) :
    Nat × MethodCall :=
  (w.glfwGetWindowUserPointer window, .on_key ⟨key⟩ ⟨action⟩ ⟨mods⟩)

/-- `on_char_w`. -/
def on_char_w (w : FrameWorld) (window : Nat) (codepoint : Nat) : Nat × MethodCall :=
  (w.glfwGetWindowUserPointer window, .on_char codepoint)

/-- `on_char_mods_w`. -/
def on_char_mods_w (w : FrameWorld) (window : Nat) (codepoint : Nat) (mods : Int) :
    Nat × MethodCall :=
  (w.glfwGetWindowUserPointer window, .on_char_mods codepoint ⟨mods⟩)

/-- `on_mouse_button_w`. -/
def on_mouse_button_w (w : FrameWorld) (window : Nat) (button action mods : Int) :
    Nat × MethodCall :=
  (w.glfwGetWindowUserPointer window, .on_mouse_button ⟨button⟩ ⟨action⟩ ⟨mods⟩)

/-- `on_cursor_w`. -/
def on_cursor_w (w : FrameWorld) (window : Nat) (xpos ypos : CDouble) : Nat × MethodCall :=
  (w.glfwGetWindowUserPointer window, .on_cursor (xpos, ypos))

/-- `on_cursor_enter_w`. -/
def on_cursor_enter_w (w : FrameWorld) (window : Nat) (entered : Int) : Nat × MethodCall :=
  (w.glfwGetWindowUserPointer window, .on_cursor_enter (intToBool entered))

/-- `on_scroll_w`. -/
def on_scroll_w (w : FrameWorld) (window : Nat) (xoffset yoffset : CDouble) :
    Nat × MethodCall :=
  (w.glfwGetWindowUserPointer window, .on_scroll (xoffset, yoffset))

/-- The loop of `on_drop_w`: entries `0 .. n-1` of the native array, in order.
Reading past the end of the array has no defined result (`none`). -/
def copyPaths (paths : List String) : Nat → Option (List String)
  | 0 => some []
  | n + 1 =>
    match copyPaths paths n, paths[n]? with
    | some vpaths, some p => some (vpaths ++ [p])
    | _, _ => none

/-- `on_drop_w`.  A negative `path_count` makes the `std::vector` constructor
throw inside a C callback (`none`). -/
def on_drop_w (w : FrameWorld) (window : Nat) (path_count : Int) (paths : List String) :
    Option (Nat × MethodCall) :=
  if path_count < 0 then none
  else (copyPaths paths path_count.toNat).map
    (fun vpaths => (w.glfwGetWindowUserPointer window, .on_drop vpaths))

/-- `on_window_move_w`. -/
def on_window_move_w (w : FrameWorld) (window : Nat) (xpos ypos : Int) : Nat × MethodCall :=
  (w.glfwGetWindowUserPointer window, .on_window_move (xpos, ypos))

/-- `window_size_cb_w` (defined in the file, registered nowhere). -/
def window_size_cb_w (w : FrameWorld) (window : Nat) (width height : Int) : Nat × MethodCall :=
  (w.glfwGetWindowUserPointer window, .on_window_resize width height)

/-- `on_window_close_w`. -/
def on_window_close_w (w : FrameWorld) (window : Nat) : Nat × MethodCall :=
  (w.glfwGetWindowUserPointer window, .on_window_close)

/-- `on_window_refresh_w`. -/
def on_window_refresh_w (w : FrameWorld) (window : Nat) : Nat × MethodCall :=
  (w.glfwGetWindowUserPointer window, .on_window_refresh)

/-- `on_window_focus_w`. -/
def on_window_focus_w (w : FrameWorld) (window : Nat) (focused : Int) : Nat × MethodCall :=
  (w.glfwGetWindowUserPointer window, .on_window_focus (intToBool focused))

/-- `on_window_iconify_w`. -/
def on_window_iconify_w (w : FrameWorld) (window : Nat) (iconified : Int) : Nat × MethodCall :=
  (w.glfwGetWindowUserPointer window, .on_window_iconify (intToBool iconified))

/-- `on_window_maximize_w`. -/
def on_window_maximize_w (w : FrameWorld) (window : Nat) (maximized : Int) : Nat × MethodCall :=
  (w.glfwGetWindowUserPointer window, .on_window_maximize (intToBool maximized))

/-- `on_window_resize_w`. -/
def on_window_resize_w (w : FrameWorld) (window : Nat) (width height : Int) :
    Nat × MethodCall :=
  (w.glfwGetWindowUserPointer window, .on_window_resize width height)

/-- `on_window_content_scale_w`. -/
def on_window_content_scale_w (w : FrameWorld) (window : Nat) (xscale yscale : CFloat) :
    Nat × MethodCall :=
  (w.glfwGetWindowUserPointer window, .on_window_content_scale (xscale, yscale))

/-- Calling a trampoline through a GLFW callback pointer: possible only with
arguments of the trampoline's own C signature (`none` otherwise, and when the
trampoline itself has no defined result). -/
def Trampoline.invoke (w : FrameWorld) (window : Nat) :
    Trampoline → NativeArgs → Option (Nat × MethodCall)
  | .on_key_w, .key k sc a m => some (ori.on_key_w w window k sc a m)
  | .on_char_w, .char c => some (ori.on_char_w w window c)
  | .on_char_mods_w, .charMods c m => some (ori.on_char_mods_w w window c m)
  | .on_mouse_button_w, .int3 b a m => some (ori.on_mouse_button_w w window b a m)
  | .on_cursor_w, .double2 x y => some (ori.on_cursor_w w window x y)
  | .on_cursor_enter_w, .int1 e => some (ori.on_cursor_enter_w w window e)
  | .on_scroll_w, .double2 x y => some (ori.on_scroll_w w window x y)
  | .on_drop_w, .drop n ps => ori.on_drop_w w window n ps
  | .on_window_move_w, .int2 x y => some (ori.on_window_move_w w window x y)
  | .window_size_cb_w, .int2 x y => some (ori.window_size_cb_w w window x y)
  | .on_window_close_w, .unit => some (ori.on_window_close_w w window)
  | .on_window_refresh_w, .unit => some (ori.on_window_refresh_w w window)
  | .on_window_focus_w, .int1 x => some (ori.on_window_focus_w w window x)
  | .on_window_iconify_w, .int1 x => some (ori.on_window_iconify_w w window x)
  | .on_window_maximize_w, .int1 x => some (ori.on_window_maximize_w w window x)
  | .on_window_resize_w, .int2 x y => some (ori.on_window_resize_w w window x y)
  | .on_window_content_scale_w, .float2 x y => some (ori.on_window_content_scale_w w window x y)
  | _, _ => none

/-- The callback GLFW holds in a slot of a window: the one set last. -/
def GLFWwindow.callback (x : GLFWwindow) (slot : CallbackSlot) : Option Trampoline :=
  (x.callbacks.find? (fun c => c.1 = slot)).map (fun c => c.2)

/-- GLFW delivering one native event of a slot to a window: it calls the
callback held in that slot, if any.  Yields the method calls made, each with
the address of the `Frame` it is made on. -/
def FrameWorld.fire (w : FrameWorld) (window : Nat) (slot : CallbackSlot) (args : NativeArgs) :
    Option (List (Nat × MethodCall)) :=
  match w.findWindow window with
  | none => none
  | some x =>
    match x.callback slot with
    | none => some []
    | some cb => (cb.invoke w window args).map (fun c => [c])

/-- What a program can do with `Frame` objects.  `windowCtor` carries the
constructor arguments and the answers of the libraries. -/
inductive FrameOp
  | windowCtor (this : Nat) (width height : Int) (title : String) (created : Nat)
      (flagged : Bool) (glad : Int)
  | defaultCtor (this : Nat)
  | moveCtor (this other : Nat)
  | dtor (this : Nat)
  deriving DecidableEq, Repr

/-- One operation.  `none` is a program that C++ does not allow: constructing
over a live object, moving from or destroying an object that is not alive. -/
def FrameWorld.step (w : FrameWorld) : FrameOp → Option FrameWorld
  | .windowCtor this width height title created flagged glad =>
    match w.findFrame this with
    | some _ => none
    | none =>
      let r := Frame.ctor w this width height title created flagged glad
      match r.2 with
      | .returned f => some { r.1 with frames := { addr := this, frame := f } :: r.1.frames }
      | .threw _ => some r.1
  | .defaultCtor this =>
    match w.findFrame this with
    | some _ => none
    | none => some { w with frames := { addr := this, frame := {} } :: w.frames }
  | .moveCtor this other =>
    match w.findFrame this, w.findFrame other with
    | none, some o =>
      let r := o.frame.move
      some { w with frames := { addr := this, frame := r.1 } :: setFrame other r.2 w.frames }
    | _, _ => none
  | .dtor this =>
    match w.findFrame this with
    | none => none
    | some o =>
      let w1 := o.frame.dtor w
      some { w1 with frames := removeFrame this w1.frames }

/-- A sequence of operations, left to right. -/
def FrameWorld.run (w : FrameWorld) : List FrameOp → Option FrameWorld
  | [] => some w
  | op :: ops =>
    match w.step op with
    | none => none
    | some w' => w'.run ops

/-- The callbacks a window holds once `Frame.set_callbacks` has run on it
fresh from `glfwCreateWindow` (newest first). -/
def registeredCallbacks : List (CallbackSlot × Trampoline) :=
  [(.WindowContentScale, .on_window_content_scale_w), (.FramebufferSize, .on_window_resize_w),
   (.WindowMaximize, .on_window_maximize_w), (.WindowIconify, .on_window_iconify_w),
   (.WindowFocus, .on_window_focus_w), (.WindowRefresh, .on_window_refresh_w),
   (.WindowClose, .on_window_close_w), (.WindowPos, .on_window_move_w),
   (.Drop, .on_drop_w), (.Scroll, .on_scroll_w), (.CursorEnter, .on_cursor_enter_w),
   (.CursorPos, .on_cursor_w), (.MouseButton, .on_mouse_button_w),
   (.CharMods, .on_char_mods_w), (.Char, .on_char_w), (.Key, .on_key_w)]

/-- Whether a `Frame` operation is a window constructor that throws (by
`ctor_outcome`: no window, a window flagged to close, or no loader). -/
def FrameOp.throws : FrameOp → Bool
  | .windowCtor _ _ _ _ created flagged glad =>
    decide (created = 0) || flagged || decide (glad = 0)
  | _ => false

/-- Number of live `Frame` objects in a list that hold a non-null window. -/
def holdingWindow (os : List FrameObj) : Nat :=
  os.countP (fun o => o.frame.window ≠ 0)

/-! ### Shaders and programs (`wrappers.hpp` 268-389, `wrappers.cpp` 318-453) -/

/-- The exceptions that the functions embedded below let escape. -/
inductive CppException
  | ShaderException
  | ImageException
  | out_of_range
  deriving DecidableEq, Repr

/-- How a call that may throw ends. -/
inductive Outcome (α : Type)
  | returned (a : α)
  | threw (e : CppException)
  deriving DecidableEq, Repr

/-- The character that terminates a C string. -/
def NUL : Char := Char.ofNat 0

/-- A `std::string_view`: the characters of the view (`data()[0]` to
`data()[size() - 1]`) and the characters that follow them in the array the
view points into, as far as that array goes. -/
structure StringView where
  text : List Char
  after : List Char := []
  deriving DecidableEq, Repr

/-- `std::string_view::size`. -/
def StringView.size (v : StringView) : Nat := v.text.length

/-- The view of a string literal or of a whole `std::string`: its characters,
followed in memory by the terminating NUL. -/
def StringView.ofString (s : String) : StringView :=
  { text := s.toList, after := [NUL] }

/-- What a C function reads when it is handed `data()` as a NUL-terminated
string: the characters from the start of the view up to the first NUL of the
array.  `none`: the array holds no NUL from there on, so the read runs past
its end. -/
def StringView.c_str (v : StringView) : Option (List Char) :=
  if NUL ∈ v.text ++ v.after then
    some ((v.text ++ v.after).takeWhile (fun c => decide (c ≠ NUL)))
  else none

/-- `std::string_view::substr(pos)`: throws `std::out_of_range` when
`pos > size()`. -/
def StringView.substr (v : StringView) (pos : Nat) : Outcome StringView :=
  if pos > v.size then .threw .out_of_range
  else .returned { text := v.text.drop pos, after := v.after }

/-- The `pname` values used with `glGetShaderiv` and `glGetProgramiv`. -/
inductive StatusParam
  | GL_COMPILE_STATUS
  | GL_LINK_STATUS
  | GL_INFO_LOG_LENGTH
  deriving DecidableEq, Repr

/-- What the shader and program classes do that can be seen from outside.  A
`glShaderSource` record carries the string OpenGL reads (one string, no length
array); the `glGet...` records carry the answers. -/
inductive ShaderCall
  | gl (c : GLCall)
  | glShaderSource (shader : Nat) (string : Option (List Char))
  | glCompileShader (shader : Nat)
  | glGetShaderiv (shader : Nat) (pname : StatusParam) (ret : Int)
  | glGetShaderInfoLog (shader bufSize : Nat) (written : List Char)
  | glAttachShader (program shader : Nat)
  | glDetachShader (program shader : Nat)
  | glLinkProgram (program : Nat)
  | glGetProgramiv (program : Nat) (pname : StatusParam) (ret : Int)
  | glGetProgramInfoLog (program bufSize : Nat) (written : List Char)
  | loggerError (msg : String) (arg : List Char)
  deriving DecidableEq, Repr

/-- `compile_shader(id, contents)`.  Inputs besides the arguments: the compile
status OpenGL reports, and, for a failed compile, the length of the info log
(OpenGL reports a length that is not negative) and what `glGetShaderInfoLog`
writes. -/
def compile_shader (id : Nat) (contents : StringView) (is_compiled : Int) (length : Nat)
    (written : List Char) : List ShaderCall × Outcome Unit :=
  let t := [ShaderCall.glShaderSource id contents.c_str, .glCompileShader id,
    .glGetShaderiv id .GL_COMPILE_STATUS is_compiled]
  if is_compiled = 0 then
    (t ++ [.glGetShaderiv id .GL_INFO_LOG_LENGTH length, .glGetShaderInfoLog id length written,
        .loggerError "Shader compilation failed:\n\x7b\x7d" written],
     .threw .ShaderException)
  else (t, .returned ())

/-- The six shader classes. -/
inductive ShaderClass
  | VertexShader
  | GeometryShader
  | TessControlShader
  | TessEvaluationShader
  | FragmentShader
  | ComputeShader
  deriving DecidableEq, Repr

/-- The class of the `handle` member of each shader class. -/
def ShaderClass.handleClass : ShaderClass → HandleClass
  | .VertexShader => .VertexShaderHandle
  | .GeometryShader => .GeometryShaderHandle
  | .TessControlShader => .TessControlShaderHandle
  | .TessEvaluationShader => .TessEvaluationShaderHandle
  | .FragmentShader => .FragmentShaderHandle
  | .ComputeShader => .ComputeShaderHandle

/-- An object of one of the six shader classes: its `handle` member. -/
structure Shader where
  cls : ShaderClass
  handle : ResourceHandle
  deriving DecidableEq, Repr

/-- `VertexShader::id` and its five siblings: `handle.id()`. -/
def Shader.id (s : Shader) : Nat := s.handle.id

/-- `VertexShader::VertexShader(std::string_view contents)` and its five
siblings: the `handle` member is constructed (`ret` is the name
`glCreateShader` returns), then `compile_shader(handle.id(), contents)` runs;
when that throws, the member is destroyed again. -/
def Shader.ctor (cls : ShaderClass) (contents : StringView) (ret : Nat) (is_compiled : Int)
    (length : Nat) (written : List Char) : List ShaderCall × Outcome Shader :=
  let h := cls.handleClass.construct ret
  let r := compile_shader h.2.id contents is_compiled length written
  match r.2 with
  | .returned _ => (h.1.map .gl ++ r.1, .returned { cls := cls, handle := h.2 })
  | .threw e => (h.1.map .gl ++ r.1 ++ (cls.handleClass.destruct h.2).1.map .gl, .threw e)

/-- `ensure_linkage(program)`.  Inputs: the link status OpenGL reports, and,
for a failed link, the length of the info log and what `glGetProgramInfoLog`
writes. -/
def ensure_linkage (program : Nat) (is_linked : Int) (length : Nat) (written : List Char) :
    List ShaderCall × Outcome Unit :=
  let t := [ShaderCall.glGetProgramiv program .GL_LINK_STATUS is_linked]
  if is_linked = 0 then
    (t ++ [.glGetProgramiv program .GL_INFO_LOG_LENGTH length,
        .glGetProgramInfoLog program length written,
        .loggerError "Shader linkage failed:\n\x7b\x7d" written],
     .threw .ShaderException)
  else (t, .returned ())

/-- Class `ShaderProgram`: its `handle` member. -/
structure ShaderProgram where
  handle : ResourceHandle
  deriving DecidableEq, Repr

/-- The end of both constructors of `ShaderProgram`, after the calls `t` made
so far on the program of the member `h`: `ensure_linkage(handle.id())`; when
that throws, the member is destroyed again. -/
def ShaderProgram.finish (h : ResourceHandle) (t : List ShaderCall) (is_linked : Int)
    (length : Nat) (written : List Char) : List ShaderCall × Outcome ShaderProgram :=
  let r := ensure_linkage h.id is_linked length written
  match r.2 with
  | .returned _ => (t ++ r.1, .returned { handle := h })
  | .threw e =>
    (t ++ r.1 ++ (HandleClass.ShaderProgramHandle.destruct h).1.map .gl, .threw e)

/-- `ShaderProgram::ShaderProgram(const ShaderVec& shaders)`: the `handle`
member is constructed (`ret` is the name `glCreateProgram` returns); every
shader of `shaders.impl`, in order, is attached; the program is linked; every
shader, in order, is detached; then `ensure_linkage`. -/
def ShaderProgram.ctor_vec (shaders : List Shader) (ret : Nat) (is_linked : Int)
    (length : Nat) (written : List Char) : List ShaderCall × Outcome ShaderProgram :=
  let h := HandleClass.ShaderProgramHandle.construct ret
  let t := h.1.map ShaderCall.gl
    ++ shaders.map (fun s => ShaderCall.glAttachShader h.2.id s.id)
    ++ [ShaderCall.glLinkProgram h.2.id]
    ++ shaders.map (fun s => ShaderCall.glDetachShader h.2.id s.id)
  ShaderProgram.finish h.2 t is_linked length written

/-- `ShaderProgram::ShaderProgram(const VertexShader& vert, const
FragmentShader& frag)`: attach `vert`, attach `frag`, link, detach `vert`,
detach `frag`, then `ensure_linkage`. -/
def ShaderProgram.ctor_vert_frag (vert frag : Shader) (ret : Nat) (is_linked : Int)
    (length : Nat) (written : List Char) : List ShaderCall × Outcome ShaderProgram :=
  let h := HandleClass.ShaderProgramHandle.construct ret
  let t := h.1.map ShaderCall.gl
    ++ [ShaderCall.glAttachShader h.2.id vert.id, .glAttachShader h.2.id frag.id,
        .glLinkProgram h.2.id,
        .glDetachShader h.2.id vert.id, .glDetachShader h.2.id frag.id]
  ShaderProgram.finish h.2 t is_linked length written

/-- The shaders attached to `program` after the calls of a trace, given those
attached before: `glAttachShader` adds a shader that is not attached yet,
`glDetachShader` removes it. -/
def attachedAfter (program : Nat) : List Nat → List ShaderCall → List Nat
  | att, [] => att
  | att, .glAttachShader p s :: t =>
    attachedAfter program (if p = program ∧ s ∉ att then att ++ [s] else att) t
  | att, .glDetachShader p s :: t =>
    attachedAfter program (if p = program then att.erase s else att) t
  | att, _ :: t => attachedAfter program att t

/-! ### Images and array textures (`wrappers.hpp` 57-139 and 564-585, `wrappers.cpp` 45-108 and 686-755) -/

/-- `enum class ImageFormat`. -/
inductive ImageFormat
  | deduce
  | r
  | rg
  | rgb
  | rgba
  | bgr
  | bgra
  deriving DecidableEq, Repr

/-- `enum class InternalFormat`. -/
inductive InternalFormat
  | r_8
  | rg_8
  | rgb_8
  | rgba_8
  | srgb_8
  | srgba_8
  | r_16f
  | rg_16f
  | rgb_16f
  | rgba_16f
  | r_32f
  | rg_32f
  | rgb_32f
  | rgba_32f
  | depth_component
  deriving DecidableEq, Repr

/-- `struct Image`: the pixel data pointer, the dimensions (C `int`s) and the
format. -/
structure Image where
  data : Nat := 0
  width : Int := 0
  height : Int := 0
  format : ImageFormat := .rgba
  deriving DecidableEq, Repr

/-- `num_components`; the `default:` branch (`assert(false); return 0;`) is
the one for `deduce`. -/
def num_components : ImageFormat → Nat
  | .r => 1
  | .rg => 2
  | .rgb => 3
  | .rgba => 4
  | .bgr => 3
  | .bgra => 4
  | .deduce => 0

/-- What `Image::load` does that can be seen from outside.  A `stbi_load`
record carries the file name the library reads (a NUL-terminated string), the
number of channels asked for and the pointer returned. -/
inductive ImageCall
  | stbi_set_flip_vertically_on_load (flag : Bool)
  | stbi_load (filename : Option (List Char)) (desired_channels : Nat) (ret : Nat)
  | stbi_failure_reason
  | loggerError (msg : String) (arg : List Char)
  deriving DecidableEq, Repr

/-- `Image::load(path, format, flip_vertically)`.  Inputs besides the
arguments: the pointer `stbi_load` returns and the width and height it leaves
in the image.  The subtraction `path.size() - 3` is a `std::size_t` one. -/
def Image.load (path : StringView) (format : ImageFormat) (flip_vertically : Bool)
    (data : Nat) (x y : Int) : List ImageCall × Outcome Image :=
  let t0 := [ImageCall.stbi_set_flip_vertically_on_load flip_vertically]
  let deduced : List ImageCall × Outcome ImageFormat :=
    if format = .deduce then
      match path.substr ((path.size + (SIZE_MOD - 3)) % SIZE_MOD) with
      | .threw e => ([], .threw e)
      | .returned ext =>
        if ext.text = "png".toList then ([], .returned .rgba)
        else if ext.text = "jpg".toList then ([], .returned .rgb)
        else if ext.text = "bmp".toList then ([], .returned .bgr)
        else
          ([.loggerError "Unable to deduce image format from \x7b\x7d" path.text],
           .threw .ImageException)
    else ([], .returned format)
  match deduced.2 with
  | .threw e => (t0 ++ deduced.1, .threw e)
  | .returned format =>
    let t1 := t0 ++ deduced.1 ++ [.stbi_load path.c_str (num_components format) data]
    if data = 0 then
      (t1 ++ [.stbi_failure_reason,
          .loggerError "Unable to open \x7b\x7d: \x7b\x7d" path.text],
       .threw .ImageException)
    else (t1, .returned { data := data, width := x, height := y, format := format })

/-- Conversion of an `int` to `std::size_t`. -/
def toSizeT (x : Int) : Nat := (x % (SIZE_MOD : Int)).toNat

/-- Conversion `(int) n` of a `std::size_t` to a 32-bit `int`. -/
def toInt (n : Nat) : Int := ((n : Int) + 2 ^ 31) % 2 ^ 32 - 2 ^ 31

/-- The `pname` of a texture filter parameter. -/
inductive TextureParam
  | GL_TEXTURE_MIN_FILTER
  | GL_TEXTURE_MAG_FILTER
  deriving DecidableEq, Repr

/-- The values given to the filter parameters. -/
inductive TextureFilter
  | GL_LINEAR
  | GL_NEAREST
  deriving DecidableEq, Repr

/-- What `ArrayTexture2D` does that can be seen from outside.  The pixel type of
an upload is always `GL_UNSIGNED_BYTE` and is left out of the record. -/
inductive TextureCall
  | gl (c : GLCall)
  | glTextureParameteri (texture : Nat) (pname : TextureParam) (param : TextureFilter)
  | glTextureStorage3D (texture levels : Nat) (internalformat : InternalFormat)
      (width height depth : Nat)
  | glTextureSubImage3D (texture level xoffset yoffset zoffset width height depth : Nat)
      (format : ImageFormat) (pixels : Nat)
  | loggerError (msg : String) (arg : Nat)
  deriving DecidableEq, Repr

/-- Class `ArrayTexture2D`. -/
structure ArrayTexture2D where
  handle : ResourceHandle
  _width : Nat
  _height : Nat
  _layers : Nat
  deriving DecidableEq, Repr

/-- `ArrayTexture2D::id`. -/
def ArrayTexture2D.id (t : ArrayTexture2D) : Nat := t.handle.id

/-- `ArrayTexture2D::width`. -/
def ArrayTexture2D.width (t : ArrayTexture2D) : Nat := t._width

/-- `ArrayTexture2D::height`. -/
def ArrayTexture2D.height (t : ArrayTexture2D) : Nat := t._height

/-- `ArrayTexture2D::layers`. -/
def ArrayTexture2D.layers (t : ArrayTexture2D) : Nat := t._layers

/-- `ArrayTexture2D::set_anti_aliasing`. -/
def ArrayTexture2D.set_anti_aliasing (t : ArrayTexture2D) (value : Bool) : List TextureCall :=
  if value then
    [.glTextureParameteri t.handle.id .GL_TEXTURE_MIN_FILTER .GL_LINEAR,
     .glTextureParameteri t.handle.id .GL_TEXTURE_MAG_FILTER .GL_LINEAR]
  else
    [.glTextureParameteri t.handle.id .GL_TEXTURE_MIN_FILTER .GL_NEAREST,
     .glTextureParameteri t.handle.id .GL_TEXTURE_MAG_FILTER .GL_NEAREST]

/-- `ArrayTexture2D::ArrayTexture2D(width, height, depth, internal_format)`;
`ret` is the name `glCreateTextures` produces for the `handle` member. -/
def ArrayTexture2D.ctor (width height depth : Nat) (internal_format : InternalFormat)
    (ret : Nat) : List TextureCall × ArrayTexture2D :=
  let h := HandleClass.ArrayTexture2DHandle.construct ret
  let t : ArrayTexture2D := { handle := h.2, _width := width, _height := height,
                              _layers := depth }
  (h.1.map .gl ++ t.set_anti_aliasing false
      ++ [.glTextureStorage3D t.handle.id 1 internal_format t._width t._height t._layers],
   t)

/-- The loop of the two list constructors, from index `i` on: test image `i`;
if the test fires, log `msg` with `i` and throw `ImageException`; otherwise
upload the image to layer `i` with the dimensions of the texture. -/
def ArrayTexture2D.upload_loop (t : ArrayTexture2D) (reject : Image → Bool) (msg : String) :
    Nat → List Image → List TextureCall × Outcome Unit
  | _, [] => ([], .returned ())
  | i, img :: rest =>
    if reject img then ([.loggerError msg i], .threw .ImageException)
    else
      let r := ArrayTexture2D.upload_loop t reject msg (i + 1) rest
      (.glTextureSubImage3D t.handle.id 0 0 0 i t._width t._height 1 img.format img.data
          :: r.1, r.2)

/-- What follows the delegation in the two list constructors: the loop, and,
when it throws, the destruction of the object (the delegated-to constructor
has completed). -/
def ArrayTexture2D.fill (c : List TextureCall × ArrayTexture2D) (reject : Image → Bool)
    (msg : String) (images : List Image) : List TextureCall × Outcome ArrayTexture2D :=
  let r := c.2.upload_loop reject msg 0 images
  match r.2 with
  | .returned _ => (c.1 ++ r.1, .returned c.2)
  | .threw e =>
    (c.1 ++ r.1 ++ (HandleClass.ArrayTexture2DHandle.destruct c.2.handle).1.map .gl, .threw e)

/-- `ArrayTexture2D::ArrayTexture2D(const std::vector<Image>& images,
InternalFormat)`: delegates with the dimensions of `images.front()` and
`images.size()`, then runs the loop with the test
`!(images[i].width == (int) _width) || !(images[i].height == (int) _height)`.
`none`: `front()` of an empty vector. -/
def ArrayTexture2D.ctor_images (images : List Image) (internal_format : InternalFormat)
    (ret : Nat) : Option (List TextureCall × Outcome ArrayTexture2D) :=
  match images with
  | [] => none
  | first :: _ =>
    let c := ArrayTexture2D.ctor (toSizeT first.width) (toSizeT first.height) images.length
      internal_format ret
    some (ArrayTexture2D.fill c
      (fun img => !(decide (img.width = toInt c.2._width))
        || !(decide (img.height = toInt c.2._height)))
      "Image \x7b:d\x7d does not match specified dimensions" images)

/-- `ArrayTexture2D::ArrayTexture2D(const std::vector<ImagePtr>& images,
InternalFormat)`: the images are those the pointers point to; the test of the
loop is `images[i]->width > (int) _width || images[i]->height > (int) _height`. -/
def ArrayTexture2D.ctor_image_ptrs (images : List Image) (internal_format : InternalFormat)
    (ret : Nat) : Option (List TextureCall × Outcome ArrayTexture2D) :=
  match images with
  | [] => none
  | first :: _ =>
    let c := ArrayTexture2D.ctor (toSizeT first.width) (toSizeT first.height) images.length
      internal_format ret
    some (ArrayTexture2D.fill c
      (fun img => decide (img.width > toInt c.2._width)
        || decide (img.height > toInt c.2._height))
      "Image \x7b:d\x7d is greater than specified dimensions" images)

/-- The `glTextureSubImage3D` records of a trace, in order. -/
def uploads : List TextureCall → List TextureCall
  | [] => []
  | .glTextureSubImage3D a b c d e f g h i j :: t =>
    .glTextureSubImage3D a b c d e f g h i j :: uploads t
  | _ :: t => uploads t

/-- The upload of image `p.2` to layer `p.1` of texture `t`, with the
dimensions of the texture. -/
def uploadCall (t : ArrayTexture2D) (p : Nat × Image) : TextureCall :=
  .glTextureSubImage3D t.handle.id 0 0 0 p.1 t._width t._height 1 p.2.format p.2.data

/-! ### Stream meshes (`wrappers.hpp` 513-537, 591-654 and 694-740, `wrappers.cpp` 820-860) -/

/-- Number of values of `std::uint32_t`. -/
def UINT32_MOD : Nat := 2 ^ 32

/-- The component types `T` for which `MeshBase::type_to_int<T>` has a value.
For any other component type `type_to_int` throws `std::logic_error`, so no
mesh with such a vertex type gets constructed. -/
inductive AttribType
  | int8_t
  | uint8_t
  | int16_t
  | uint16_t
  | int32_t
  | uint32_t
  | float
  deriving DecidableEq, Repr

/-- `MeshBase::type_to_int<T>`. -/
def type_to_int : AttribType → Nat
  | .int8_t => 0x1400
  | .uint8_t => 0x1401
  | .int16_t => 0x1402
  | .uint16_t => 0x1403
  | .int32_t => 0x1404
  | .uint32_t => 0x1405
  | .float => 0x1406

/-- One element `glm::vec<D, T>` of the vertex tuple, as the mesh uses it: the
component type `T`, `vec_dimensions` (`D`) and `TUPLE_OFFSET`, the byte offset
of the element inside the tuple. -/
structure Attrib where
  type : AttribType
  dimensions : Nat
  offset : Nat
  deriving DecidableEq, Repr

/-- The template arguments of a mesh as far as the mesh uses them:
`sizeof(value_type)` and the elements of `value_type = std::tuple<Ts...>` in
order. -/
structure VertexType where
  sizeof : Nat
  elements : List Attrib
  deriving DecidableEq, Repr

/-- What a stream mesh does that can be seen from outside: the calls of its
vertex-array handle, the calls of its vertex stream, the call of the function
handed to `update` (with the first element and the element count of the
`gsl::span<T>` it is given), and the vertex-array calls. -/
inductive MeshCall
  | gl (c : GLCall)
  | stream (c : StreamCall)
  | writer (data count : Nat)
  | glVertexArrayElementBuffer (vaobj buffer : Nat)
  | glVertexArrayAttribBinding (vaobj attribindex bindingindex : Nat)
  | glEnableVertexArrayAttrib (vaobj index : Nat)
  | glVertexArrayAttribFormat (vaobj attribindex size type : Nat) (normalized : Bool)
      (relativeoffset : Nat)
  | glVertexArrayVertexBuffer (vaobj bindingindex buffer offset stride : Nat)
  deriving DecidableEq, Repr

/-- `ArrayBufferStream<T>::ArrayBufferStream(size)`:
`BufferStreamBase(size * sizeof(T))`. -/
def ArrayBufferStream.new (T : VertexType) (size : Nat) (sync0 sync1 sync2 id data : Nat) :
    BufferStreamBase × List StreamCall :=
  BufferStreamBase.new ((size * T.sizeof) % SIZE_MOD) sync0 sync1 sync2 id data

/-- `ArrayBufferStream<T>::update(f)`: `write_lock_acquire()`, then `f` on
`gsl::span<T>(span.data(), span.size() / sizeof(T))` for `span = slot_span()`,
then `write_lock_release()`.  `none` as in `BufferStreamBase::update`, and for
`sizeof(T) = 0`, which no type has. -/
def ArrayBufferStream.update (s : BufferStreamBase) (T : VertexType)
    (answers : List WaitResult) (sync : Nat) : Option (BufferStreamBase × List MeshCall) :=
  match s.write_lock_acquire answers with
  | none => none
  | some (s1, t1) =>
    match s1.slot_span with
    | none => none
    | some span =>
      if T.sizeof = 0 then none
      else
        match s1.write_lock_release sync with
        | none => none
        | some (s2, t2) =>
          some (s2, t1.map .stream ++ [MeshCall.writer span.data (span.size / T.sizeof)]
            ++ t2.map .stream)

/-- Class `MeshStream<Ts...>`: the `handle` of its base `MeshBase` and its
member `vertices`. -/
structure MeshStream where
  handle : ResourceHandle
  vertices : BufferStreamBase
  deriving DecidableEq, Repr

/-- `MeshBase::id`. -/
def MeshStream.id (m : MeshStream) : Nat := m.handle.id

/-- `MeshBase::attach`. -/
def MeshStream.attach (m : MeshStream) (indices : Nat) : List MeshCall :=
  [.glVertexArrayElementBuffer m.handle.id indices]

/-- `MeshBase::set_attrib_port(std::uint32_t attrib, std::uint32_t port)`. -/
def MeshStream.set_attrib_port (m : MeshStream) (attrib port : Nat) : List MeshCall :=
  [.glVertexArrayAttribBinding m.id attrib port]

/-- `MeshBase::set_attrib_format(std::uint32_t attrib, std::uint32_t type,
std::size_t type_count, std::size_t type_offset)`. -/
def MeshStream.set_attrib_format (m : MeshStream) (attrib type type_count type_offset : Nat) :
    List MeshCall :=
  [.glEnableVertexArrayAttrib m.id attrib,
   .glVertexArrayAttribFormat m.id attrib type_count type false type_offset]

/-- `MeshBase::set_port_buffer(std::uint32_t port, std::uint32_t buffer,
std::uint32_t type_size, std::uint32_t buffer_offset)`. -/
def MeshStream.set_port_buffer (m : MeshStream) (port buffer type_size buffer_offset : Nat) :
    List MeshCall :=
  [.glVertexArrayVertexBuffer m.id port buffer buffer_offset type_size]

/-- The template `MeshBase::set_port_buffer(std::uint32_t port, const T& buffer,
std::uint32_t offset)`, called with `std::size_t` arguments, which the
parameters cut down to 32 bits:
`set_port_buffer(port, buffer.id(), sizeof(typename T::value_type), offset)`. -/
def MeshStream.set_port_buffer_of (m : MeshStream) (T : VertexType) (port : Nat)
    (buffer : BufferStreamBase) (offset : Nat) : List MeshCall :=
  m.set_port_buffer (port % UINT32_MOD) buffer.id (T.sizeof % UINT32_MOD) (offset % UINT32_MOD)

/-- `TUPLE_FOR_EACH(set_attrib_format<TUPLE_TYPE(Is, value_type)>(Is,
TUPLE_OFFSET(Is, value_type)))`, for `Is` from `i` on. -/
def MeshStream.set_attrib_formats (m : MeshStream) : Nat → List Attrib → List MeshCall
  | _, [] => []
  | i, a :: rest =>
    m.set_attrib_format (i % UINT32_MOD) (type_to_int a.type) a.dimensions a.offset
      ++ MeshStream.set_attrib_formats m (i + 1) rest

/-- `MeshStream::update_ports(std::uint32_t port, std::index_sequence<Is...>)`:
`TUPLE_FOR_EACH(set_attrib_port(Is, port))`, `Is` running over the indices of
the tuple elements. -/
def MeshStream.update_ports (m : MeshStream) (T : VertexType) (port : Nat) : List MeshCall :=
  (List.range T.elements.length).flatMap (fun i => m.set_attrib_port (i % UINT32_MOD) port)

/-- `MeshStream::attach_vertices`: the loop over the slots binding port `i` at
offset `i * vertices.size_bytes()`, then the attribute formats, then every
attribute on port `vertices.current_slot()`. -/
def MeshStream.attach_vertices (m : MeshStream) (T : VertexType) : List MeshCall :=
  (List.range m.vertices.slots).flatMap
      (fun i => m.set_port_buffer_of T i m.vertices ((i * m.vertices.size_bytes) % SIZE_MOD))
    ++ m.set_attrib_formats 0 T.elements
    ++ m.update_ports T (m.vertices.current_slot % UINT32_MOD)

/-- `MeshStream(std::size_t vertices, const IndexBuffer& indices)`: the base
(its handle, `vao` being the name `glCreateVertexArrays` produces), the member
`vertices(vertices)`, `attach_vertices`, `MeshBase::attach(indices)`.
`indices` is the name of the index buffer. -/
def MeshStream.ctor_size (T : VertexType) (vertices indices : Nat)
    (vao sync0 sync1 sync2 id data : Nat) : MeshStream × List MeshCall :=
  let h := HandleClass.MeshHandle.construct vao
  let v := ArrayBufferStream.new T vertices sync0 sync1 sync2 id data
  let m : MeshStream := { handle := h.2, vertices := v.1 }
  (m, h.1.map .gl ++ v.2.map .stream ++ m.attach_vertices T ++ m.attach indices)

/-- `MeshStream(ArrayBufferStream<value_type>&& vertices, const IndexBuffer&
indices)`: the member is move-constructed from the argument, which hands over
its fences, span, slot and buffer name and makes no OpenGL call. -/
def MeshStream.ctor_stream (T : VertexType) (vertices : BufferStreamBase) (indices : Nat)
    (vao : Nat) : MeshStream × List MeshCall :=
  let h := HandleClass.MeshHandle.construct vao
  let m : MeshStream := { handle := h.2, vertices := vertices }
  (m, h.1.map .gl ++ m.attach_vertices T ++ m.attach indices)

/-- `MeshStream::update(f)`: `vertices.update(f)`, then
`update_ports(vertices.current_slot(), ...)`. -/
def MeshStream.update (m : MeshStream) (T : VertexType) (answers : List WaitResult)
    (sync : Nat) : Option (MeshStream × List MeshCall) :=
  match ArrayBufferStream.update m.vertices T answers sync with
  | none => none
  | some (v, t) =>
    let m1 := { m with vertices := v }
    some (m1, t ++ m1.update_ports T (v.current_slot % UINT32_MOD))

/-- The port that attribute `attrib` of vertex array `vao` reads from after the
calls of a trace: the one of the last `glVertexArrayAttribBinding` for it. -/
def attribPort (vao attrib : Nat) : List MeshCall → Option Nat
  | [] => none
  | c :: t =>
    match attribPort vao attrib t with
    | some p => some p
    | none =>
      match c with
      | .glVertexArrayAttribBinding v a p => if v = vao ∧ a = attrib then some p else none
      | _ => none

/-- What port `port` of vertex array `vao` is bound to after the calls of a
trace: buffer, byte offset and stride of the last `glVertexArrayVertexBuffer`
for it. -/
def portBuffer (vao port : Nat) : List MeshCall → Option (Nat × Nat × Nat)
  | [] => none
  | c :: t =>
    match portBuffer vao port t with
    | some b => some b
    | none =>
      match c with
      | .glVertexArrayVertexBuffer v p b o s => if v = vao ∧ p = port then some (b, o, s) else none
      | _ => none

/-- Whether a call is a `glVertexArrayAttribBinding`. -/
def MeshCall.isAttribBinding : MeshCall → Bool
  | .glVertexArrayAttribBinding _ _ _ => true
  | _ => false

/-- Whether a call is a `glVertexArrayVertexBuffer`. -/
def MeshCall.isVertexBuffer : MeshCall → Bool
  | .glVertexArrayVertexBuffer _ _ _ _ _ => true
  | _ => false

/-! ### Input polling (`Frame.cpp` 403-421) -/

/-- `GLFW_RELEASE`. -/
def GLFW_RELEASE : Int := 0

/-- `GLFW_PRESS`. -/
def GLFW_PRESS : Int := 1

/-- The state queries of input polling, each with the state GLFW answers. -/
inductive InputCall
  | glfwGetKey (window : Nat) (key : Int) (ret : Int)
  | glfwGetMouseButton (window : Nat) (button : Int) (ret : Int)
  deriving DecidableEq, Repr

/-- `Frame::pressed(Key k)`:
`glfwGetKey(window, static_cast<int>(k)) == GLFW_PRESS`; `ret` is what
`glfwGetKey` answers. -/
def Frame.pressed_key (f : Frame) (k : Key) (ret : Int) : Bool × List InputCall :=
  (decide (ret = GLFW_PRESS), [.glfwGetKey f.window k.val ret])

/-- `Frame::pressed(MouseButton b)`:
`glfwGetMouseButton(window, static_cast<int>(b)) == GLFW_PRESS`. -/
def Frame.pressed_button (f : Frame) (b : MouseButton) (ret : Int) : Bool × List InputCall :=
  (decide (ret = GLFW_PRESS), [.glfwGetMouseButton f.window b.val ret])

/-- `Frame::released(Key k)`:
`glfwGetKey(window, static_cast<int>(k)) == GLFW_RELEASE`. -/
def Frame.released_key (f : Frame) (k : Key) (ret : Int) : Bool × List InputCall :=
  (decide (ret = GLFW_RELEASE), [.glfwGetKey f.window k.val ret])

/-- `Frame::released(MouseButton b)`:
`glfwGetMouseButton(window, static_cast<int>(b)) == GLFW_PRESS`. -/
def Frame.released_button (f : Frame) (b : MouseButton) (ret : Int) : Bool × List InputCall :=
  (decide (ret = GLFW_PRESS), [.glfwGetMouseButton f.window b.val ret])

/-! ## Part II. Theorems -/

/-! ### Resource handles -/

theorem createCall_creates (c : HandleClass) (r : Nat) (k : ObjectKind) (i : Nat) :
    (c.createCall r).creates k i = decide (c.kind = k ∧ r = i) := by
  cases c <;> simp [HandleClass.createCall, GLCall.creates, HandleClass.kind, eq_comm]

theorem createCall_deletes (c : HandleClass) (r : Nat) (k : ObjectKind) (i : Nat) :
    (c.createCall r).deletes k i = false := by
  cases c <;> rfl

theorem deleteCall_deletes (c : HandleClass) (j : Nat) (k : ObjectKind) (i : Nat) :
    (c.deleteCall j).deletes k i = decide (c.kind = k ∧ j = i) := by
  cases c <;> simp [HandleClass.deleteCall, GLCall.deletes, HandleClass.kind, eq_comm]

theorem deleteCall_creates (c : HandleClass) (j : Nat) (k : ObjectKind) (i : Nat) :
    (c.deleteCall j).creates k i = false := by
  cases c <;> rfl

theorem holders_setHandle (k : ObjectKind) (i a : Nat) (h : ResourceHandle) :
    ∀ (os : List HandleObj) (o : HandleObj), os.find? (fun o => o.addr = a) = some o →
      holders k i (setHandle a h os) + (if o.cls.kind = k ∧ o.handle._id = i then 1 else 0)
        = holders k i os + (if o.cls.kind = k ∧ h._id = i then 1 else 0)
  | [], o, hf => by simp at hf
  | x :: xs, o, hf => by
    by_cases hx : x.addr = a
    · have ho : x = o := by simpa [List.find?, hx] using hf
      subst ho
      simp only [setHandle, hx, if_true, holders, List.countP_cons]
      simp only [decide_eq_true_eq]
      omega
    · have hf' : xs.find? (fun o => o.addr = a) = some o := by
        simpa [List.find?, hx] using hf
      have ih := holders_setHandle k i a h xs o hf'
      simp only [setHandle, hx, if_false, holders, List.countP_cons] at ih ⊢
      omega

theorem holders_removeObj (k : ObjectKind) (i a : Nat) :
    ∀ (os : List HandleObj) (o : HandleObj), os.find? (fun o => o.addr = a) = some o →
      holders k i (removeObj a os) + (if o.cls.kind = k ∧ o.handle._id = i then 1 else 0)
        = holders k i os
  | [], o, hf => by simp at hf
  | x :: xs, o, hf => by
    by_cases hx : x.addr = a
    · have ho : x = o := by simpa [List.find?, hx] using hf
      subst ho
      simp only [removeObj, hx, if_true, holders, List.countP_cons]
      simp only [decide_eq_true_eq]
    · have hf' : xs.find? (fun o => o.addr = a) = some o := by
        simpa [List.find?, hx] using hf
      have ih := holders_removeObj k i a xs o hf'
      simp only [removeObj, hx, if_false, holders, List.countP_cons] at ih ⊢
      omega

theorem balanced_step (w w' : HandleWorld) (op : HandleOp) (hw : w.Balanced)
    (hs : w.step op = some w') : w'.Balanced := by
  obtain ⟨h1, h2⟩ := hw
  cases op with
  | construct a c ret =>
    simp only [HandleWorld.step] at hs
    split at hs
    · exact absurd hs (by simp)
    · simp only [Option.some.injEq] at hs
      subst hs
      refine ⟨fun k i hi => ?_, fun k => ?_⟩
      · have := h1 k i hi
        simp only [HandleClass.construct, deletions, creations, holders, List.countP_append,
          List.countP_cons, List.countP_nil, createCall_creates, createCall_deletes] at this ⊢
        simp only [decide_eq_true_eq]
        split_ifs <;> simp_all
        omega
      · have := h2 k
        simp only [HandleClass.construct, deletions, List.countP_append,
          List.countP_cons, List.countP_nil, createCall_deletes] at this ⊢
        simpa using this
  | moveConstruct a src =>
    simp only [HandleWorld.step] at hs
    split at hs
    · rename_i o _ hf
      simp only [Option.some.injEq] at hs
      subst hs
      refine ⟨fun k i hi => ?_, fun k => h2 k⟩
      have := h1 k i hi
      have hset := holders_setHandle k i src o.handle.move.2 w.objects o hf
      simp only [ResourceHandle.move, holders, List.countP_cons] at this hset ⊢
      simp only [decide_eq_true_eq] at hset ⊢
      have h0 : ¬ (o.cls.kind = k ∧ 0 = i) := fun h => hi h.2.symm
      simp only [h0, if_false] at hset
      omega
    · exact absurd hs (by simp)
  | destruct a =>
    simp only [HandleWorld.step] at hs
    split at hs
    · exact absurd hs (by simp)
    · rename_i o hf
      simp only [Option.some.injEq] at hs
      subst hs
      have hrem := fun k i => holders_removeObj k i a w.objects o hf
      by_cases hz : o.handle._id = 0
      · refine ⟨fun k i hi => ?_, fun k => ?_⟩
        · have := h1 k i hi
          have hr := hrem k i
          have h0 : ¬ (o.cls.kind = k ∧ o.handle._id = i) := fun h => hi (by rw [← h.2, hz])
          simp only [h0, if_false] at hr
          simp only [HandleClass.destruct, hz, ne_eq, not_true_eq_false, if_false,
            List.append_nil] at this ⊢
          omega
        · simpa [HandleClass.destruct, hz] using h2 k
      · refine ⟨fun k i hi => ?_, fun k => ?_⟩
        · have := h1 k i hi
          have hr := hrem k i
          simp only [HandleClass.destruct, hz, ne_eq, not_false_eq_true, if_true, deletions,
            creations, List.countP_append, List.countP_cons, List.countP_nil, deleteCall_deletes,
            deleteCall_creates] at this ⊢
          simp only [decide_eq_true_eq]
          split_ifs at hr ⊢ <;> simp_all
          omega
        · have := h2 k
          simp only [HandleClass.destruct, hz, ne_eq, not_false_eq_true, if_true, deletions,
            List.countP_append, List.countP_cons, List.countP_nil, deleteCall_deletes] at this ⊢
          simp only [decide_eq_true_eq]
          have h0 : ¬ (o.cls.kind = k ∧ o.handle._id = 0) := fun h => hz h.2
          simp [h0, this]

theorem balanced_run : ∀ (ops : List HandleOp) (w w' : HandleWorld), w.Balanced →
    w.run ops = some w' → w'.Balanced
  | [], w, w', hw, hr => by
    simp only [HandleWorld.run, Option.some.injEq] at hr
    exact hr ▸ hw
  | op :: ops, w, w', hw, hr => by
    simp only [HandleWorld.run] at hr
    split at hr
    · exact absurd hr (by simp)
    · rename_i w1 hs
      exact balanced_run ops w1 w' (balanced_step w w1 op hw hs) hr

theorem find_setHandle_self (a : Nat) (h : ResourceHandle) :
    ∀ (os : List HandleObj) (o : HandleObj), os.find? (fun o => o.addr = a) = some o →
      (setHandle a h os).find? (fun o => o.addr = a) = some { o with handle := h }
  | [], o, hf => by simp at hf
  | x :: xs, o, hf => by
    by_cases hx : x.addr = a
    · have ho : x = o := by simpa [List.find?, hx] using hf
      subst ho
      simp [setHandle, hx, List.find?]
    · have hf' : xs.find? (fun o => o.addr = a) = some o := by
        simpa [List.find?, hx] using hf
      simpa [setHandle, hx, List.find?] using find_setHandle_self a h xs o hf'

theorem step_moveConstruct (v v' : HandleWorld) (a src : Nat) (o : HandleObj)
    (ho : v.lookup src = some o) (hs : v.step (.moveConstruct a src) = some v') :
    (v'.lookup a).map (fun n => (n.cls, n.handle._id)) = some (o.cls, o.handle._id)
      ∧ (v'.lookup src).map (fun n => (n.cls, n.handle._id)) = some (o.cls, 0)
      ∧ v'.trace = v.trace := by
  simp only [HandleWorld.step, ho] at hs
  split at hs
  · rename_i o' ha hsrc
    simp only [Option.some.injEq] at hsrc hs
    subst hsrc hs
    have hne : ¬ (a = src) := fun h => by
      rw [h] at ha
      rw [ha] at ho
      exact absurd ho (by simp)
    have hfs := find_setHandle_self src o.handle.move.2 v.objects o ho
    refine ⟨?_, ?_, rfl⟩
    · simp [HandleWorld.lookup, List.find?, ResourceHandle.move]
    · simp only [HandleWorld.lookup, List.find?, hne, decide_False]
      rw [hfs]
      simp [ResourceHandle.move]
  · exact absurd hs (by simp)

theorem step_destruct (v v' : HandleWorld) (a : Nat) (o : HandleObj)
    (ho : v.lookup a = some o) (hs : v.step (.destruct a) = some v') :
    v'.trace = v.trace ++ (if o.handle._id = 0 then [] else [o.cls.deleteCall o.handle._id]) := by
  simp only [HandleWorld.step, ho, Option.some.injEq] at hs
  subst hs
  by_cases hz : o.handle._id = 0 <;> simp [HandleClass.destruct, hz]

/-- C1. Run any sequence of handle constructions, move constructions and
destructions that C++ allows, from a program start with no handle and no call
made.  Then, for each object family `k` and each non-zero name `i`: the number
of deletion calls passed `i` plus the number of live handles holding `i` equals
the number of creation calls that produced `i`, and name `0` is never deleted;
so once every handle is destroyed each name has been deleted exactly as often
as it was created (once, for a name created once).  Move construction gives
the new handle the class and `_id` of its source, leaves the source with
`_id = 0` and makes no call; a destructor makes exactly the deletion call of
its class on its own `_id`, and none when that `_id` is `0`. -/
theorem handle_id_deleted_exactly_once (ops : List HandleOp) (w : HandleWorld)
    (hrun : HandleWorld.run {} ops = some w) :
    (∀ k i, i ≠ 0 →
        deletions k i w.trace + holders k i w.objects = creations k i w.trace)
      ∧ (∀ k, deletions k 0 w.trace = 0)
      ∧ (w.objects = [] → ∀ k i, i ≠ 0 → deletions k i w.trace = creations k i w.trace)
      ∧ (w.objects = [] → ∀ k i, i ≠ 0 → creations k i w.trace = 1 →
          deletions k i w.trace = 1)
      ∧ (∀ (a src : Nat) (o : HandleObj) (w' : HandleWorld), w.lookup src = some o →
          w.step (.moveConstruct a src) = some w' →
          (w'.lookup a).map (fun n => (n.cls, n.handle._id)) = some (o.cls, o.handle._id)
            ∧ (w'.lookup src).map (fun n => (n.cls, n.handle._id)) = some (o.cls, 0)
            ∧ w'.trace = w.trace)
      ∧ (∀ (a : Nat) (o : HandleObj) (w' : HandleWorld), w.lookup a = some o →
          w.step (.destruct a) = some w' →
          w'.trace = w.trace ++
            (if o.handle._id = 0 then [] else [o.cls.deleteCall o.handle._id])) := by
  have hb : w.Balanced :=
    balanced_run ops {} w ⟨fun k i _ => by simp [deletions, holders, creations],
      fun k => by simp [deletions]⟩ hrun
  refine ⟨hb.1, hb.2, ?_, ?_, ?_, ?_⟩
  · intro he k i hi
    have := hb.1 k i hi
    simpa [he, holders] using this
  · intro he k i hi hc
    have := hb.1 k i hi
    rw [hc] at this
    simpa [he, holders] using this
  · intro a src o w' ho hs
    exact step_moveConstruct w w' a src o ho hs
  · intro a o w' ho hs
    exact step_destruct w w' a o ho hs

/-- Witness for C1: a buffer handle at address 1 gets name 7, is moved to
address 2, and both objects are destroyed (the moved-from one first): the
trace is one creation and one deletion of name 7. -/
theorem handle_id_deleted_exactly_once_witness :
    HandleWorld.run {} [.construct 1 .BufferHandle 7, .moveConstruct 2 1, .destruct 1,
        .destruct 2]
      = some { objects := [], trace := [.glCreateBuffers 7, .glDeleteBuffers 7] }
    ∧ deletions .buffer 7 [.glCreateBuffers 7, .glDeleteBuffers 7] = 1 :=
  ⟨by decide,
   (handle_id_deleted_exactly_once
      [.construct 1 .BufferHandle 7, .moveConstruct 2 1, .destruct 1, .destruct 2]
      { objects := [], trace := [.glCreateBuffers 7, .glDeleteBuffers 7] }
      (by decide)).2.2.2.1 rfl .buffer 7 (by decide) (by decide)⟩

/-! ### The streaming buffer -/

theorem spin_eq_some (f : FenceSync) :
    ∀ (answers : List WaitResult), (∃ r ∈ answers, r.ready = true) →
      spin f answers = some ((polled answers).map (fun r => StreamCall.glClientWaitSync f.handle r))
  | [], h => by simp at h
  | res :: rest, h => by
    by_cases hr : res.ready = true
    · simp [spin, polled, FenceSync.is_ready, hr]
    · have h' : ∃ r ∈ rest, r.ready = true := by
        obtain ⟨r, hmem, hrr⟩ := h
        rcases List.mem_cons.mp hmem with heq | hin
        · exact absurd (heq ▸ hrr) hr
        · exact ⟨r, hin, hrr⟩
      simp [spin, polled, FenceSync.is_ready, hr, spin_eq_some f rest h']

theorem spin_some_ready (f : FenceSync) :
    ∀ (answers : List WaitResult) (t : List StreamCall), spin f answers = some t →
      ∃ r ∈ answers, r.ready = true
  | [], t, h => by simp [spin] at h
  | res :: rest, t, h => by
    by_cases hr : res.ready = true
    · exact ⟨res, List.mem_cons_self _ _, hr⟩
    · simp only [spin, FenceSync.is_ready, hr, Bool.false_eq_true, if_false, Option.map_eq_some'] at h
      obtain ⟨t', ht', _⟩ := h
      obtain ⟨r, hmem, hrr⟩ := spin_some_ready f rest t' ht'
      exact ⟨r, List.mem_cons_of_mem _ hmem, hrr⟩

/-- Shape of the polls: some answers that are not ready, then one that is, and
together they are the first answers on offer. -/
theorem polled_shape :
    ∀ (answers : List WaitResult), (∃ r ∈ answers, r.ready = true) →
      ∃ pre r post, answers = pre ++ r :: post ∧ polled answers = pre ++ [r]
        ∧ (∀ x ∈ pre, x.ready = false) ∧ r.ready = true
  | [], h => by simp at h
  | res :: rest, h => by
    by_cases hr : res.ready = true
    · exact ⟨[], res, rest, rfl, by simp [polled, hr], by simp, hr⟩
    · have h' : ∃ r ∈ rest, r.ready = true := by
        obtain ⟨r, hmem, hrr⟩ := h
        rcases List.mem_cons.mp hmem with heq | hin
        · exact absurd (heq ▸ hrr) hr
        · exact ⟨r, hin, hrr⟩
      obtain ⟨pre, r, post, h1, h2, h3, h4⟩ := polled_shape rest h'
      refine ⟨res :: pre, r, post, by simp [h1], by simp [polled, hr, h2], ?_, h4⟩
      intro x hx
      rcases List.mem_cons.mp hx with heq | hin
      · simpa [heq] using hr
      · exact h3 x hin

theorem FenceArray.get_of_lt (a : FenceArray) (k : Nat) (hk : k < 3) :
    ∃ f, a.get k = some f := by
  interval_cases k <;> simp [FenceArray.get]

theorem FenceArray.set_of_lt (a : FenceArray) (f : FenceSync) (k : Nat) (hk : k < 3) :
    ∃ b, a.set f k = some b ∧ b.get k = some f ∧ ∀ j, j ≠ k → b.get j = a.get j := by
  interval_cases k
  · refine ⟨_, rfl, rfl, fun j hj => ?_⟩
    match j, hj with
    | 0, hj => exact absurd rfl hj
    | 1, _ => rfl
    | 2, _ => rfl
    | _ + 3, _ => rfl
  · refine ⟨_, rfl, rfl, fun j hj => ?_⟩
    match j, hj with
    | 0, _ => rfl
    | 1, hj => exact absurd rfl hj
    | 2, _ => rfl
    | _ + 3, _ => rfl
  · refine ⟨_, rfl, rfl, fun j hj => ?_⟩
    match j, hj with
    | 0, _ => rfl
    | 1, _ => rfl
    | 2, hj => exact absurd rfl hj
    | _ + 3, _ => rfl

theorem slot_span_eq (s : BufferStreamBase) (hv : s.Valid) :
    s.slot_span = some { data := s.buffer.data + s.slot * (s.buffer.size / 3),
                         size := s.buffer.size / 3 } := by
  obtain ⟨fences, buffer, slot, handle⟩ := s
  obtain ⟨hb, hs⟩ := hv
  simp only [BufferStreamBase.slots, FenceArray.size] at hs
  simp only [SIZE_MOD] at hb
  simp only [BufferStreamBase.slot_span, BufferStreamBase.size_bytes, BufferStreamBase.slots,
    FenceArray.size, Span.subspan, SIZE_MOD]
  have h1 : slot * (buffer.size / 3) ≤ buffer.size := by
    interval_cases slot <;> omega
  have h2 : slot * (buffer.size / 3) % 2 ^ 64 = slot * (buffer.size / 3) :=
    Nat.mod_eq_of_lt (by omega)
  have h3 : buffer.size / 3 ≤ buffer.size - slot * (buffer.size / 3) := by
    interval_cases slot <;> omega
  rw [h2, if_pos ⟨h1, h3⟩]

/-- What one `update` does to a valid stream buffer when some answer on offer
is ready: the next slot, the polls on that slot's fence, one writer call on
that slot's span, the barrier, and the fence of that slot replaced. -/
theorem update_spec (s : BufferStreamBase) (answers : List WaitResult) (sync : Nat)
    (hv : s.Valid) (hr : ∃ r ∈ answers, r.ready = true) :
    ∃ fence fs, s.fences.get ((s.slot + 1) % 3) = some fence
      ∧ s.fences.set { handle := sync } ((s.slot + 1) % 3) = some fs
      ∧ s.update answers sync = some
          ({ s with slot := (s.slot + 1) % 3, fences := fs },
           (polled answers).map (fun r => StreamCall.glClientWaitSync fence.handle r) ++
             [.writer { data := s.buffer.data + (s.slot + 1) % 3 * (s.buffer.size / 3),
                        size := s.buffer.size / 3 },
              .glMemoryBarrier, .glDeleteSync fence.handle, .glFenceSync sync]) := by
  have hk : (s.slot + 1) % 3 < 3 := Nat.mod_lt _ (by decide)
  obtain ⟨fence, hf⟩ := s.fences.get_of_lt _ hk
  obtain ⟨fs, hset, _, _⟩ := s.fences.set_of_lt { handle := sync } _ hk
  refine ⟨fence, fs, hf, hset, ?_⟩
  have hslot : (s.slot + 1) % SIZE_MOD % s.slots = (s.slot + 1) % 3 := by
    have := hv.2
    simp only [BufferStreamBase.slots, FenceArray.size] at this ⊢
    have e : (s.slot + 1) % SIZE_MOD = s.slot + 1 :=
      Nat.mod_eq_of_lt (by simp only [SIZE_MOD]; omega)
    rw [e]
  have hv1 : BufferStreamBase.Valid { s with slot := (s.slot + 1) % 3 } := ⟨hv.1, hk⟩
  have hspan := slot_span_eq _ hv1
  simp only [BufferStreamBase.update, BufferStreamBase.write_lock_acquire, hslot, hf,
    spin_eq_some fence answers hr, Option.map_some', hspan,
    BufferStreamBase.write_lock_release, FenceSync.resubmit, hset]
  simp

theorem update_some_ready (s : BufferStreamBase) (answers : List WaitResult) (sync : Nat)
    (r : BufferStreamBase × List StreamCall) (h : s.update answers sync = some r) :
    ∃ x ∈ answers, x.ready = true := by
  simp only [BufferStreamBase.update] at h
  split at h
  · exact absurd h (by simp)
  · rename_i s1 t1 hacq
    simp only [BufferStreamBase.write_lock_acquire] at hacq
    split at hacq
    · exact absurd hacq (by simp)
    · rename_i fence _
      simp only [Option.map_eq_some'] at hacq
      obtain ⟨t, ht, _⟩ := hacq
      exact spin_some_ready fence answers t ht

theorem writes_append (a b : List StreamCall) : writes (a ++ b) = writes a ++ writes b := by
  induction a with
  | nil => rfl
  | cons c a ih => cases c <;> simp [writes, ih]

theorem writes_polls (h : Nat) (l : List WaitResult) :
    writes (l.map (fun r => StreamCall.glClientWaitSync h r)) = [] := by
  induction l with
  | nil => rfl
  | cons c l ih => simpa [writes] using ih

theorem update_valid_slot (s : BufferStreamBase) (answers : List WaitResult) (sync : Nat)
    (s' : BufferStreamBase) (t : List StreamCall) (hv : s.Valid)
    (h : s.update answers sync = some (s', t)) :
    s'.current_slot = (s.current_slot + 1) % 3 ∧ s'.Valid ∧ s'.buffer = s.buffer
      ∧ writes t = [{ data := s.buffer.data + s'.current_slot * s.size_bytes,
                      size := s.size_bytes }] := by
  obtain ⟨fence, fs, _, _, hu⟩ := update_spec s answers sync hv (update_some_ready s answers sync _ h)
  rw [hu] at h
  simp only [Option.some.injEq, Prod.mk.injEq] at h
  obtain ⟨h1, h2⟩ := h
  subst h1 h2
  refine ⟨rfl, ⟨hv.1, Nat.mod_lt _ (by decide)⟩, rfl, ?_⟩
  simp [writes_append, writes_polls, writes, BufferStreamBase.size_bytes, BufferStreamBase.slots,
    FenceArray.size, BufferStreamBase.current_slot]

theorem updates_slots : ∀ (ins : List (List WaitResult × Nat)) (s : BufferStreamBase),
    s.Valid → (∀ x ∈ ins, ∃ r ∈ x.1, r.ready = true) →
    ∃ outs, s.updates ins = some outs
      ∧ outs.map (fun o => o.1.current_slot)
          = (List.range ins.length).map (fun j => (s.current_slot + j + 1) % 3)
      ∧ outs.map (fun o => writes o.2)
          = (List.range ins.length).map (fun j =>
              [{ data := s.buffer.data + (s.current_slot + j + 1) % 3 * s.size_bytes,
                 size := s.size_bytes }])
      ∧ ∀ o ∈ outs, o.1.current_slot < o.1.slots
  | [], s, _, _ => ⟨[], rfl, rfl, rfl, by simp⟩
  | (answers, sync) :: rest, s, hv, hr => by
    have hr0 : ∃ r ∈ answers, r.ready = true := hr (answers, sync) (List.mem_cons_self _ _)
    obtain ⟨s1, t1, hu⟩ : ∃ s1 t1, s.update answers sync = some (s1, t1) := by
      obtain ⟨fence, fs, _, _, hu⟩ := update_spec s answers sync hv hr0
      exact ⟨_, _, hu⟩
    obtain ⟨h1, h2, h3, h4⟩ := update_valid_slot s answers sync s1 t1 hv hu
    obtain ⟨outs, ho, hslots, hwrites, hlt⟩ :=
      updates_slots rest s1 h2 (fun x hx => hr x (List.mem_cons_of_mem _ hx))
    refine ⟨(s1, t1) :: outs, by simp [BufferStreamBase.updates, hu, ho], ?_, ?_, ?_⟩
    · simp only [List.map_cons, List.length_cons, List.range_succ_eq_map, hslots, List.map_map]
      refine congrArg₂ _ (by simpa using h1) (List.map_congr_left ?_)
      intro j _
      simp only [Function.comp, h1]
      omega
    · simp only [List.map_cons, List.length_cons, List.range_succ_eq_map, hwrites, List.map_map]
      refine congrArg₂ _ (by simpa [h1] using h4) (List.map_congr_left ?_)
      intro j _
      have e : ((s.current_slot + 1) % 3 + j + 1) % 3 = (s.current_slot + (j + 1) + 1) % 3 := by
        omega
      have hsz : s1.size_bytes = s.size_bytes := by
        simp [BufferStreamBase.size_bytes, BufferStreamBase.slots, FenceArray.size, h3]
      simp [Function.comp, h1, e, h3, hsz]
    · intro o hoo
      rcases List.mem_cons.mp hoo with heq | hin
      · subst heq
        exact h2.2
      · exact hlt o hin

theorem new_valid (n sync0 sync1 sync2 id data : Nat) :
    (BufferStreamBase.new n sync0 sync1 sync2 id data).1.Valid := by
  refine ⟨?_, ?_⟩
  · simp only [BufferStreamBase.new]
    exact Nat.mod_lt _ (by decide)
  · simp [BufferStreamBase.new, BufferStreamBase.slots, FenceArray.size]

/-- C2. A `BufferStreamBase` constructed with a per-slot size of `n` bytes,
`3 * n` being a `std::size_t` value, has `slots() = 3`, a mapped span of
exactly `3 * n` bytes starting where the mapping call said, `size_bytes() = n`
and `current_slot() = 0`; the storage it asked for and the range it mapped are
those `3 * n` bytes. -/
theorem stream_constructed_triple_buffered (n sync0 sync1 sync2 id data : Nat)
    (h : 3 * n < SIZE_MOD) :
    (BufferStreamBase.new n sync0 sync1 sync2 id data).1.slots = 3
      ∧ (BufferStreamBase.new n sync0 sync1 sync2 id data).1.buffer
          = { data := data, size := 3 * n }
      ∧ (BufferStreamBase.new n sync0 sync1 sync2 id data).1.size_bytes = n
      ∧ (BufferStreamBase.new n sync0 sync1 sync2 id data).1.current_slot = 0
      ∧ (BufferStreamBase.new n sync0 sync1 sync2 id data).2
          = [.glFenceSync sync0, .glFenceSync sync1, .glFenceSync sync2, .glCreateBuffers id,
             .glNamedBufferStorage id (3 * n) 0 [.GL_MAP_PERSISTENT_BIT, .GL_MAP_WRITE_BIT],
             .glMapNamedBufferRange id 0 (3 * n) [.GL_MAP_PERSISTENT_BIT, .GL_MAP_WRITE_BIT]
               data] := by
  have e : n * 3 % SIZE_MOD = 3 * n := by
    rw [Nat.mul_comm]
    exact Nat.mod_eq_of_lt h
  refine ⟨rfl, ?_, ?_, rfl, ?_⟩
  · simp [BufferStreamBase.new, FenceArray.size, e]
  · simp [BufferStreamBase.new, BufferStreamBase.size_bytes, BufferStreamBase.slots,
      FenceArray.size, e]
  · simp [BufferStreamBase.new, FenceArray.size, FenceSync.new, ResourceHandle.id, e]

/-- Witness for C2: a stream of 16-byte slots. -/
theorem stream_constructed_triple_buffered_witness :
    3 * 16 < SIZE_MOD
      ∧ (BufferStreamBase.new 16 11 12 13 5 4096).1
          = { fences := { f0 := { handle := 11 }, f1 := { handle := 12 }, f2 := { handle := 13 } },
              buffer := { data := 4096, size := 48 }, slot := 0, handle := { _id := 5 } }
      ∧ (BufferStreamBase.new 16 11 12 13 5 4096).1.size_bytes = 16 :=
  ⟨by decide, by decide,
   (stream_constructed_triple_buffered 16 11 12 13 5 4096 (by decide)).2.2.1⟩

/-- C3. From any valid stream buffer (slot below `slots()`), run any number of
`update` calls whose wait loops each get a ready answer.  All of them return;
the `j`-th (counting from 0) leaves `current_slot() = (s + j + 1) mod 3`, where
`s` is the slot before the run, hands the writer the span of that slot, and
leaves `current_slot() < slots()`.  Hence any three consecutive updates use
three different slots and the fourth uses the slot of the first.  A single
`update` that returns moves the slot from `s` to `(s + 1) mod 3`; a freshly
constructed buffer is valid with slot 0 and its first update uses slot 1. -/
theorem stream_update_round_robin (s : BufferStreamBase)
    (ins : List (List WaitResult × Nat)) (hv : s.Valid)
    (hready : ∀ x ∈ ins, ∃ r ∈ x.1, r.ready = true) :
    ∃ outs, s.updates ins = some outs
      ∧ outs.map (fun o => o.1.current_slot)
          = (List.range ins.length).map (fun j => (s.current_slot + j + 1) % 3)
      ∧ outs.map (fun o => writes o.2)
          = (List.range ins.length).map (fun j =>
              [{ data := s.buffer.data + (s.current_slot + j + 1) % 3 * s.size_bytes,
                 size := s.size_bytes }])
      ∧ (∀ o ∈ outs, o.1.current_slot < o.1.slots)
      ∧ (∀ j a b c, (outs.map (fun o => o.1.current_slot))[j]? = some a →
          (outs.map (fun o => o.1.current_slot))[j + 1]? = some b →
          (outs.map (fun o => o.1.current_slot))[j + 2]? = some c → a ≠ b ∧ b ≠ c ∧ a ≠ c)
      ∧ (∀ j a d, (outs.map (fun o => o.1.current_slot))[j]? = some a →
          (outs.map (fun o => o.1.current_slot))[j + 3]? = some d → d = a)
      ∧ (∀ answers sync s' t, s.update answers sync = some (s', t) →
          s'.current_slot = (s.current_slot + 1) % 3 ∧ s'.current_slot < s'.slots)
      ∧ (∀ n sync0 sync1 sync2 id data,
          (BufferStreamBase.new n sync0 sync1 sync2 id data).1.Valid
          ∧ (BufferStreamBase.new n sync0 sync1 sync2 id data).1.current_slot = 0
          ∧ ∀ answers sync s' t,
              (BufferStreamBase.new n sync0 sync1 sync2 id data).1.update answers sync
                = some (s', t) →
              s'.current_slot = 1
              ∧ writes t =
                  [{ data := data
                        + 1 * (BufferStreamBase.new n sync0 sync1 sync2 id data).1.size_bytes,
                     size := (BufferStreamBase.new n sync0 sync1 sync2 id data).1.size_bytes }]) := by
  obtain ⟨outs, ho, hslots, hwrites, hlt⟩ := updates_slots ins s hv hready
  have key : ∀ j a, (outs.map (fun o => o.1.current_slot))[j]? = some a →
      a = (s.current_slot + j + 1) % 3 := by
    intro j a h
    rw [hslots, List.getElem?_map] at h
    cases hj : (List.range ins.length)[j]? with
    | none => simp [hj] at h
    | some i =>
      have hi : i = j := by
        by_cases hlt : j < ins.length
        · rw [List.getElem?_range hlt] at hj
          exact (Option.some.inj hj).symm
        · rw [List.getElem?_eq_none (by simpa using Nat.le_of_not_lt hlt)] at hj
          exact absurd hj (by simp)
      subst hi
      simp only [hj, Option.map_some', Option.some.injEq] at h
      exact h.symm
  refine ⟨outs, ho, hslots, hwrites, hlt, ?_, ?_, ?_, ?_⟩
  · intro j a b c ha hb hc
    have := key j a ha
    have := key (j + 1) b hb
    have := key (j + 2) c hc
    omega
  · intro j a d ha hd
    have := key j a ha
    have := key (j + 3) d hd
    omega
  · intro answers sync s' t h
    obtain ⟨h1, h2, _, _⟩ := update_valid_slot s answers sync s' t hv h
    exact ⟨h1, h2.2⟩
  · intro n sync0 sync1 sync2 id data
    refine ⟨new_valid n sync0 sync1 sync2 id data, rfl, ?_⟩
    intro answers sync s' t h
    obtain ⟨h1, _, _, h4⟩ := update_valid_slot _ answers sync s' t
      (new_valid n sync0 sync1 sync2 id data) h
    have h0 : (BufferStreamBase.new n sync0 sync1 sync2 id data).1.current_slot = 0 := rfl
    have hd : (BufferStreamBase.new n sync0 sync1 sync2 id data).1.buffer.data = data := rfl
    rw [h0] at h1
    have h1' : s'.current_slot = 1 := by simpa using h1
    rw [h1', hd] at h4
    exact ⟨h1', h4⟩

/-- Witness for C3: four updates of a fresh stream of 16-byte slots; the
slots used are 1, 2, 0, 1. -/
theorem stream_update_round_robin_witness :
    ∃ outs, (BufferStreamBase.new 16 11 12 13 5 4096).1.updates
        [([.GL_TIMEOUT_EXPIRED, .GL_CONDITION_SATISFIED], 21), ([.GL_ALREADY_SIGNALED], 22),
         ([.GL_WAIT_FAILED, .GL_TIMEOUT_EXPIRED, .GL_ALREADY_SIGNALED], 23),
         ([.GL_CONDITION_SATISFIED, .GL_TIMEOUT_EXPIRED], 24)] = some outs
      ∧ outs.map (fun o => o.1.current_slot) = [1, 2, 0, 1]
      ∧ outs.map (fun o => writes o.2)
          = [[{ data := 4112, size := 16 }], [{ data := 4128, size := 16 }],
             [{ data := 4096, size := 16 }], [{ data := 4112, size := 16 }]] := by
  obtain ⟨outs, h1, h2, h3, _⟩ := stream_update_round_robin
    (BufferStreamBase.new 16 11 12 13 5 4096).1
    [([.GL_TIMEOUT_EXPIRED, .GL_CONDITION_SATISFIED], 21), ([.GL_ALREADY_SIGNALED], 22),
     ([.GL_WAIT_FAILED, .GL_TIMEOUT_EXPIRED, .GL_ALREADY_SIGNALED], 23),
     ([.GL_CONDITION_SATISFIED, .GL_TIMEOUT_EXPIRED], 24)]
    (new_valid 16 11 12 13 5 4096) (by decide)
  exact ⟨outs, h1, h2.trans (by decide), h3.trans (by decide)⟩

/-- C4. In a stream buffer whose mapped span has `3 * n` bytes (`n` the
per-slot size) and whose slot is `s < 3`, `slot_span` passes the bounds check
of `subspan` and is the span of `n` bytes at byte offset `s * n`; it ends at
or before byte `3 * n`; the spans of two different slots of the same buffer
do not overlap; and the span that `update` hands to the writer is the
`slot_span` of the slot it selected.  Whatever the size of the mapped span,
the `slot_span` of a valid stream buffer lies inside it. -/
theorem slot_span_in_bounds (st : BufferStreamBase) (n s : Nat)
    (hsize : st.buffer.size = 3 * n) (hn : 3 * n < SIZE_MOD) (hs : st.slot = s)
    (hlt : s < 3) :
    st.size_bytes = n
      ∧ st.slot_span = some { data := st.buffer.data + s * n, size := n }
      ∧ s * n + n ≤ st.buffer.size
      ∧ (∀ (st2 : BufferStreamBase) (u : Nat), st2.buffer = st.buffer → st2.slot = u → u < 3 →
          u ≠ s →
          st2.slot_span = some { data := st.buffer.data + u * n, size := n }
          ∧ (s * n + n ≤ u * n ∨ u * n + n ≤ s * n))
      ∧ (∀ answers sync st' t, st.update answers sync = some (st', t) →
          st'.current_slot < 3 ∧ st'.buffer = st.buffer
          ∧ st'.slot_span = some { data := st.buffer.data + st'.current_slot * n, size := n }
          ∧ writes t = [{ data := st.buffer.data + st'.current_slot * n, size := n }])
      ∧ (∀ v : BufferStreamBase, v.Valid →
          ∃ sp, v.slot_span = some sp ∧ v.buffer.data ≤ sp.data
            ∧ sp.data + sp.size ≤ v.buffer.data + v.buffer.size) := by
  have hv : st.Valid := ⟨by rw [hsize]; exact hn, by rw [hs]; exact hlt⟩
  have hdiv : st.buffer.size / 3 = n := by rw [hsize]; omega
  have hsb : st.size_bytes = n := by
    simpa [BufferStreamBase.size_bytes, BufferStreamBase.slots, FenceArray.size] using hdiv
  refine ⟨hsb, ?_, ?_, ?_, ?_, ?_⟩
  · rw [slot_span_eq st hv, hdiv, hs]
  · rw [hsize]
    interval_cases s <;> omega
  · intro st2 u hb hu hult hne
    have hv2 : st2.Valid := ⟨by rw [hb, hsize]; exact hn, by rw [hu]; exact hult⟩
    refine ⟨by rw [slot_span_eq st2 hv2, hb, hdiv, hu], ?_⟩
    interval_cases s <;> interval_cases u <;> omega
  · intro answers sync st' t h
    obtain ⟨h1, h2, h3, h4⟩ := update_valid_slot st answers sync st' t hv h
    have hlt' : st'.current_slot < 3 := h2.2
    refine ⟨hlt', h3, ?_, by rw [h4, hsb]⟩
    rw [slot_span_eq st' h2, h3, hdiv]
    rfl
  · intro v hvv
    refine ⟨_, slot_span_eq v hvv, Nat.le_add_right _ _, ?_⟩
    obtain ⟨fences, buffer, slot, handle⟩ := v
    have hslot : slot < 3 := hvv.2
    simp only
    interval_cases slot <;> omega

/-- Witness for C4: slot 2 of a stream with 16-byte slots mapped at 4096. -/
theorem slot_span_in_bounds_witness :
    BufferStreamBase.slot_span
        { fences := { f0 := { handle := 11 }, f1 := { handle := 12 }, f2 := { handle := 13 } },
          buffer := { data := 4096, size := 48 }, slot := 2, handle := { _id := 5 } }
      = some { data := 4096 + 2 * 16, size := 16 } :=
  (slot_span_in_bounds
    { fences := { f0 := { handle := 11 }, f1 := { handle := 12 }, f2 := { handle := 13 } },
      buffer := { data := 4096, size := 48 }, slot := 2, handle := { _id := 5 } }
    16 2 (by decide) (by decide) rfl (by decide)).2.1

theorem update_isSome_iff (s : BufferStreamBase) (answers : List WaitResult) (sync : Nat)
    (hv : s.Valid) :
    (s.update answers sync).isSome = true ↔ ∃ r ∈ answers, r.ready = true := by
  constructor
  · intro h
    obtain ⟨r, hr⟩ := Option.isSome_iff_exists.mp h
    exact update_some_ready s answers sync r hr
  · intro h
    obtain ⟨_, _, _, _, hu⟩ := update_spec s answers sync hv h
    simp [hu]

/-- C5. `update(f)` on a valid stream buffer returns exactly when some answer
to its polls is ready.  When it returns, its calls are, in this order: polls
of the fence of the newly selected slot `(s + 1) mod 3`, all answered not
ready except the last, which is ready; one call of `f` on the span of that
slot; the memory barrier; the deletion of that slot's fence; and the creation
of its replacement.  Afterwards that slot's fence is the replacement and the
fences of the other slots are what they were. -/
theorem stream_update_call_order (s : BufferStreamBase) (answers : List WaitResult)
    (sync : Nat) (hv : s.Valid) :
    ((s.update answers sync).isSome = true ↔ ∃ r ∈ answers, r.ready = true)
      ∧ ∀ s' t, s.update answers sync = some (s', t) →
        ∃ fence pre r post,
          s.fences.get ((s.current_slot + 1) % 3) = some fence
          ∧ s'.current_slot = (s.current_slot + 1) % 3
          ∧ answers = pre ++ r :: post
          ∧ (∀ x ∈ pre, x.ready = false) ∧ r.ready = true
          ∧ s'.slot_span
              = some { data := s.buffer.data + s'.current_slot * s.size_bytes,
                       size := s.size_bytes }
          ∧ t = pre.map (fun x => StreamCall.glClientWaitSync fence.handle x) ++
              [.glClientWaitSync fence.handle r,
               .writer { data := s.buffer.data + s'.current_slot * s.size_bytes,
                         size := s.size_bytes },
               .glMemoryBarrier, .glDeleteSync fence.handle, .glFenceSync sync]
          ∧ s'.fences.get s'.current_slot = some { handle := sync }
          ∧ (∀ j, j ≠ s'.current_slot → s'.fences.get j = s.fences.get j)
          ∧ s'.buffer = s.buffer ∧ s'.handle = s.handle := by
  refine ⟨update_isSome_iff s answers sync hv, ?_⟩
  intro s' t h
  have hr := update_some_ready s answers sync _ h
  obtain ⟨fence, fs, hf, hset, hu⟩ := update_spec s answers sync hv hr
  obtain ⟨pre, r, post, ha, hp, hnot, hrdy⟩ := polled_shape answers hr
  obtain ⟨b, hb, hget, hothers⟩ :=
    s.fences.set_of_lt { handle := sync } _ (Nat.mod_lt (s.slot + 1) (by decide))
  have hbf : b = fs := Option.some.inj (hb.symm.trans hset)
  subst hbf
  obtain ⟨_, h2, _, _⟩ := update_valid_slot s answers sync s' t hv h
  have hspan := slot_span_eq s' h2
  rw [hu] at h
  simp only [Option.some.injEq, Prod.mk.injEq] at h
  obtain ⟨e1, e2⟩ := h
  subst e1 e2
  refine ⟨fence, pre, r, post, hf, rfl, ha, hnot, hrdy, ?_, ?_, hget, hothers, rfl, rfl⟩
  · simpa [BufferStreamBase.current_slot, BufferStreamBase.size_bytes, BufferStreamBase.slots,
      FenceArray.size] using hspan
  · simp [hp, BufferStreamBase.current_slot, BufferStreamBase.size_bytes,
      BufferStreamBase.slots, FenceArray.size]

/-- Witness for C5: the second slot's fence is polled three times before the
writer runs. -/
theorem stream_update_call_order_witness :
    BufferStreamBase.update (BufferStreamBase.new 16 11 12 13 5 4096).1
        [.GL_TIMEOUT_EXPIRED, .GL_TIMEOUT_EXPIRED, .GL_ALREADY_SIGNALED, .GL_WAIT_FAILED] 21
      = some
          ({ fences := { f0 := { handle := 11 }, f1 := { handle := 21 }, f2 := { handle := 13 } },
             buffer := { data := 4096, size := 48 }, slot := 1, handle := { _id := 5 } },
           [.glClientWaitSync 12 .GL_TIMEOUT_EXPIRED, .glClientWaitSync 12 .GL_TIMEOUT_EXPIRED,
            .glClientWaitSync 12 .GL_ALREADY_SIGNALED,
            .writer { data := 4112, size := 16 }, .glMemoryBarrier, .glDeleteSync 12,
            .glFenceSync 21])
      ∧ ((BufferStreamBase.update (BufferStreamBase.new 16 11 12 13 5 4096).1
            [.GL_TIMEOUT_EXPIRED, .GL_TIMEOUT_EXPIRED, .GL_ALREADY_SIGNALED, .GL_WAIT_FAILED]
            21).isSome = true ↔
          ∃ r ∈ [WaitResult.GL_TIMEOUT_EXPIRED, .GL_TIMEOUT_EXPIRED, .GL_ALREADY_SIGNALED,
            .GL_WAIT_FAILED], r.ready = true) :=
  ⟨by decide,
   (stream_update_call_order (BufferStreamBase.new 16 11 12 13 5 4096).1
      [.GL_TIMEOUT_EXPIRED, .GL_TIMEOUT_EXPIRED, .GL_ALREADY_SIGNALED, .GL_WAIT_FAILED] 21
      (new_valid 16 11 12 13 5 4096)).1⟩

/-! ### The window frame -/

@[simp] theorem emit_windows (w : FrameWorld) (cs : List GLFWCall) :
    (w.emit cs).windows = w.windows := rfl

@[simp] theorem emit_ref_count (w : FrameWorld) (cs : List GLFWCall) :
    (w.emit cs).ref_count = w.ref_count := rfl

@[simp] theorem emit_frames (w : FrameWorld) (cs : List GLFWCall) :
    (w.emit cs).frames = w.frames := rfl

@[simp] theorem emit_ndebug (w : FrameWorld) (cs : List GLFWCall) :
    (w.emit cs).ndebug = w.ndebug := rfl

@[simp] theorem inc_ref_count_windows (w : FrameWorld) :
    w.inc_ref_count.windows = w.windows := by
  simp only [FrameWorld.inc_ref_count]
  split_ifs <;> rfl

@[simp] theorem inc_ref_count_ref_count (w : FrameWorld) :
    w.inc_ref_count.ref_count = w.ref_count + 1 := by
  simp only [FrameWorld.inc_ref_count]
  split_ifs <;> rfl

@[simp] theorem inc_ref_count_frames (w : FrameWorld) :
    w.inc_ref_count.frames = w.frames := by
  simp only [FrameWorld.inc_ref_count]
  split_ifs <;> rfl

@[simp] theorem inc_ref_count_ndebug (w : FrameWorld) :
    w.inc_ref_count.ndebug = w.ndebug := by
  simp only [FrameWorld.inc_ref_count]
  split_ifs <;> rfl

@[simp] theorem glfwSetCallback_ref_count (w : FrameWorld) (s : CallbackSlot) (p : Nat)
    (cb : Trampoline) : (w.glfwSetCallback s p cb).ref_count = w.ref_count := rfl

@[simp] theorem glfwSetCallback_frames (w : FrameWorld) (s : CallbackSlot) (p : Nat)
    (cb : Trampoline) : (w.glfwSetCallback s p cb).frames = w.frames := rfl

@[simp] theorem glfwSetCallback_ndebug (w : FrameWorld) (s : CallbackSlot) (p : Nat)
    (cb : Trampoline) : (w.glfwSetCallback s p cb).ndebug = w.ndebug := rfl

theorem glfwSetCallback_windows (w : FrameWorld) (s : CallbackSlot) (cb : Trampoline)
    (x : GLFWwindow) (xs : List GLFWwindow) (h : w.windows = x :: xs) :
    (w.glfwSetCallback s x.ptr cb).windows
      = { x with callbacks := (s, cb) :: x.callbacks } :: xs := by
  simp [FrameWorld.glfwSetCallback, h, modifyWindow]

theorem set_callbacks_ref_count (w : FrameWorld) (p : Nat) :
    (Frame.set_callbacks w p).ref_count = w.ref_count := by
  simp only [Frame.set_callbacks, glfwSetCallback_ref_count]

theorem set_callbacks_frames (w : FrameWorld) (p : Nat) :
    (Frame.set_callbacks w p).frames = w.frames := by
  simp only [Frame.set_callbacks, glfwSetCallback_frames]

theorem set_callbacks_ndebug (w : FrameWorld) (p : Nat) :
    (Frame.set_callbacks w p).ndebug = w.ndebug := by
  simp only [Frame.set_callbacks, glfwSetCallback_ndebug]

theorem set_callbacks_windows (w : FrameWorld) (x : GLFWwindow) (xs : List GLFWwindow)
    (h : w.windows = x :: xs) :
    (Frame.set_callbacks w x.ptr).windows
      = { x with callbacks := registeredCallbacks ++ x.callbacks } :: xs := by
  unfold Frame.set_callbacks
  have h1 := glfwSetCallback_windows w .Key .on_key_w x xs h
  have h2 := glfwSetCallback_windows _ .Char .on_char_w _ xs h1
  have h3 := glfwSetCallback_windows _ .CharMods .on_char_mods_w _ xs h2
  have h4 := glfwSetCallback_windows _ .MouseButton .on_mouse_button_w _ xs h3
  have h5 := glfwSetCallback_windows _ .CursorPos .on_cursor_w _ xs h4
  have h6 := glfwSetCallback_windows _ .CursorEnter .on_cursor_enter_w _ xs h5
  have h7 := glfwSetCallback_windows _ .Scroll .on_scroll_w _ xs h6
  have h8 := glfwSetCallback_windows _ .Drop .on_drop_w _ xs h7
  have h9 := glfwSetCallback_windows _ .WindowPos .on_window_move_w _ xs h8
  have h10 := glfwSetCallback_windows _ .WindowClose .on_window_close_w _ xs h9
  have h11 := glfwSetCallback_windows _ .WindowRefresh .on_window_refresh_w _ xs h10
  have h12 := glfwSetCallback_windows _ .WindowFocus .on_window_focus_w _ xs h11
  have h13 := glfwSetCallback_windows _ .WindowIconify .on_window_iconify_w _ xs h12
  have h14 := glfwSetCallback_windows _ .WindowMaximize .on_window_maximize_w _ xs h13
  have h15 := glfwSetCallback_windows _ .FramebufferSize .on_window_resize_w _ xs h14
  have h16 := glfwSetCallback_windows _ .WindowContentScale .on_window_content_scale_w _ xs h15
  exact h16

theorem ctor_open_test (w : FrameWorld) (width height : Int) (title : String)
    (created : Nat) (flagged : Bool) (hc : created ≠ 0) :
    Frame.is_open { window := created } (w.glfwCreateWindow width height title created flagged)
      = (!flagged, (w.glfwCreateWindow width height title created flagged).emit
          [.glfwWindowShouldClose created flagged]) := by
  cases flagged <;>
    simp [Frame.is_open, hc, FrameWorld.glfwWindowShouldClose, FrameWorld.glfwCreateWindow,
      FrameWorld.findWindow, List.find?]

theorem ite_emit_windows (c : Prop) [Decidable c] (w : FrameWorld) (l : List GLFWCall) :
    (if c then w else w.emit l).windows = w.windows := by
  split_ifs <;> rfl

theorem ite_emit_ref_count (c : Prop) [Decidable c] (w : FrameWorld) (l : List GLFWCall) :
    (if c then w else w.emit l).ref_count = w.ref_count := by
  split_ifs <;> rfl

theorem ite_emit_frames (c : Prop) [Decidable c] (w : FrameWorld) (l : List GLFWCall) :
    (if c then w else w.emit l).frames = w.frames := by
  split_ifs <;> rfl

@[simp] theorem glfwSetWindowUserPointer_ref_count (w : FrameWorld) (p q : Nat) :
    (w.glfwSetWindowUserPointer p q).ref_count = w.ref_count := rfl

@[simp] theorem glfwSetWindowUserPointer_frames (w : FrameWorld) (p q : Nat) :
    (w.glfwSetWindowUserPointer p q).frames = w.frames := rfl

theorem glfwSetWindowUserPointer_windows (w : FrameWorld) (q : Nat)
    (x : GLFWwindow) (xs : List GLFWwindow) (h : w.windows = x :: xs) :
    (w.glfwSetWindowUserPointer x.ptr q).windows = { x with userPointer := q } :: xs := by
  simp [FrameWorld.glfwSetWindowUserPointer, h, modifyWindow]

@[simp] theorem glfwCreateWindow_ref_count (w : FrameWorld) (a b : Int) (t : String) (p : Nat)
    (fl : Bool) : (w.glfwCreateWindow a b t p fl).ref_count = w.ref_count := rfl

@[simp] theorem glfwCreateWindow_frames (w : FrameWorld) (a b : Int) (t : String) (p : Nat)
    (fl : Bool) : (w.glfwCreateWindow a b t p fl).frames = w.frames := rfl

theorem glfwCreateWindow_windows (w : FrameWorld) (a b : Int) (t : String) (p : Nat)
    (fl : Bool) (hp : p ≠ 0) :
    (w.glfwCreateWindow a b t p fl).windows = { ptr := p, shouldClose := fl } :: w.windows := by
  simp [FrameWorld.glfwCreateWindow, hp]

/-- The world the window constructor leaves when it returns normally. -/
theorem ctor_world (w : FrameWorld) (this : Nat) (width height : Int) (title : String)
    (created : Nat) (glad : Int) (hc : created ≠ 0) (hg : glad ≠ 0) :
    (Frame.ctor w this width height title created false glad).1.windows
        = { ptr := created, userPointer := this, shouldClose := false,
            callbacks := registeredCallbacks } :: w.windows
      ∧ (Frame.ctor w this width height title created false glad).1.ref_count
          = w.ref_count + 1
      ∧ (Frame.ctor w this width height title created false glad).1.frames = w.frames := by
  unfold Frame.ctor
  simp only [ne_eq, hc, not_false_eq_true, if_true, ctor_open_test, Bool.not_false,
    Bool.true_eq_false, if_false, hg]
  refine ⟨?_, ?_, ?_⟩
  · rw [ite_emit_windows, emit_windows]
    have h1 := glfwCreateWindow_windows
      ((w.emit [.glfwSetErrorCallback]).inc_ref_count.emit
        [.glfwWindowHint .GLFW_OPENGL_DEBUG_CONTEXT
            (if (w.emit [.glfwSetErrorCallback]).inc_ref_count.ndebug then .GLFW_FALSE
              else .GLFW_TRUE),
          .glfwWindowHint .GLFW_CLIENT_API .GLFW_OPENGL_API,
          .glfwWindowHint .GLFW_CONTEXT_VERSION_MAJOR (.number 4),
          .glfwWindowHint .GLFW_CONTEXT_VERSION_MINOR (.number 5),
          .glfwWindowHint .GLFW_OPENGL_PROFILE .GLFW_OPENGL_COMPAT_PROFILE,
          .glfwWindowHint .GLFW_RESIZABLE .GLFW_FALSE])
      width height title created false hc
    rw [emit_windows, inc_ref_count_windows, emit_windows] at h1
    have h2 := glfwSetWindowUserPointer_windows
      (FrameWorld.emit _ [.glfwWindowShouldClose created false]) this _ _
      ((emit_windows _ _).trans h1)
    have h3 := set_callbacks_windows _ _ _ h2
    simpa using h3
  · rw [ite_emit_ref_count]
    simp only [emit_ref_count, set_callbacks_ref_count, glfwSetWindowUserPointer_ref_count,
      glfwCreateWindow_ref_count, inc_ref_count_ref_count]
  · rw [ite_emit_frames]
    simp only [emit_frames, set_callbacks_frames, glfwSetWindowUserPointer_frames,
      glfwCreateWindow_frames, inc_ref_count_frames]

/-- Whether the window constructor throws. -/
theorem ctor_outcome (w : FrameWorld) (this : Nat) (width height : Int) (title : String)
    (created : Nat) (flagged : Bool) (glad : Int) :
    (Frame.ctor w this width height title created flagged glad).2
      = if created = 0 ∨ flagged = true ∨ glad = 0 then .threw .mk
        else .returned { window := created } := by
  unfold Frame.ctor
  by_cases hc : created = 0
  · simp only [hc, ne_eq, not_true_eq_false, if_false, if_true, true_or]
  · simp only [ne_eq, hc, not_false_eq_true, if_true, ctor_open_test, false_or]
    cases flagged with
    | true => simp only [Bool.not_true, if_true, true_or]
    | false =>
      simp only [Bool.not_false, Bool.true_eq_false, if_false, Bool.false_eq_true, false_or]
      by_cases hg : glad = 0
      · simp only [hg, if_true]
      · simp only [hg, if_false]

theorem copyPaths_take (paths : List String) :
    ∀ n, n ≤ paths.length → copyPaths paths n = some (paths.take n)
  | 0, _ => by simp [copyPaths]
  | n + 1, h => by
    have hn : n < paths.length := h
    have ih := copyPaths_take paths n (Nat.le_of_lt hn)
    simp only [copyPaths, ih, List.getElem?_eq_getElem hn]
    rw [List.take_succ, List.getElem?_eq_getElem hn]
    rfl

theorem fire_of_head (w : FrameWorld) (x : GLFWwindow) (xs : List GLFWwindow)
    (h : w.windows = x :: xs) (slot : CallbackSlot) (args : NativeArgs) (cb : Trampoline)
    (hcb : x.callback slot = some cb) :
    w.fire x.ptr slot args = (cb.invoke w x.ptr args).map (fun c => [c]) := by
  simp [FrameWorld.fire, FrameWorld.findWindow, h, List.find?, hcb]

theorem userPointer_of_head (w : FrameWorld) (x : GLFWwindow) (xs : List GLFWwindow)
    (h : w.windows = x :: xs) : w.glfwGetWindowUserPointer x.ptr = x.userPointer := by
  simp [FrameWorld.glfwGetWindowUserPointer, FrameWorld.findWindow, h, List.find?]

theorem invoke_user_pointer (v : FrameWorld) (window : Nat) (cb : Trampoline)
    (args : NativeArgs) (c : Nat × MethodCall) (h : cb.invoke v window args = some c) :
    c.1 = v.glfwGetWindowUserPointer window := by
  cases cb <;> cases args <;>
    simp only [Trampoline.invoke, Option.some.injEq, on_key_w, on_char_w, on_char_mods_w,
      on_mouse_button_w, on_cursor_w, on_cursor_enter_w, on_scroll_w, on_window_move_w,
      window_size_cb_w, on_window_close_w, on_window_refresh_w, on_window_focus_w,
      on_window_iconify_w, on_window_maximize_w, on_window_resize_w,
      on_window_content_scale_w] at h <;>
    first
      | exact absurd h (by simp)
      | (rw [← h])
      | (simp only [on_drop_w] at h
         split_ifs at h
         simp only [Option.map_eq_some'] at h
         obtain ⟨_, _, h⟩ := h
         rw [← h])

/-- C6. Let the window constructor of the `Frame` at address `this` return
normally.  Then every native event that GLFW delivers to the new window
through one of the sixteen callback slots results in exactly one method call,
made on the `Frame` at `this` (the window's user pointer), of the method named
like the trampoline in that slot, with the native arguments in their order:
`on_key` gets key, action and mods (the scancode is dropped), `on_mouse_button`
gets button, action and mods, `on_cursor` and `on_scroll` get the pair `(x, y)`,
`on_drop` gets the first `path_count` paths of the native array in order, the
framebuffer-size slot calls `on_window_resize(width, height)`; `int` flags
arrive as `bool` (non-zero is true).  In any state, whatever a trampoline calls,
it calls on the object the window's user pointer designates. -/
theorem trampolines_forward_to_frame (w : FrameWorld) (this : Nat) (width height : Int)
    (title : String) (created : Nat) (flagged : Bool) (glad : Int) (f : Frame)
    (h : (Frame.ctor w this width height title created flagged glad).2 = .returned f) :
    (∀ key scancode action mods,
        (Frame.ctor w this width height title created flagged glad).1.fire f.window .Key
          (.key key scancode action mods)
          = some [(this, .on_key ⟨key⟩ ⟨action⟩ ⟨mods⟩)])
      ∧ (∀ codepoint,
        (Frame.ctor w this width height title created flagged glad).1.fire f.window .Char
          (.char codepoint) = some [(this, .on_char codepoint)])
      ∧ (∀ codepoint mods,
        (Frame.ctor w this width height title created flagged glad).1.fire f.window .CharMods
          (.charMods codepoint mods) = some [(this, .on_char_mods codepoint ⟨mods⟩)])
      ∧ (∀ button action mods,
        (Frame.ctor w this width height title created flagged glad).1.fire f.window
          .MouseButton (.int3 button action mods)
          = some [(this, .on_mouse_button ⟨button⟩ ⟨action⟩ ⟨mods⟩)])
      ∧ (∀ xpos ypos,
        (Frame.ctor w this width height title created flagged glad).1.fire f.window .CursorPos
          (.double2 xpos ypos) = some [(this, .on_cursor (xpos, ypos))])
      ∧ (∀ entered,
        (Frame.ctor w this width height title created flagged glad).1.fire f.window
          .CursorEnter (.int1 entered) = some [(this, .on_cursor_enter (decide (entered ≠ 0)))])
      ∧ (∀ xoffset yoffset,
        (Frame.ctor w this width height title created flagged glad).1.fire f.window .Scroll
          (.double2 xoffset yoffset) = some [(this, .on_scroll (xoffset, yoffset))])
      ∧ (∀ (paths : List String) (path_count : Nat), path_count ≤ paths.length →
        (Frame.ctor w this width height title created flagged glad).1.fire f.window .Drop
          (.drop path_count paths) = some [(this, .on_drop (paths.take path_count))]
        ∧ (paths.take path_count).length = path_count)
      ∧ (∀ xpos ypos,
        (Frame.ctor w this width height title created flagged glad).1.fire f.window .WindowPos
          (.int2 xpos ypos) = some [(this, .on_window_move (xpos, ypos))])
      ∧ ((Frame.ctor w this width height title created flagged glad).1.fire f.window
          .WindowClose .unit = some [(this, .on_window_close)])
      ∧ ((Frame.ctor w this width height title created flagged glad).1.fire f.window
          .WindowRefresh .unit = some [(this, .on_window_refresh)])
      ∧ (∀ focused,
        (Frame.ctor w this width height title created flagged glad).1.fire f.window
          .WindowFocus (.int1 focused) = some [(this, .on_window_focus (decide (focused ≠ 0)))])
      ∧ (∀ iconified,
        (Frame.ctor w this width height title created flagged glad).1.fire f.window
          .WindowIconify (.int1 iconified)
          = some [(this, .on_window_iconify (decide (iconified ≠ 0)))])
      ∧ (∀ maximized,
        (Frame.ctor w this width height title created flagged glad).1.fire f.window
          .WindowMaximize (.int1 maximized)
          = some [(this, .on_window_maximize (decide (maximized ≠ 0)))])
      ∧ (∀ width' height',
        (Frame.ctor w this width height title created flagged glad).1.fire f.window
          .FramebufferSize (.int2 width' height')
          = some [(this, .on_window_resize width' height')])
      ∧ (∀ xscale yscale,
        (Frame.ctor w this width height title created flagged glad).1.fire f.window
          .WindowContentScale (.float2 xscale yscale)
          = some [(this, .on_window_content_scale (xscale, yscale))])
      ∧ (∀ (v : FrameWorld) (window : Nat) (cb : Trampoline) (args : NativeArgs)
          (c : Nat × MethodCall), cb.invoke v window args = some c →
          c.1 = v.glfwGetWindowUserPointer window) := by
  have ho := ctor_outcome w this width height title created flagged glad
  rw [h] at ho
  split_ifs at ho with hcond
  simp only [not_or] at hcond
  obtain ⟨hc, hf, hg⟩ := hcond
  have hf' : flagged = false := by simpa using hf
  subst hf'
  simp only [Constructed.returned.injEq] at ho
  subst ho
  obtain ⟨hw, -, -⟩ := ctor_world w this width height title created glad hc hg
  generalize (Frame.ctor w this width height title created false glad).1 = W at hw
  have hu := userPointer_of_head W _ _ hw
  have hfire := fun slot args cb hcb => fire_of_head W _ _ hw slot args cb hcb
  simp only at hu hfire
  refine ⟨?_, ?_, ?_, ?_, ?_, ?_, ?_, ?_, ?_, ?_, ?_, ?_, ?_, ?_, ?_, ?_, ?_⟩
  · intro key scancode action mods
    rw [hfire .Key _ .on_key_w rfl]
    simp [Trampoline.invoke, on_key_w, hu]
  · intro codepoint
    rw [hfire .Char _ .on_char_w rfl]
    simp [Trampoline.invoke, on_char_w, hu]
  · intro codepoint mods
    rw [hfire .CharMods _ .on_char_mods_w rfl]
    simp [Trampoline.invoke, on_char_mods_w, hu]
  · intro button action mods
    rw [hfire .MouseButton _ .on_mouse_button_w rfl]
    simp [Trampoline.invoke, on_mouse_button_w, hu]
  · intro xpos ypos
    rw [hfire .CursorPos _ .on_cursor_w rfl]
    simp [Trampoline.invoke, on_cursor_w, hu]
  · intro entered
    rw [hfire .CursorEnter _ .on_cursor_enter_w rfl]
    simp [Trampoline.invoke, on_cursor_enter_w, hu, intToBool]
  · intro xoffset yoffset
    rw [hfire .Scroll _ .on_scroll_w rfl]
    simp [Trampoline.invoke, on_scroll_w, hu]
  · intro paths path_count hle
    rw [hfire .Drop _ .on_drop_w rfl]
    refine ⟨?_, List.length_take_of_le hle⟩
    simp [Trampoline.invoke, on_drop_w, hu, copyPaths_take paths path_count hle]
  · intro xpos ypos
    rw [hfire .WindowPos _ .on_window_move_w rfl]
    simp [Trampoline.invoke, on_window_move_w, hu]
  · rw [hfire .WindowClose _ .on_window_close_w rfl]
    simp [Trampoline.invoke, on_window_close_w, hu]
  · rw [hfire .WindowRefresh _ .on_window_refresh_w rfl]
    simp [Trampoline.invoke, on_window_refresh_w, hu]
  · intro focused
    rw [hfire .WindowFocus _ .on_window_focus_w rfl]
    simp [Trampoline.invoke, on_window_focus_w, hu, intToBool]
  · intro iconified
    rw [hfire .WindowIconify _ .on_window_iconify_w rfl]
    simp [Trampoline.invoke, on_window_iconify_w, hu, intToBool]
  · intro maximized
    rw [hfire .WindowMaximize _ .on_window_maximize_w rfl]
    simp [Trampoline.invoke, on_window_maximize_w, hu, intToBool]
  · intro width' height'
    rw [hfire .FramebufferSize _ .on_window_resize_w rfl]
    simp [Trampoline.invoke, on_window_resize_w, hu]
  · intro xscale yscale
    rw [hfire .WindowContentScale _ .on_window_content_scale_w rfl]
    simp [Trampoline.invoke, on_window_content_scale_w, hu]
  · exact invoke_user_pointer

/-- Witness for C6: a frame at address 100 on window 7 receives a key event
and a drop of two paths. -/
theorem trampolines_forward_to_frame_witness :
    (Frame.ctor {} 100 640 480 "t" 7 false 1).1.fire 7 .Key (.key 65 30 1 0)
        = some [(100, .on_key ⟨65⟩ ⟨1⟩ ⟨0⟩)]
      ∧ (Frame.ctor {} 100 640 480 "t" 7 false 1).1.fire 7 .Drop (.drop 2 ["a", "b"])
        = some [(100, .on_drop ["a", "b"])] :=
  ⟨(trampolines_forward_to_frame {} 100 640 480 "t" 7 false 1 { window := 7 }
      (by decide)).1 65 30 1 0,
   by decide⟩

/-- C10. `Frame(width, height, title)` throws `FrameException` exactly when
`glfwCreateWindow` returns null, or the new window is flagged to close, or
`gladLoadGLLoader` returns 0.  When it returns normally the frame holds the
non-null window that was created, and GLFW holds for that window the user
pointer `this` and the callbacks of `registeredCallbacks`: sixteen entries,
one for each of the sixteen slots. -/
theorem ctor_throws_iff_creation_or_loader_fails (w : FrameWorld) (this : Nat)
    (width height : Int) (title : String) (created : Nat) (flagged : Bool) (glad : Int) :
    ((Frame.ctor w this width height title created flagged glad).2 = .threw .mk
        ↔ (created = 0 ∨ flagged = true) ∨ glad = 0)
      ∧ (∀ f, (Frame.ctor w this width height title created flagged glad).2 = .returned f →
          f.window = created ∧ f.window ≠ 0
          ∧ (Frame.ctor w this width height title created flagged glad).1.findWindow f.window
              = some { ptr := created, userPointer := this, shouldClose := false,
                       callbacks := registeredCallbacks })
      ∧ registeredCallbacks.length = 16
      ∧ (∀ slot : CallbackSlot, slot ∈ registeredCallbacks.map Prod.fst)
      ∧ (registeredCallbacks.map Prod.fst).Nodup := by
  have ho := ctor_outcome w this width height title created flagged glad
  refine ⟨?_, ?_, by decide, ?_, by decide⟩
  · rw [ho]
    by_cases hcond : created = 0 ∨ flagged = true ∨ glad = 0
    · rw [if_pos hcond]
      simp only [true_iff]
      tauto
    · rw [if_neg hcond]
      constructor
      · intro h
        exact absurd h (by simp)
      · intro h
        exact absurd (by tauto) hcond
  · intro f h
    rw [h] at ho
    split_ifs at ho with hcond
    simp only [not_or] at hcond
    obtain ⟨hc, hf, hg⟩ := hcond
    have hf' : flagged = false := by simpa using hf
    subst hf'
    simp only [Constructed.returned.injEq] at ho
    subst ho
    obtain ⟨hw, -, -⟩ := ctor_world w this width height title created glad hc hg
    refine ⟨rfl, hc, ?_⟩
    simp [FrameWorld.findWindow, hw, List.find?]
  · intro slot
    cases slot <;> decide

/-- C7 fails on the code at a move.  The frame at address 100 is constructed
on window 7 and then moved into a new frame at address 200.  The frame at 200
now owns window 7 and the frame at 100 holds no window, yet the user pointer
of window 7 is still 100, so a key event on window 7 calls `on_key` on the
moved-from frame; after that frame is destroyed the event is still sent to
address 100, where no frame lives. -/
theorem move_leaves_user_pointer_at_source :
    ∃ w w', FrameWorld.run {} [.windowCtor 100 640 480 "t" 7 false 1, .moveCtor 200 100] = some w
      ∧ w.frames = [{ addr := 200, frame := { window := 7 } },
                    { addr := 100, frame := { window := 0 } }]
      ∧ w.glfwGetWindowUserPointer 7 = 100
      ∧ w.fire 7 .Key (.key 65 30 1 0) = some [(100, .on_key ⟨65⟩ ⟨1⟩ ⟨0⟩)]
      ∧ w.step (.dtor 100) = some w'
      ∧ w'.frames = [{ addr := 200, frame := { window := 7 } }]
      ∧ w'.findFrame 100 = none
      ∧ w'.fire 7 .Key (.key 65 30 1 0) = some [(100, .on_key ⟨65⟩ ⟨1⟩ ⟨0⟩)] :=
  ⟨_, _, rfl, by decide, by decide, by decide, rfl, by decide, by decide, by decide⟩

theorem holdingWindow_setFrame (a : Nat) (f : Frame) :
    ∀ (os : List FrameObj) (o : FrameObj), os.find? (fun o => o.addr = a) = some o →
      holdingWindow (setFrame a f os) + (if o.frame.window ≠ 0 then 1 else 0)
        = holdingWindow os + (if f.window ≠ 0 then 1 else 0)
  | [], o, hf => by simp at hf
  | x :: xs, o, hf => by
    by_cases hx : x.addr = a
    · have ho : x = o := by simpa [List.find?, hx] using hf
      subst ho
      simp only [setFrame, hx, if_true, holdingWindow, List.countP_cons]
      simp only [decide_eq_true_eq]
      omega
    · have hf' : xs.find? (fun o => o.addr = a) = some o := by
        simpa [List.find?, hx] using hf
      have ih := holdingWindow_setFrame a f xs o hf'
      simp only [setFrame, hx, if_false, holdingWindow, List.countP_cons] at ih ⊢
      omega

theorem holdingWindow_removeFrame (a : Nat) :
    ∀ (os : List FrameObj) (o : FrameObj), os.find? (fun o => o.addr = a) = some o →
      holdingWindow (removeFrame a os) + (if o.frame.window ≠ 0 then 1 else 0)
        = holdingWindow os
  | [], o, hf => by simp at hf
  | x :: xs, o, hf => by
    by_cases hx : x.addr = a
    · have ho : x = o := by simpa [List.find?, hx] using hf
      subst ho
      simp only [removeFrame, hx, if_true, holdingWindow, List.countP_cons]
      simp only [decide_eq_true_eq]
    · have hf' : xs.find? (fun o => o.addr = a) = some o := by
        simpa [List.find?, hx] using hf
      have ih := holdingWindow_removeFrame a xs o hf'
      simp only [removeFrame, hx, if_false, holdingWindow, List.countP_cons] at ih ⊢
      omega

theorem dec_ref_count_ref_count (w : FrameWorld) :
    w.dec_ref_count.ref_count = w.ref_count - 1 := by
  simp only [FrameWorld.dec_ref_count]
  split_ifs <;> rfl

theorem dec_ref_count_frames (w : FrameWorld) : w.dec_ref_count.frames = w.frames := by
  simp only [FrameWorld.dec_ref_count]
  split_ifs <;> rfl

theorem dtor_frames (f : Frame) (w : FrameWorld) : (f.dtor w).frames = w.frames := by
  simp only [Frame.dtor]
  split_ifs
  · rw [dec_ref_count_frames]
    rfl
  · rfl

theorem dtor_ref_count (f : Frame) (w : FrameWorld) :
    (f.dtor w).ref_count = w.ref_count - (if f.window ≠ 0 then 1 else 0) := by
  simp only [Frame.dtor]
  split_ifs
  · rw [dec_ref_count_ref_count]
    rfl
  · simp

theorem ref_count_step (w w' : FrameWorld) (op : FrameOp) (hop : op.throws = false)
    (hw : w.ref_count = holdingWindow w.frames) (hs : w.step op = some w') :
    w'.ref_count = holdingWindow w'.frames := by
  cases op with
  | windowCtor this width height title created flagged glad =>
    simp only [FrameOp.throws, Bool.or_eq_false_iff, decide_eq_false_iff_not] at hop
    obtain ⟨⟨hc, hf⟩, hg⟩ := hop
    subst hf
    have ho := ctor_outcome w this width height title created false glad
    rw [if_neg (by simp [hc, hg])] at ho
    obtain ⟨-, hr, hfr⟩ := ctor_world w this width height title created glad hc hg
    simp only [FrameWorld.step] at hs
    split at hs
    · exact absurd hs (by simp)
    · rw [ho] at hs
      simp only [Option.some.injEq] at hs
      subst hs
      simp only [hr, hfr, holdingWindow, List.countP_cons, hw]
      simp [hc]
  | defaultCtor this =>
    simp only [FrameWorld.step] at hs
    split at hs
    · exact absurd hs (by simp)
    · simp only [Option.some.injEq] at hs
      subst hs
      simpa [holdingWindow] using hw
  | moveCtor this other =>
    simp only [FrameWorld.step] at hs
    split at hs
    · rename_i o _ hf
      simp only [Option.some.injEq] at hs
      subst hs
      have hset := holdingWindow_setFrame other o.frame.move.2 w.frames o hf
      by_cases hz : o.frame.window = 0
      · simp only [Frame.move, holdingWindow, List.countP_cons, ne_eq, not_true_eq_false,
          if_false, decide_eq_true_eq, hz] at hset hw ⊢
        rw [hw]
        omega
      · simp only [Frame.move, holdingWindow, List.countP_cons, ne_eq, not_true_eq_false,
          if_false, decide_eq_true_eq, hz, not_false_eq_true, if_true] at hset hw ⊢
        rw [hw]
        omega
    · exact absurd hs (by simp)
  | dtor this =>
    simp only [FrameWorld.step] at hs
    split at hs
    · exact absurd hs (by simp)
    · rename_i o hf
      simp only [Option.some.injEq] at hs
      subst hs
      have hrem := holdingWindow_removeFrame this w.frames o hf
      simp only [dtor_frames, dtor_ref_count, hw]
      split_ifs at hrem ⊢ <;> omega

theorem ref_count_run : ∀ (ops : List FrameOp) (w w' : FrameWorld),
    (∀ op ∈ ops, op.throws = false) → w.ref_count = holdingWindow w.frames →
    w.run ops = some w' → w'.ref_count = holdingWindow w'.frames
  | [], w, w', _, hw, hr => by
    simp only [FrameWorld.run, Option.some.injEq] at hr
    exact hr ▸ hw
  | op :: ops, w, w', hops, hw, hr => by
    simp only [FrameWorld.run] at hr
    split at hr
    · exact absurd hr (by simp)
    · rename_i w1 hs
      exact ref_count_run ops w1 w' (fun o ho => hops o (List.mem_cons_of_mem _ ho))
        (ref_count_step w w1 op (hops op (List.mem_cons_self _ _)) hw hs) hr

theorem inc_ref_count_trace (w : FrameWorld) :
    w.inc_ref_count.trace = w.trace ++ (if w.ref_count = 0 then [.glfwInit] else []) := by
  simp only [FrameWorld.inc_ref_count]
  split_ifs <;> simp [FrameWorld.emit]

theorem dec_ref_count_trace (w : FrameWorld) :
    w.dec_ref_count.trace
      = w.trace ++ (if w.ref_count - 1 = 0 then [.glfwTerminate] else []) := by
  simp only [FrameWorld.dec_ref_count]
  split_ifs <;> simp

/-- C8 fails on the code when a window constructor throws.  With
`glfwCreateWindow` returning null, the first `Frame(640, 480, "t")` of a
program throws `FrameException` after `GLFW::inc_ref_count`, so the count is 1
although no `Frame` lives; a second frame that is then constructed and
destroyed leaves the count at 1 and `glfwTerminate` is never called.  In runs
in which no window constructor throws, the count equals the number of live
frames that hold a window; `glfwInit` is called by `inc_ref_count` exactly
when the count is 0, and `glfwTerminate` by `dec_ref_count` exactly when the
count drops to 0. -/
theorem ctor_throw_keeps_ref_count :
    (∃ w, FrameWorld.run {} [.windowCtor 100 640 480 "t" 0 false 1] = some w
        ∧ (Frame.ctor {} 100 640 480 "t" 0 false 1).2 = .threw .mk
        ∧ w.frames = [] ∧ holdingWindow w.frames = 0 ∧ w.ref_count = 1)
      ∧ (∃ w, FrameWorld.run {}
            [.windowCtor 100 640 480 "t" 0 false 1, .windowCtor 200 640 480 "t" 7 false 1,
             .dtor 200] = some w
          ∧ w.frames = [] ∧ w.ref_count = 1 ∧ GLFWCall.glfwTerminate ∉ w.trace)
      ∧ (∀ (ops : List FrameOp) (w : FrameWorld), (∀ op ∈ ops, op.throws = false) →
          FrameWorld.run {} ops = some w → w.ref_count = holdingWindow w.frames)
      ∧ (∀ w : FrameWorld,
          w.inc_ref_count.ref_count = w.ref_count + 1
          ∧ w.inc_ref_count.trace = w.trace ++ (if w.ref_count = 0 then [.glfwInit] else []))
      ∧ (∀ w : FrameWorld,
          w.dec_ref_count.ref_count = w.ref_count - 1
          ∧ w.dec_ref_count.trace
              = w.trace ++ (if w.ref_count - 1 = 0 then [.glfwTerminate] else [])) :=
  ⟨⟨_, rfl, by decide, by decide, by decide, by decide⟩,
   ⟨_, rfl, by decide, by decide, by decide⟩,
   fun ops w hops hr => ref_count_run ops {} w hops (by decide) hr,
   fun w => ⟨inc_ref_count_ref_count w, inc_ref_count_trace w⟩,
   fun w => ⟨dec_ref_count_ref_count w, dec_ref_count_trace w⟩⟩

/-- C9 fails on the code when a window constructor throws after the window
exists.  With `gladLoadGLLoader` returning 0, `Frame(640, 480, "t")` creates
window 7 and throws; no `Frame` holds the window, GLFW still has it, and no
`glfwDestroyWindow` was made.  The rest of the claim holds: a frame whose
window is null (default-constructed, or moved from) has `is_open() = false`,
its `swap_buffers()` and its destructor make no call; a move hands the window
to the new frame; the destructor of a frame that holds a window destroys it
once. -/
theorem ctor_throw_leaks_window :
    (∃ w, FrameWorld.run {} [.windowCtor 100 640 480 "t" 7 false 0] = some w
        ∧ (Frame.ctor {} 100 640 480 "t" 7 false 0).2 = .threw .mk
        ∧ w.frames = []
        ∧ (w.findWindow 7).isSome = true
        ∧ GLFWCall.glfwCreateWindow 640 480 "t" 7 ∈ w.trace
        ∧ GLFWCall.glfwDestroyWindow 7 ∉ w.trace)
      ∧ (∀ w : FrameWorld,
          Frame.is_open {} w = (false, w) ∧ Frame.swap_buffers {} w = w
          ∧ Frame.dtor {} w = w)
      ∧ (∀ o : Frame, o.move.1.window = o.window ∧ o.move.2 = {})
      ∧ (∀ (f : Frame) (w : FrameWorld), f.window ≠ 0 →
          (f.dtor w).trace = w.trace ++
            [.glfwSetWindowShouldClose f.window true, .glfwPollEvents,
             .glfwDestroyWindow f.window] ++
            (if w.ref_count - 1 = 0 then [.glfwTerminate] else [])) := by
  refine ⟨⟨_, rfl, by decide, by decide, by decide, by decide, by decide⟩, ?_, ?_, ?_⟩
  · intro w
    refine ⟨rfl, ?_, rfl⟩
    simp [Frame.swap_buffers, Frame.is_open]
  · intro o
    exact ⟨rfl, rfl⟩
  · intro f w hf
    simp only [Frame.dtor, hf, ne_eq, not_false_eq_true, if_true, dec_ref_count_trace]
    simp [FrameWorld.glfwDestroyWindow, FrameWorld.emit, FrameWorld.glfwSetWindowShouldClose]

/-! ### The streaming buffer: binding -/

theorem slot_offset_mod (s : BufferStreamBase) (hv : s.Valid) :
    (s.slot * s.size_bytes) % SIZE_MOD = s.slot * s.size_bytes := by
  obtain ⟨fences, buffer, slot, handle⟩ := s
  obtain ⟨hb, hs⟩ := hv
  simp only [BufferStreamBase.slots, FenceArray.size] at hs
  simp only [SIZE_MOD] at hb
  simp only [BufferStreamBase.size_bytes, BufferStreamBase.slots, FenceArray.size, SIZE_MOD]
  apply Nat.mod_eq_of_lt
  interval_cases slot <;> omega

/-- C20. For a valid stream buffer, `bind_to_uniform` and `bind_to_storage`
make one `glBindBufferRange` call on the buffer with offset
`current_slot() * size_bytes()` and length `size_bytes()`, which are the offset
(from the start of the mapping) and the length of `slot_span`.  After an
`update` that returns, that range is the span the update handed to its
writer; for a freshly constructed buffer it is the range of slot 0. -/
theorem stream_bind_range_is_written_slot (s : BufferStreamBase) (index : Nat)
    (hv : s.Valid) :
    s.bind_to_uniform index
        = [.glBindBufferRange .GL_UNIFORM_BUFFER index s.id
            (s.current_slot * s.size_bytes) s.size_bytes]
      ∧ s.bind_to_storage index
        = [.glBindBufferRange .GL_SHADER_STORAGE_BUFFER index s.id
            (s.current_slot * s.size_bytes) s.size_bytes]
      ∧ s.slot_span
        = some { data := s.buffer.data + s.current_slot * s.size_bytes, size := s.size_bytes }
      ∧ (∀ answers sync s' t, s.update answers sync = some (s', t) →
          writes t = [{ data := s'.buffer.data + s'.current_slot * s'.size_bytes,
                        size := s'.size_bytes }]
          ∧ s'.bind_to_uniform index
              = [.glBindBufferRange .GL_UNIFORM_BUFFER index s'.id
                  (s'.current_slot * s'.size_bytes) s'.size_bytes]
          ∧ s'.bind_to_storage index
              = [.glBindBufferRange .GL_SHADER_STORAGE_BUFFER index s'.id
                  (s'.current_slot * s'.size_bytes) s'.size_bytes])
      ∧ (∀ n sync0 sync1 sync2 id data,
          (BufferStreamBase.new n sync0 sync1 sync2 id data).1.bind_to_uniform index
            = [.glBindBufferRange .GL_UNIFORM_BUFFER index id 0
                (BufferStreamBase.new n sync0 sync1 sync2 id data).1.size_bytes]
          ∧ (BufferStreamBase.new n sync0 sync1 sync2 id data).1.bind_to_storage index
            = [.glBindBufferRange .GL_SHADER_STORAGE_BUFFER index id 0
                (BufferStreamBase.new n sync0 sync1 sync2 id data).1.size_bytes]) := by
  have hbind : ∀ v : BufferStreamBase, v.Valid →
      v.bind_to_uniform index
          = [.glBindBufferRange .GL_UNIFORM_BUFFER index v.id
              (v.current_slot * v.size_bytes) v.size_bytes]
        ∧ v.bind_to_storage index
          = [.glBindBufferRange .GL_SHADER_STORAGE_BUFFER index v.id
              (v.current_slot * v.size_bytes) v.size_bytes] := by
    intro v hvv
    simp only [BufferStreamBase.bind_to_uniform, BufferStreamBase.bind_to_storage,
      slot_offset_mod v hvv, BufferStreamBase.id, BufferStreamBase.current_slot, and_self]
  have hsz : ∀ v : BufferStreamBase, v.buffer.size / 3 = v.size_bytes := fun v => rfl
  refine ⟨(hbind s hv).1, (hbind s hv).2, ?_, ?_, ?_⟩
  · rw [slot_span_eq s hv, hsz]
    rfl
  · intro answers sync s' t h
    obtain ⟨_, h2, h3, h4⟩ := update_valid_slot s answers sync s' t hv h
    have e : s'.size_bytes = s.size_bytes := by
      rw [← hsz, ← hsz, h3]
    refine ⟨?_, (hbind s' h2).1, (hbind s' h2).2⟩
    rw [h4, h3, e]
  · intro n sync0 sync1 sync2 id data
    have h := hbind _ (new_valid n sync0 sync1 sync2 id data)
    have h0 : (BufferStreamBase.new n sync0 sync1 sync2 id data).1.current_slot = 0 := rfl
    have hid : (BufferStreamBase.new n sync0 sync1 sync2 id data).1.id = id := rfl
    rw [h0, hid, Nat.zero_mul] at h
    exact h

/-- Witness for C20: after one update of a fresh stream of 16-byte slots
mapped at 4096 the writer got bytes 16..31 of the mapping and both binds name
offset 16, length 16. -/
theorem stream_bind_range_is_written_slot_witness :
    BufferStreamBase.bind_to_uniform
        { fences := { f0 := { handle := 11 }, f1 := { handle := 21 }, f2 := { handle := 13 } },
          buffer := { data := 4096, size := 48 }, slot := 1, handle := { _id := 5 } } 2
      = [.glBindBufferRange .GL_UNIFORM_BUFFER 2 5 16 16]
    ∧ (BufferStreamBase.update (BufferStreamBase.new 16 11 12 13 5 4096).1
          [.GL_ALREADY_SIGNALED] 21).map (fun r => (writes r.2, r.1.bind_to_storage 2))
      = some ([{ data := 4096 + 16, size := 16 }],
              [.glBindBufferRange .GL_SHADER_STORAGE_BUFFER 2 5 16 16]) :=
  ⟨(stream_bind_range_is_written_slot
      { fences := { f0 := { handle := 11 }, f1 := { handle := 21 }, f2 := { handle := 13 } },
        buffer := { data := 4096, size := 48 }, slot := 1, handle := { _id := 5 } } 2
      ⟨by decide, by decide⟩).1,
   by decide⟩

/-! ### Shaders and programs -/

theorem ensure_linkage_outcome (program : Nat) (is_linked : Int) (length : Nat)
    (written : List Char) :
    (ensure_linkage program is_linked length written).2
      = if is_linked = 0 then .threw .ShaderException else .returned () := by
  simp only [ensure_linkage]
  split_ifs <;> rfl

theorem finish_outcome (h : ResourceHandle) (t : List ShaderCall) (is_linked : Int)
    (length : Nat) (written : List Char) :
    (ShaderProgram.finish h t is_linked length written).2
      = if is_linked = 0 then .threw .ShaderException else .returned { handle := h } := by
  simp only [ShaderProgram.finish, ensure_linkage]
  split_ifs <;> rfl

theorem finish_trace (h : ResourceHandle) (t : List ShaderCall) (is_linked : Int)
    (length : Nat) (written : List Char) :
    (ShaderProgram.finish h t is_linked length written).1
      = t ++ [.glGetProgramiv h.id .GL_LINK_STATUS is_linked] ++
          (if is_linked = 0 then
            [.glGetProgramiv h.id .GL_INFO_LOG_LENGTH length,
             .glGetProgramInfoLog h.id length written,
             .loggerError "Shader linkage failed:\n\x7b\x7d" written] ++
              (if h._id ≠ 0 then [ShaderCall.gl (.glDeleteProgram h._id)] else [])
          else []) := by
  by_cases hl : is_linked = 0
  · by_cases hz : h._id = 0 <;>
      simp [ShaderProgram.finish, ensure_linkage, hl, hz, HandleClass.destruct,
        HandleClass.deleteCall]
  · simp [ShaderProgram.finish, ensure_linkage, hl]

/-- C11. Both constructors of `ShaderProgram` return normally exactly when the
link status that OpenGL reports is true (not 0), and throw `ShaderException`
exactly when it is false; the status is the one asked for after
`glLinkProgram` on the program the constructor created, and the object that
is returned holds that program. -/
theorem shader_program_returns_iff_linked (shaders : List Shader) (vert frag : Shader)
    (ret : Nat) (is_linked : Int) (length : Nat) (written : List Char) :
    ((ShaderProgram.ctor_vec shaders ret is_linked length written).2
        = .returned { handle := { _id := ret } } ↔ is_linked ≠ 0)
      ∧ ((ShaderProgram.ctor_vec shaders ret is_linked length written).2
        = .threw .ShaderException ↔ is_linked = 0)
      ∧ ((ShaderProgram.ctor_vert_frag vert frag ret is_linked length written).2
        = .returned { handle := { _id := ret } } ↔ is_linked ≠ 0)
      ∧ ((ShaderProgram.ctor_vert_frag vert frag ret is_linked length written).2
        = .threw .ShaderException ↔ is_linked = 0)
      ∧ (∃ pre post, (ShaderProgram.ctor_vec shaders ret is_linked length written).1
          = pre ++ [.glLinkProgram ret] ++ shaders.map (fun s => .glDetachShader ret s.id)
              ++ [.glGetProgramiv ret .GL_LINK_STATUS is_linked] ++ post)
      ∧ (∃ pre post, (ShaderProgram.ctor_vert_frag vert frag ret is_linked length written).1
          = pre ++ [.glLinkProgram ret] ++ [.glDetachShader ret vert.id,
              .glDetachShader ret frag.id]
              ++ [.glGetProgramiv ret .GL_LINK_STATUS is_linked] ++ post) := by
  refine ⟨?_, ?_, ?_, ?_, ?_, ?_⟩
  · simp only [ShaderProgram.ctor_vec, finish_outcome, HandleClass.construct]
    split_ifs with h <;> simp [h]
  · simp only [ShaderProgram.ctor_vec, finish_outcome, HandleClass.construct]
    split_ifs with h <;> simp [h]
  · simp only [ShaderProgram.ctor_vert_frag, finish_outcome, HandleClass.construct]
    split_ifs with h <;> simp [h]
  · simp only [ShaderProgram.ctor_vert_frag, finish_outcome, HandleClass.construct]
    split_ifs with h <;> simp [h]
  · refine ⟨[.gl (.glCreateProgram ret)] ++ shaders.map (fun s => .glAttachShader ret s.id),
      (if is_linked = 0 then
        [.glGetProgramiv ret .GL_INFO_LOG_LENGTH length,
         .glGetProgramInfoLog ret length written,
         .loggerError "Shader linkage failed:\n\x7b\x7d" written] ++
          (if ret ≠ 0 then [ShaderCall.gl (.glDeleteProgram ret)] else [])
      else []), ?_⟩
    simp [ShaderProgram.ctor_vec, finish_trace, HandleClass.construct,
      HandleClass.createCall, ResourceHandle.id]
  · refine ⟨[.gl (.glCreateProgram ret), .glAttachShader ret vert.id,
      .glAttachShader ret frag.id],
      (if is_linked = 0 then
        [.glGetProgramiv ret .GL_INFO_LOG_LENGTH length,
         .glGetProgramInfoLog ret length written,
         .loggerError "Shader linkage failed:\n\x7b\x7d" written] ++
          (if ret ≠ 0 then [ShaderCall.gl (.glDeleteProgram ret)] else [])
      else []), ?_⟩
    simp [ShaderProgram.ctor_vert_frag, finish_trace, HandleClass.construct,
      HandleClass.createCall, ResourceHandle.id]

theorem attachedAfter_append (p : Nat) : ∀ (a b : List ShaderCall) (att : List Nat),
    attachedAfter p att (a ++ b) = attachedAfter p (attachedAfter p att a) b
  | [], b, att => rfl
  | c :: a, b, att => by
    cases c <;>
      (simp only [List.cons_append, attachedAfter]
       exact attachedAfter_append p a b _)

theorem attachedAfter_attach (p : Nat) : ∀ (shaders : List Shader) (att : List Nat),
    att.Nodup →
    (attachedAfter p att (shaders.map (fun s => ShaderCall.glAttachShader p s.id))).Nodup
      ∧ ∀ x ∈ attachedAfter p att (shaders.map (fun s => ShaderCall.glAttachShader p s.id)),
          x ∈ att ∨ x ∈ shaders.map Shader.id
  | [], att, h => ⟨h, fun x hx => Or.inl hx⟩
  | s :: shaders, att, h => by
    simp only [List.map_cons, attachedAfter, true_and]
    by_cases hs : s.id ∈ att
    · simp only [hs, not_true_eq_false, if_false]
      obtain ⟨h1, h2⟩ := attachedAfter_attach p shaders att h
      refine ⟨h1, fun x hx => ?_⟩
      rcases h2 x hx with h3 | h3
      · exact Or.inl h3
      · exact Or.inr (List.mem_cons_of_mem _ h3)
    · simp only [hs, not_false_eq_true, if_true]
      have hn : (att ++ [s.id]).Nodup := by
        rw [List.nodup_append]
        exact ⟨h, List.nodup_singleton _, by simpa using hs⟩
      obtain ⟨h1, h2⟩ := attachedAfter_attach p shaders (att ++ [s.id]) hn
      refine ⟨h1, fun x hx => ?_⟩
      rcases h2 x hx with h3 | h3
      · rcases List.mem_append.mp h3 with h4 | h4
        · exact Or.inl h4
        · exact Or.inr (by simp at h4; simp [h4])
      · exact Or.inr (List.mem_cons_of_mem _ h3)

theorem attachedAfter_detach (p : Nat) : ∀ (shaders : List Shader) (att : List Nat),
    att.Nodup → (∀ x ∈ att, x ∈ shaders.map Shader.id) →
    attachedAfter p att (shaders.map (fun s => ShaderCall.glDetachShader p s.id)) = []
  | [], att, _, h => by
    cases att with
    | nil => rfl
    | cons a as => exact absurd (h a (List.mem_cons_self _ _)) (by simp)
  | s :: shaders, att, hn, h => by
    simp only [List.map_cons, attachedAfter, if_true]
    apply attachedAfter_detach p shaders (att.erase s.id) (hn.erase _)
    intro x hx
    have hxa : x ∈ att := List.mem_of_mem_erase hx
    have hne : x ≠ s.id := fun e => by
      rw [e] at hx
      exact (List.Nodup.not_mem_erase hn) hx
    rcases List.mem_cons.mp (h x hxa) with h1 | h1
    · exact absurd h1 hne
    · exact h1

/-- C19. In both constructors of `ShaderProgram` the calls are, in order: the
creation of the program, one `glAttachShader` per given shader in the order
given, `glLinkProgram`, one `glDetachShader` per given shader in the same
order, the query of the link status, and then calls that attach and detach
nothing.  So, whether the constructor returns or throws, the program is left
with no shader attached. -/
theorem shader_program_attach_detach_order (shaders : List Shader) (vert frag : Shader)
    (ret : Nat) (is_linked : Int) (length : Nat) (written : List Char) :
    (∃ rest, (ShaderProgram.ctor_vec shaders ret is_linked length written).1
        = [.gl (.glCreateProgram ret)]
            ++ shaders.map (fun s => .glAttachShader ret s.id)
            ++ [.glLinkProgram ret]
            ++ shaders.map (fun s => .glDetachShader ret s.id)
            ++ [.glGetProgramiv ret .GL_LINK_STATUS is_linked] ++ rest
        ∧ ∀ p s, ShaderCall.glAttachShader p s ∉ rest ∧ ShaderCall.glDetachShader p s ∉ rest)
      ∧ attachedAfter ret [] (ShaderProgram.ctor_vec shaders ret is_linked length written).1
          = []
      ∧ (∃ rest, (ShaderProgram.ctor_vert_frag vert frag ret is_linked length written).1
          = [.gl (.glCreateProgram ret), .glAttachShader ret vert.id,
             .glAttachShader ret frag.id, .glLinkProgram ret,
             .glDetachShader ret vert.id, .glDetachShader ret frag.id,
             .glGetProgramiv ret .GL_LINK_STATUS is_linked] ++ rest
          ∧ ∀ p s, ShaderCall.glAttachShader p s ∉ rest ∧ ShaderCall.glDetachShader p s ∉ rest)
      ∧ attachedAfter ret []
          (ShaderProgram.ctor_vert_frag vert frag ret is_linked length written).1 = [] := by
  have hrest : ∀ p s,
      ShaderCall.glAttachShader p s ∉
        (if is_linked = 0 then
          [.glGetProgramiv ret .GL_INFO_LOG_LENGTH length,
           .glGetProgramInfoLog ret length written,
           .loggerError "Shader linkage failed:\n\x7b\x7d" written] ++
            (if ret ≠ 0 then [ShaderCall.gl (.glDeleteProgram ret)] else [])
        else [])
      ∧ ShaderCall.glDetachShader p s ∉
        (if is_linked = 0 then
          [.glGetProgramiv ret .GL_INFO_LOG_LENGTH length,
           .glGetProgramInfoLog ret length written,
           .loggerError "Shader linkage failed:\n\x7b\x7d" written] ++
            (if ret ≠ 0 then [ShaderCall.gl (.glDeleteProgram ret)] else [])
        else []) := by
    intro p s
    by_cases hl : is_linked = 0 <;> by_cases hz : ret = 0 <;> simp [hl, hz]
  have hvec : (ShaderProgram.ctor_vec shaders ret is_linked length written).1
      = [.gl (.glCreateProgram ret)]
          ++ shaders.map (fun s => .glAttachShader ret s.id)
          ++ [.glLinkProgram ret]
          ++ shaders.map (fun s => .glDetachShader ret s.id)
          ++ [.glGetProgramiv ret .GL_LINK_STATUS is_linked]
          ++ (if is_linked = 0 then
              [.glGetProgramiv ret .GL_INFO_LOG_LENGTH length,
               .glGetProgramInfoLog ret length written,
               .loggerError "Shader linkage failed:\n\x7b\x7d" written] ++
                (if ret ≠ 0 then [ShaderCall.gl (.glDeleteProgram ret)] else [])
            else []) := by
    simp [ShaderProgram.ctor_vec, finish_trace, HandleClass.construct,
      HandleClass.createCall, ResourceHandle.id]
  have hvf : (ShaderProgram.ctor_vert_frag vert frag ret is_linked length written).1
      = (ShaderProgram.ctor_vec [vert, frag] ret is_linked length written).1 := by
    simp [ShaderProgram.ctor_vec, ShaderProgram.ctor_vert_frag]
  have hatt : ∀ l : List Shader,
      attachedAfter ret [] (ShaderProgram.ctor_vec l ret is_linked length written).1 = [] := by
    intro l
    have hl : (ShaderProgram.ctor_vec l ret is_linked length written).1
        = [.gl (.glCreateProgram ret)]
            ++ (l.map (fun s => .glAttachShader ret s.id)
            ++ ([.glLinkProgram ret]
            ++ (l.map (fun s => .glDetachShader ret s.id)
            ++ ([.glGetProgramiv ret .GL_LINK_STATUS is_linked]
            ++ (if is_linked = 0 then
                [.glGetProgramiv ret .GL_INFO_LOG_LENGTH length,
                 .glGetProgramInfoLog ret length written,
                 .loggerError "Shader linkage failed:\n\x7b\x7d" written] ++
                  (if ret ≠ 0 then [ShaderCall.gl (.glDeleteProgram ret)] else [])
              else []))))) := by
      simp [ShaderProgram.ctor_vec, finish_trace, HandleClass.construct,
        HandleClass.createCall, ResourceHandle.id]
    obtain ⟨h1, h2⟩ := attachedAfter_attach ret l [] List.nodup_nil
    have h3 := attachedAfter_detach ret l _ h1
      (fun x hx => (h2 x hx).resolve_left (by simp))
    rw [hl, attachedAfter_append, attachedAfter_append, attachedAfter_append,
      attachedAfter_append, attachedAfter_append]
    simp only [attachedAfter, h3]
    by_cases hl0 : is_linked = 0 <;> by_cases hz : ret = 0 <;>
      simp [hl0, hz, attachedAfter]
  refine ⟨⟨_, hvec, hrest⟩, hatt shaders, ⟨_, ?_, hrest⟩, ?_⟩
  · rw [hvf]
    simp [ShaderProgram.ctor_vec, finish_trace, HandleClass.construct,
      HandleClass.createCall, ResourceHandle.id]
  · rw [hvf]
    exact hatt [vert, frag]

theorem takeWhile_not_nul (l : List Char) (h : NUL ∉ l) (r : List Char) :
    (l ++ NUL :: r).takeWhile (fun c => decide (c ≠ NUL)) = l := by
  induction l with
  | nil => simp [List.takeWhile]
  | cons a l ih =>
    have ha : a ≠ NUL := fun e => h (e ▸ List.mem_cons_self _ _)
    have hl : NUL ∉ l := fun e => h (List.mem_cons_of_mem _ e)
    have := ih hl
    simp only [List.cons_append, List.takeWhile, ha, ne_eq, not_false_eq_true, decide_True]
    exact congrArg (List.cons a) this

theorem c_str_ofString (s : String) (h : NUL ∉ s.toList) :
    (StringView.ofString s).c_str = some s.toList := by
  simp only [StringView.c_str, StringView.ofString]
  rw [if_pos (by simp), List.append_cons, List.append_nil]
  have := takeWhile_not_nul s.toList h []
  simpa using this

theorem compile_shader_outcome (id : Nat) (contents : StringView) (is_compiled : Int)
    (length : Nat) (written : List Char) :
    (compile_shader id contents is_compiled length written).2
      = if is_compiled = 0 then .threw .ShaderException else .returned () := by
  simp only [compile_shader]
  split_ifs <;> rfl

/-- C12 fails on the code in what is submitted as the source.  `compile_shader`
hands `contents.data()` to `glShaderSource` with no length, so OpenGL reads a
NUL-terminated string: for a view of the 13 characters `void main(){}` inside
the array `void main(){}#error` the shader gets all 19 characters, and for a
view of an array without a NUL the read runs past the array.  The rest holds
for each of the six classes: the source is submitted to the shader the
constructor created, that shader is compiled, the constructor throws
`ShaderException` exactly when the compile status reported is false (0), and
otherwise returns an object whose `id()` is that shader; a view that is
followed by a NUL and contains none (a string literal, a whole `std::string`)
is submitted as it is. -/
theorem shader_source_read_as_c_string :
    (Shader.ctor .VertexShader
        { text := "void main()\x7b\x7d".toList, after := "#error".toList ++ [NUL] } 3 1 0 []).1
        = [.gl (.glCreateShader .GL_VERTEX_SHADER 3),
           .glShaderSource 3 (some "void main()\x7b\x7d#error".toList),
           .glCompileShader 3, .glGetShaderiv 3 .GL_COMPILE_STATUS 1]
      ∧ (Shader.ctor .VertexShader { text := "void main()\x7b\x7d".toList, after := [] } 3 1 0 []).1
        = [.gl (.glCreateShader .GL_VERTEX_SHADER 3), .glShaderSource 3 none,
           .glCompileShader 3, .glGetShaderiv 3 .GL_COMPILE_STATUS 1]
      ∧ (∀ (cls : ShaderClass) (contents : StringView) (ret : Nat) (is_compiled : Int)
          (length : Nat) (written : List Char),
          ((Shader.ctor cls contents ret is_compiled length written).2
              = .threw .ShaderException ↔ is_compiled = 0)
          ∧ ((Shader.ctor cls contents ret is_compiled length written).2
              = .returned { cls := cls, handle := { _id := ret } } ↔ is_compiled ≠ 0)
          ∧ Shader.id { cls := cls, handle := { _id := ret } } = ret
          ∧ ∃ rest, (Shader.ctor cls contents ret is_compiled length written).1
              = [.gl (cls.handleClass.createCall ret), .glShaderSource ret contents.c_str,
                 .glCompileShader ret, .glGetShaderiv ret .GL_COMPILE_STATUS is_compiled]
                ++ rest)
      ∧ (∀ s : String, NUL ∉ s.toList → (StringView.ofString s).c_str = some s.toList) := by
  refine ⟨by decide, by decide, ?_, c_str_ofString⟩
  intro cls contents ret is_compiled length written
  by_cases hc : is_compiled = 0
  · refine ⟨?_, ?_, rfl, ?_⟩
    · simp [Shader.ctor, compile_shader, HandleClass.construct, ResourceHandle.id, hc]
    · simp [Shader.ctor, compile_shader, HandleClass.construct, ResourceHandle.id, hc]
    · refine ⟨[.glGetShaderiv ret .GL_INFO_LOG_LENGTH length,
        .glGetShaderInfoLog ret length written,
        .loggerError "Shader compilation failed:\n\x7b\x7d" written]
        ++ (cls.handleClass.destruct { _id := ret }).1.map .gl, ?_⟩
      simp [Shader.ctor, compile_shader, HandleClass.construct, ResourceHandle.id, hc]
  · refine ⟨?_, ?_, rfl, ?_⟩
    · simp [Shader.ctor, compile_shader, HandleClass.construct, ResourceHandle.id, hc]
    · simp [Shader.ctor, compile_shader, HandleClass.construct, ResourceHandle.id, hc]
    · refine ⟨[], ?_⟩
      simp [Shader.ctor, compile_shader, HandleClass.construct, ResourceHandle.id, hc]

/-! ### Images and array textures -/

theorem toInt_toSizeT (w : Int) (h0 : 0 ≤ w) (h1 : w < 2 ^ 31) :
    toSizeT w = w.toNat ∧ toInt (toSizeT w) = w := by
  have e : toSizeT w = w.toNat := by
    simp only [toSizeT, SIZE_MOD]
    congr 1
    exact Int.emod_eq_of_lt h0 (by norm_num at h1 ⊢; omega)
  refine ⟨e, ?_⟩
  rw [e]
  simp only [toInt]
  have : ((w.toNat : Nat) : Int) = w := Int.toNat_of_nonneg h0
  rw [this]
  norm_num at h1 ⊢
  omega

theorem substr_suffix (path : StringView) (h3 : 3 ≤ path.size) (hs : path.size < SIZE_MOD) :
    path.substr ((path.size + (SIZE_MOD - 3)) % SIZE_MOD)
      = .returned { text := path.text.drop (path.size - 3), after := path.after } := by
  have e : (path.size + (SIZE_MOD - 3)) % SIZE_MOD = path.size - 3 := by
    simp only [SIZE_MOD] at hs ⊢
    omega
  simp only [StringView.substr, e]
  rw [if_neg (by omega)]

theorem substr_short (path : StringView) (h3 : path.size < 3) :
    path.substr ((path.size + (SIZE_MOD - 3)) % SIZE_MOD) = .threw .out_of_range := by
  have e : (path.size + (SIZE_MOD - 3)) % SIZE_MOD = path.size + (SIZE_MOD - 3) := by
    simp only [SIZE_MOD]
    omega
  simp only [StringView.substr, e]
  rw [if_pos (by simp only [SIZE_MOD]; omega)]

theorem load_explicit (path : StringView) (format : ImageFormat) (flip : Bool) (data : Nat)
    (x y : Int) (hf : format ≠ .deduce) :
    Image.load path format flip data x y
      = ([.stbi_set_flip_vertically_on_load flip,
          .stbi_load path.c_str (num_components format) data]
          ++ (if data = 0 then
                [.stbi_failure_reason,
                 .loggerError "Unable to open \x7b\x7d: \x7b\x7d" path.text]
              else []),
         if data = 0 then .threw .ImageException
         else .returned { data := data, width := x, height := y, format := format }) := by
  by_cases hd : data = 0 <;> simp [Image.load, hf, hd]

theorem load_of_substr_threw (path : StringView) (format : ImageFormat) (flip : Bool)
    (data : Nat) (x y : Int) (e : CppException) (hf : format = .deduce)
    (hr : path.substr ((path.size + (SIZE_MOD - 3)) % SIZE_MOD) = .threw e) :
    Image.load path format flip data x y
      = ([.stbi_set_flip_vertically_on_load flip], .threw e) := by
  unfold Image.load
  rw [hr]
  subst hf
  simp

theorem load_of_substr_returned (path : StringView) (format : ImageFormat) (flip : Bool)
    (data : Nat) (x y : Int) (ext : StringView) (hf : format = .deduce)
    (hr : path.substr ((path.size + (SIZE_MOD - 3)) % SIZE_MOD) = .returned ext) :
    (ext.text = "png".toList →
        Image.load path format flip data x y = Image.load path .rgba flip data x y)
      ∧ (ext.text = "jpg".toList →
        Image.load path format flip data x y = Image.load path .rgb flip data x y)
      ∧ (ext.text = "bmp".toList →
        Image.load path format flip data x y = Image.load path .bgr flip data x y)
      ∧ (ext.text ≠ "png".toList → ext.text ≠ "jpg".toList → ext.text ≠ "bmp".toList →
        Image.load path format flip data x y
          = ([.stbi_set_flip_vertically_on_load flip,
              .loggerError "Unable to deduce image format from \x7b\x7d" path.text],
             .threw .ImageException)) := by
  have hrgba := load_explicit path .rgba flip data x y (by decide)
  have hrgb := load_explicit path .rgb flip data x y (by decide)
  have hbgr := load_explicit path .bgr flip data x y (by decide)
  rw [hrgba, hrgb, hbgr]
  unfold Image.load
  rw [hr]
  subst hf
  simp only [↓reduceIte]
  refine ⟨?_, ?_, ?_, ?_⟩
  · intro h
    rw [h]
    by_cases hd : data = 0 <;> simp [hd]
  · intro h
    rw [h]
    by_cases hd : data = 0 <;> simp [hd]
  · intro h
    rw [h]
    by_cases hd : data = 0 <;> simp [hd]
  · intro h1 h2 h3
    rw [if_neg h1, if_neg h2, if_neg h3]
    simp

/-- C13 fails on the code for paths shorter than three characters.  There
`path.size() - 3` wraps around, `substr` throws `std::out_of_range`, and
`Image::load` ends with that exception: no `ImageException`, no log message
(and no attempt to read the file).  For every path of three characters or
more the claim holds: `deduce` with the last three characters `png`, `jpg`,
`bmp` behaves as the explicit format `rgba`, `rgb`, `bgr`, and with any other
last three characters logs "Unable to deduce image format" and throws
`ImageException` before any `stbi_load`. -/
theorem image_load_short_path_out_of_range :
    Image.load (StringView.ofString "a") .deduce true 500 4 4
        = ([.stbi_set_flip_vertically_on_load true], .threw .out_of_range)
      ∧ (∀ (path : StringView) (flip : Bool) (data : Nat) (x y : Int), path.size < 3 →
          Image.load path .deduce flip data x y
            = ([.stbi_set_flip_vertically_on_load flip], .threw .out_of_range))
      ∧ (∀ (path : StringView) (flip : Bool) (data : Nat) (x y : Int), 3 ≤ path.size →
          path.size < SIZE_MOD →
          (path.text.drop (path.size - 3) = "png".toList →
            Image.load path .deduce flip data x y = Image.load path .rgba flip data x y)
          ∧ (path.text.drop (path.size - 3) = "jpg".toList →
            Image.load path .deduce flip data x y = Image.load path .rgb flip data x y)
          ∧ (path.text.drop (path.size - 3) = "bmp".toList →
            Image.load path .deduce flip data x y = Image.load path .bgr flip data x y)
          ∧ (path.text.drop (path.size - 3) ≠ "png".toList →
              path.text.drop (path.size - 3) ≠ "jpg".toList →
              path.text.drop (path.size - 3) ≠ "bmp".toList →
            Image.load path .deduce flip data x y
              = ([.stbi_set_flip_vertically_on_load flip,
                  .loggerError "Unable to deduce image format from \x7b\x7d" path.text],
                 .threw .ImageException)))
      ∧ (∀ (path : StringView) (format : ImageFormat) (flip : Bool) (data : Nat) (x y : Int),
          format ≠ .deduce →
          Image.load path format flip data x y
            = ([.stbi_set_flip_vertically_on_load flip,
                .stbi_load path.c_str (num_components format) data]
                ++ (if data = 0 then
                      [.stbi_failure_reason,
                       .loggerError "Unable to open \x7b\x7d: \x7b\x7d" path.text]
                    else []),
               if data = 0 then .threw .ImageException
               else .returned { data := data, width := x, height := y, format := format })) := by
  refine ⟨by decide, ?_, ?_, ?_⟩
  · intro path flip data x y h
    exact load_of_substr_threw path .deduce flip data x y .out_of_range rfl (substr_short path h)
  · intro path flip data x y h3 hs
    exact load_of_substr_returned path .deduce flip data x y _ rfl (substr_suffix path h3 hs)
  · intro path format flip data x y hf
    exact load_explicit path format flip data x y hf

theorem toInt_toSizeT_int (w : Int) (h0 : -2 ^ 31 ≤ w) (h1 : w < 2 ^ 31) :
    toInt (toSizeT w) = w := by
  have hn : (0 : Int) ≤ w % (SIZE_MOD : Int) :=
    Int.emod_nonneg w (by simp only [SIZE_MOD]; norm_num)
  simp only [toInt, toSizeT]
  rw [Int.toNat_of_nonneg hn]
  simp only [SIZE_MOD]
  norm_num at h0 h1 ⊢
  omega

theorem uploads_append (a b : List TextureCall) : uploads (a ++ b) = uploads a ++ uploads b := by
  induction a with
  | nil => rfl
  | cons c a ih => cases c <;> simp [uploads, ih]

theorem uploads_map_gl (l : List GLCall) : uploads (l.map .gl) = [] := by
  induction l with
  | nil => rfl
  | cons c l ih => simpa [uploads] using ih

theorem uploads_set_anti_aliasing (t : ArrayTexture2D) (v : Bool) :
    uploads (t.set_anti_aliasing v) = [] := by
  cases v <;> rfl

theorem uploads_map_uploadCall (t : ArrayTexture2D) (l : List (Nat × Image)) :
    uploads (l.map (uploadCall t)) = l.map (uploadCall t) := by
  induction l with
  | nil => rfl
  | cons c l ih => simp [uploads, uploadCall, ih]

theorem upload_loop_all (t : ArrayTexture2D) (reject : Image → Bool) (msg : String) :
    ∀ (imgs : List Image) (i : Nat), (∀ img ∈ imgs, reject img = false) →
      t.upload_loop reject msg i imgs = ((imgs.enumFrom i).map (uploadCall t), .returned ()) := by
  intro imgs
  induction imgs with
  | nil => intro i _; rfl
  | cons img rest ih =>
    intro i h
    have h1 : reject img = false := h img (List.mem_cons_self _ _)
    have h2 := ih (i + 1) (fun x hx => h x (List.mem_cons_of_mem _ hx))
    simp [ArrayTexture2D.upload_loop, h1, h2, uploadCall]

theorem upload_loop_some (t : ArrayTexture2D) (reject : Image → Bool) (msg : String) :
    ∀ (imgs : List Image) (i : Nat), (∃ img ∈ imgs, reject img = true) →
      ∃ pre bad post, imgs = pre ++ bad :: post ∧ (∀ img ∈ pre, reject img = false)
        ∧ reject bad = true
        ∧ t.upload_loop reject msg i imgs
            = ((pre.enumFrom i).map (uploadCall t) ++ [.loggerError msg (i + pre.length)],
               .threw .ImageException) := by
  intro imgs
  induction imgs with
  | nil => intro i h; obtain ⟨img, hm, _⟩ := h; cases hm
  | cons img rest ih =>
    intro i h
    by_cases h1 : reject img = true
    · refine ⟨[], img, rest, rfl, ?_, h1, ?_⟩
      · intro x hx; cases hx
      · simp [ArrayTexture2D.upload_loop, h1]
    · have h1f : reject img = false := by simpa using h1
      have hrest : ∃ x ∈ rest, reject x = true := by
        obtain ⟨x, hx, hxr⟩ := h
        rcases List.mem_cons.mp hx with rfl | hx
        · exact absurd hxr h1
        · exact ⟨x, hx, hxr⟩
      obtain ⟨pre, bad, post, he, hp, hb, hl⟩ := ih (i + 1) hrest
      refine ⟨img :: pre, bad, post, by rw [he]; rfl, ?_, hb, ?_⟩
      · intro x hx
        rcases List.mem_cons.mp hx with rfl | hx
        · exact h1f
        · exact hp x hx
      · simp [ArrayTexture2D.upload_loop, h1f, hl, uploadCall, Nat.add_assoc, Nat.add_comm 1]

theorem ctor_snd (w h d : Nat) (fmt : InternalFormat) (ret : Nat) :
    (ArrayTexture2D.ctor w h d fmt ret).2
      = { handle := { _id := ret }, _width := w, _height := h, _layers := d } := rfl

theorem uploads_ctor (w h d : Nat) (fmt : InternalFormat) (ret : Nat) :
    uploads (ArrayTexture2D.ctor w h d fmt ret).1 = [] := rfl

theorem fill_of_all (c : List TextureCall × ArrayTexture2D) (reject : Image → Bool)
    (msg : String) (images : List Image) (h : ∀ img ∈ images, reject img = false) :
    ArrayTexture2D.fill c reject msg images
      = (c.1 ++ (images.enumFrom 0).map (uploadCall c.2), .returned c.2) := by
  simp [ArrayTexture2D.fill, upload_loop_all c.2 reject msg images 0 h]

theorem fill_of_some (c : List TextureCall × ArrayTexture2D) (reject : Image → Bool)
    (msg : String) (images : List Image) (h : ∃ img ∈ images, reject img = true) :
    ∃ pre bad post, images = pre ++ bad :: post ∧ (∀ img ∈ pre, reject img = false)
      ∧ reject bad = true
      ∧ ArrayTexture2D.fill c reject msg images
          = (c.1 ++ ((pre.enumFrom 0).map (uploadCall c.2) ++ [.loggerError msg pre.length])
              ++ (HandleClass.ArrayTexture2DHandle.destruct c.2.handle).1.map .gl,
             .threw .ImageException) := by
  obtain ⟨pre, bad, post, he, hp, hb, hl⟩ := upload_loop_some c.2 reject msg images 0 h
  refine ⟨pre, bad, post, he, hp, hb, ?_⟩
  simp [ArrayTexture2D.fill, hl]

theorem ctor_images_eq (first : Image) (rest : List Image) (fmt : InternalFormat) (ret : Nat)
    (hw : -2 ^ 31 ≤ first.width ∧ first.width < 2 ^ 31)
    (hh : -2 ^ 31 ≤ first.height ∧ first.height < 2 ^ 31) :
    ArrayTexture2D.ctor_images (first :: rest) fmt ret
      = some (ArrayTexture2D.fill
          (ArrayTexture2D.ctor (toSizeT first.width) (toSizeT first.height)
            (first :: rest).length fmt ret)
          (fun img => !(decide (img.width = first.width))
            || !(decide (img.height = first.height)))
          "Image \x7b:d\x7d does not match specified dimensions" (first :: rest)) := by
  simp only [ArrayTexture2D.ctor_images, ctor_snd, toInt_toSizeT_int _ hw.1 hw.2,
    toInt_toSizeT_int _ hh.1 hh.2]

/-- C14.  For a non-empty list of images (dimensions being C `int`s),
`ArrayTexture2D(const std::vector<Image>&, InternalFormat)` throws
`ImageException`, after logging "Image i does not match specified dimensions",
exactly when some image differs from the first one in width or height; it
throws nothing else.  When it returns, `width()` and `height()` are the first
image's dimensions (as `std::size_t`), `layers()` is the number of images, and
the uploads are, in order, image `i` to layer `i` with the dimensions of the
texture. -/
theorem array_texture_from_images (first : Image) (rest : List Image) (fmt : InternalFormat)
    (ret : Nat)
    (hw : -2 ^ 31 ≤ first.width ∧ first.width < 2 ^ 31)
    (hh : -2 ^ 31 ≤ first.height ∧ first.height < 2 ^ 31) :
    ∃ t o, ArrayTexture2D.ctor_images (first :: rest) fmt ret = some (t, o)
      ∧ (o = .threw .ImageException
          ↔ ∃ img ∈ first :: rest, img.width ≠ first.width ∨ img.height ≠ first.height)
      ∧ (o = .threw .ImageException →
          ∃ i, TextureCall.loggerError
            "Image \x7b:d\x7d does not match specified dimensions" i ∈ t)
      ∧ (o = .threw .ImageException ∨ ∃ tex, o = .returned tex)
      ∧ (∀ tex, o = .returned tex →
          tex.width = toSizeT first.width ∧ tex.height = toSizeT first.height
          ∧ (0 ≤ first.width → (tex.width : Int) = first.width)
          ∧ (0 ≤ first.height → (tex.height : Int) = first.height)
          ∧ tex.layers = (first :: rest).length
          ∧ uploads t = ((first :: rest).enumFrom 0).map (uploadCall tex)) := by
  rw [ctor_images_eq first rest fmt ret hw hh]
  generalize hc : ArrayTexture2D.ctor (toSizeT first.width) (toSizeT first.height)
    (first :: rest).length fmt ret = c
  have hc2 := ctor_snd (toSizeT first.width) (toSizeT first.height) (first :: rest).length
    fmt ret
  rw [hc] at hc2
  have hc1 : uploads c.1 = [] := by rw [← hc]; rfl
  by_cases hd : ∃ img ∈ first :: rest, img.width ≠ first.width ∨ img.height ≠ first.height
  · have hrej : ∃ img ∈ first :: rest,
        (fun img : Image => !(decide (img.width = first.width))
          || !(decide (img.height = first.height))) img = true := by
      obtain ⟨img, hm, hne⟩ := hd
      refine ⟨img, hm, ?_⟩
      rcases hne with hne | hne <;> simp [hne]
    obtain ⟨pre, bad, post, _, _, _, hf⟩ := fill_of_some c _
      "Image \x7b:d\x7d does not match specified dimensions" (first :: rest) hrej
    refine ⟨_, _, congrArg some hf, ?_, ?_, Or.inl rfl, ?_⟩
    · exact ⟨fun _ => hd, fun _ => rfl⟩
    · intro _
      exact ⟨pre.length, by simp⟩
    · intro tex h
      cases h
  · have hrej : ∀ img ∈ first :: rest,
        (fun img : Image => !(decide (img.width = first.width))
          || !(decide (img.height = first.height))) img = false := by
      intro img hm
      have hne : ¬ (img.width ≠ first.width ∨ img.height ≠ first.height) :=
        fun h => hd ⟨img, hm, h⟩
      have h1 : img.width = first.width := by
        by_contra h; exact hne (Or.inl h)
      have h2 : img.height = first.height := by
        by_contra h; exact hne (Or.inr h)
      simp [h1, h2]
    have hf := fill_of_all c _
      "Image \x7b:d\x7d does not match specified dimensions" (first :: rest) hrej
    refine ⟨_, _, congrArg some hf, ?_, ?_, Or.inr ⟨c.2, rfl⟩, ?_⟩
    · exact ⟨fun h => (by cases h), fun h => absurd h hd⟩
    · intro h
      cases h
    · intro tex h
      have ht : tex = c.2 := by
        injection h with h
        exact h.symm
      subst ht
      refine ⟨?_, ?_, ?_, ?_, ?_, ?_⟩
      · rw [hc2]; rfl
      · rw [hc2]; rfl
      · intro h0
        rw [hc2]
        exact (congrArg (fun n : Nat => (n : Int)) (toInt_toSizeT first.width h0 hw.2).1).trans
          (Int.toNat_of_nonneg h0)
      · intro h0
        rw [hc2]
        exact (congrArg (fun n : Nat => (n : Int)) (toInt_toSizeT first.height h0 hh.2).1).trans
          (Int.toNat_of_nonneg h0)
      · rw [hc2]; rfl
      · rw [uploads_append, hc1, uploads_map_uploadCall]
        rfl

theorem array_texture_from_images_witness :
    ∃ t o, ArrayTexture2D.ctor_images
        [{ data := 100, width := 4, height := 4, format := .rgba },
         { data := 200, width := 4, height := 4, format := .rgba }] .rgba_8 9 = some (t, o)
      ∧ (o = .threw .ImageException
          ↔ ∃ img ∈ ([{ data := 100, width := 4, height := 4, format := .rgba },
                { data := 200, width := 4, height := 4, format := .rgba }] : List Image),
              img.width ≠ 4 ∨ img.height ≠ 4)
      ∧ (o = .threw .ImageException →
          ∃ i, TextureCall.loggerError
            "Image \x7b:d\x7d does not match specified dimensions" i ∈ t)
      ∧ (o = .threw .ImageException ∨ ∃ tex, o = .returned tex)
      ∧ (∀ tex, o = .returned tex →
          tex.width = toSizeT 4 ∧ tex.height = toSizeT 4
          ∧ ((0 : Int) ≤ 4 → (tex.width : Int) = 4)
          ∧ ((0 : Int) ≤ 4 → (tex.height : Int) = 4)
          ∧ tex.layers = 2
          ∧ uploads t
              = (([{ data := 100, width := 4, height := 4, format := .rgba },
                   { data := 200, width := 4, height := 4, format := .rgba }]
                    : List Image).enumFrom 0).map (uploadCall tex)) :=
  array_texture_from_images { data := 100, width := 4, height := 4, format := .rgba }
    [{ data := 200, width := 4, height := 4, format := .rgba }] .rgba_8 9
    ⟨by decide, by decide⟩ ⟨by decide, by decide⟩

theorem ctor_image_ptrs_eq (first : Image) (rest : List Image) (fmt : InternalFormat) (ret : Nat)
    (hw : -2 ^ 31 ≤ first.width ∧ first.width < 2 ^ 31)
    (hh : -2 ^ 31 ≤ first.height ∧ first.height < 2 ^ 31) :
    ArrayTexture2D.ctor_image_ptrs (first :: rest) fmt ret
      = some (ArrayTexture2D.fill
          (ArrayTexture2D.ctor (toSizeT first.width) (toSizeT first.height)
            (first :: rest).length fmt ret)
          (fun img => decide (img.width > first.width) || decide (img.height > first.height))
          "Image \x7b:d\x7d is greater than specified dimensions" (first :: rest)) := by
  simp only [ArrayTexture2D.ctor_image_ptrs, ctor_snd, toInt_toSizeT_int _ hw.1 hw.2,
    toInt_toSizeT_int _ hh.1 hh.2]

theorem uploads_fill_prefix (c : List TextureCall × ArrayTexture2D) (reject : Image → Bool)
    (msg : String) (images : List Image) (hc : uploads c.1 = []) :
    ∃ pre, pre <+: images ∧ (∀ img ∈ pre, reject img = false)
      ∧ uploads (ArrayTexture2D.fill c reject msg images).1
          = (pre.enumFrom 0).map (uploadCall c.2)
      ∧ (∀ tex, (ArrayTexture2D.fill c reject msg images).2 = .returned tex →
          tex = c.2 ∧ pre = images) := by
  by_cases h : ∃ img ∈ images, reject img = true
  · obtain ⟨pre, bad, post, he, hp, _, hf⟩ := fill_of_some c reject msg images h
    refine ⟨pre, ⟨bad :: post, he.symm⟩, hp, ?_, ?_⟩
    · rw [hf]
      simp only [uploads_append, hc, uploads_map_uploadCall, uploads_map_gl, uploads,
        List.nil_append, List.append_nil]
    · intro tex ht
      rw [hf] at ht
      cases ht
  · have h2 : ∀ img ∈ images, reject img = false := by
      intro img hm
      by_contra hne
      exact h ⟨img, hm, by simpa using hne⟩
    have hf := fill_of_all c reject msg images h2
    refine ⟨images, List.prefix_refl _, h2, ?_, ?_⟩
    · rw [hf]
      simp only [uploads_append, hc, uploads_map_uploadCall, List.nil_append]
    · intro tex ht
      rw [hf] at ht
      injection ht with ht
      exact ⟨ht.symm, rfl⟩

/-- C15 fails on the code for the constructor from `std::vector<ImagePtr>`:
its test is `width > _width || height > _height`, so an image smaller than
the first one passes.  Given a 4x4 image and a 2x2 image, the constructor
returns, and the 2x2 image (pixel data at 200) has been uploaded to layer 1
with a 4x4 region.  The sibling constructor from `std::vector<Image>` throws
on the same images, and in general only ever uploads images whose width and
height are those of the texture.  What the pointer constructor does ensure is
the opposite bound: the images it uploads are no wider and no higher than the
texture. -/
theorem array_texture_ptrs_uploads_smaller_image :
    ArrayTexture2D.ctor_image_ptrs
        [{ data := 100, width := 4, height := 4, format := .rgba },
         { data := 200, width := 2, height := 2, format := .rgba }] .rgba_8 9
      = some ([.gl (.glCreateTextures .GL_TEXTURE_2D_ARRAY 9),
               .glTextureParameteri 9 .GL_TEXTURE_MIN_FILTER .GL_NEAREST,
               .glTextureParameteri 9 .GL_TEXTURE_MAG_FILTER .GL_NEAREST,
               .glTextureStorage3D 9 1 .rgba_8 4 4 2,
               .glTextureSubImage3D 9 0 0 0 0 4 4 1 .rgba 100,
               .glTextureSubImage3D 9 0 0 0 1 4 4 1 .rgba 200],
              .returned { handle := { _id := 9 }, _width := 4, _height := 4, _layers := 2 })
      ∧ ArrayTexture2D.ctor_images
          [{ data := 100, width := 4, height := 4, format := .rgba },
           { data := 200, width := 2, height := 2, format := .rgba }] .rgba_8 9
        = some ([.gl (.glCreateTextures .GL_TEXTURE_2D_ARRAY 9),
                 .glTextureParameteri 9 .GL_TEXTURE_MIN_FILTER .GL_NEAREST,
                 .glTextureParameteri 9 .GL_TEXTURE_MAG_FILTER .GL_NEAREST,
                 .glTextureStorage3D 9 1 .rgba_8 4 4 2,
                 .glTextureSubImage3D 9 0 0 0 0 4 4 1 .rgba 100,
                 .loggerError "Image \x7b:d\x7d does not match specified dimensions" 1,
                 .gl (.glDeleteTextures 9)],
                .threw .ImageException)
      ∧ (∀ (first : Image) (rest : List Image) (fmt : InternalFormat) (ret : Nat)
          (t : List TextureCall) (o : Outcome ArrayTexture2D),
          0 ≤ first.width → first.width < 2 ^ 31 → 0 ≤ first.height → first.height < 2 ^ 31 →
          ArrayTexture2D.ctor_images (first :: rest) fmt ret = some (t, o) →
          ∃ pre tex, pre <+: first :: rest
            ∧ uploads t = (pre.enumFrom 0).map (uploadCall tex)
            ∧ (∀ r, o = .returned r → r = tex ∧ pre = first :: rest)
            ∧ ∀ img ∈ pre, img.width = (tex.width : Int) ∧ img.height = (tex.height : Int))
      ∧ (∀ (first : Image) (rest : List Image) (fmt : InternalFormat) (ret : Nat)
          (t : List TextureCall) (o : Outcome ArrayTexture2D),
          0 ≤ first.width → first.width < 2 ^ 31 → 0 ≤ first.height → first.height < 2 ^ 31 →
          ArrayTexture2D.ctor_image_ptrs (first :: rest) fmt ret = some (t, o) →
          ∃ pre tex, pre <+: first :: rest
            ∧ uploads t = (pre.enumFrom 0).map (uploadCall tex)
            ∧ (∀ r, o = .returned r → r = tex ∧ pre = first :: rest)
            ∧ ∀ img ∈ pre, img.width ≤ (tex.width : Int) ∧ img.height ≤ (tex.height : Int)) := by
  refine ⟨by decide, by decide, ?_, ?_⟩
  · intro first rest fmt ret t o hw0 hw1 hh0 hh1 he
    rw [ctor_images_eq first rest fmt ret ⟨by omega, hw1⟩ ⟨by omega, hh1⟩] at he
    injection he with he
    obtain ⟨pre, hpre, hrej, hup, hret⟩ := uploads_fill_prefix
      (ArrayTexture2D.ctor (toSizeT first.width) (toSizeT first.height)
        (first :: rest).length fmt ret)
      (fun img => !(decide (img.width = first.width)) || !(decide (img.height = first.height)))
      "Image \x7b:d\x7d does not match specified dimensions" (first :: rest)
      (uploads_ctor _ _ _ _ _)
    rw [he] at hup hret
    refine ⟨pre, _, hpre, hup, hret, ?_⟩
    intro img hm
    have h := hrej img hm
    simp only [Bool.or_eq_false_iff, Bool.not_eq_false', decide_eq_true_eq] at h
    rw [ctor_snd]
    simp only [ArrayTexture2D.width, ArrayTexture2D.height,
      (toInt_toSizeT first.width hw0 hw1).1, (toInt_toSizeT first.height hh0 hh1).1,
      Int.toNat_of_nonneg hw0, Int.toNat_of_nonneg hh0]
    exact h
  · intro first rest fmt ret t o hw0 hw1 hh0 hh1 he
    rw [ctor_image_ptrs_eq first rest fmt ret ⟨by omega, hw1⟩ ⟨by omega, hh1⟩] at he
    injection he with he
    obtain ⟨pre, hpre, hrej, hup, hret⟩ := uploads_fill_prefix
      (ArrayTexture2D.ctor (toSizeT first.width) (toSizeT first.height)
        (first :: rest).length fmt ret)
      (fun img => decide (img.width > first.width) || decide (img.height > first.height))
      "Image \x7b:d\x7d is greater than specified dimensions" (first :: rest)
      (uploads_ctor _ _ _ _ _)
    rw [he] at hup hret
    refine ⟨pre, _, hpre, hup, hret, ?_⟩
    intro img hm
    have h := hrej img hm
    simp only [Bool.or_eq_false_iff, decide_eq_false_iff_not, not_lt, gt_iff_lt] at h
    rw [ctor_snd]
    simp only [ArrayTexture2D.width, ArrayTexture2D.height,
      (toInt_toSizeT first.width hw0 hw1).1, (toInt_toSizeT first.height hh0 hh1).1,
      Int.toNat_of_nonneg hw0, Int.toNat_of_nonneg hh0]
    exact h

/-! ### Stream meshes -/

theorem attribPort_append_some (v a p : Nat) (t1 t2 : List MeshCall)
    (h : attribPort v a t2 = some p) : attribPort v a (t1 ++ t2) = some p := by
  induction t1 with
  | nil => exact h
  | cons c t1 ih => simp only [List.cons_append, attribPort, List.append_eq, ih]

theorem attribPort_append_none (v a : Nat) (t1 t2 : List MeshCall)
    (h : attribPort v a t2 = none) : attribPort v a (t1 ++ t2) = attribPort v a t1 := by
  induction t1 with
  | nil => exact h
  | cons c t1 ih => simp only [List.cons_append, attribPort, List.append_eq, ih]

theorem attribPort_none (v a : Nat) :
    ∀ t : List MeshCall, (∀ c ∈ t, c.isAttribBinding = false) → attribPort v a t = none := by
  intro t
  induction t with
  | nil => intro _; rfl
  | cons c t ih =>
    intro h
    have h1 := h c (List.mem_cons_self _ _)
    have h2 := ih (fun x hx => h x (List.mem_cons_of_mem _ hx))
    cases c <;> simp_all [attribPort, MeshCall.isAttribBinding]

theorem portBuffer_append_some (v a : Nat) (p : Nat × Nat × Nat) (t1 t2 : List MeshCall)
    (h : portBuffer v a t2 = some p) : portBuffer v a (t1 ++ t2) = some p := by
  induction t1 with
  | nil => exact h
  | cons c t1 ih => simp only [List.cons_append, portBuffer, List.append_eq, ih]

theorem portBuffer_append_none (v a : Nat) (t1 t2 : List MeshCall)
    (h : portBuffer v a t2 = none) : portBuffer v a (t1 ++ t2) = portBuffer v a t1 := by
  induction t1 with
  | nil => exact h
  | cons c t1 ih => simp only [List.cons_append, portBuffer, List.append_eq, ih]

theorem portBuffer_none (v a : Nat) :
    ∀ t : List MeshCall, (∀ c ∈ t, c.isVertexBuffer = false) → portBuffer v a t = none := by
  intro t
  induction t with
  | nil => intro _; rfl
  | cons c t ih =>
    intro h
    have h1 := h c (List.mem_cons_self _ _)
    have h2 := ih (fun x hx => h x (List.mem_cons_of_mem _ hx))
    cases c <;> simp_all [portBuffer, MeshCall.isVertexBuffer]

theorem set_attrib_formats_plain (m : MeshStream) :
    ∀ (l : List Attrib) (i : Nat), ∀ c ∈ m.set_attrib_formats i l,
      c.isAttribBinding = false ∧ c.isVertexBuffer = false := by
  intro l
  induction l with
  | nil => intro i c hc; cases hc
  | cons a l ih =>
    intro i c hc
    simp only [MeshStream.set_attrib_formats, MeshStream.set_attrib_format, List.cons_append,
      List.nil_append, List.mem_cons] at hc
    rcases hc with rfl | rfl | hc
    · exact ⟨rfl, rfl⟩
    · exact ⟨rfl, rfl⟩
    · exact ih (i + 1) c hc

theorem update_ports_eq (m : MeshStream) (T : VertexType) (port : Nat) :
    m.update_ports T port
      = (List.range T.elements.length).map
          (fun i => MeshCall.glVertexArrayAttribBinding m.id (i % UINT32_MOD) port) := by
  simp only [MeshStream.update_ports, MeshStream.set_attrib_port]
  induction List.range T.elements.length with
  | nil => rfl
  | cons x l ih => simp [List.flatMap_cons, ih]

theorem update_ports_no_buffer (m : MeshStream) (T : VertexType) (port : Nat) :
    ∀ c ∈ m.update_ports T port, c.isVertexBuffer = false := by
  intro c hc
  rw [update_ports_eq] at hc
  obtain ⟨i, _, rfl⟩ := List.mem_map.mp hc
  rfl

theorem attribPort_bindings (id port : Nat) :
    ∀ n a : Nat, n ≤ UINT32_MOD → a < n →
      attribPort id a ((List.range n).map
        (fun i => MeshCall.glVertexArrayAttribBinding id (i % UINT32_MOD) port)) = some port := by
  intro n
  induction n with
  | zero => intro a _ h; cases h
  | succ n ih =>
    intro a hn ha
    rw [List.range_succ, List.map_append]
    have hmod : n % UINT32_MOD = n := Nat.mod_eq_of_lt (by omega)
    by_cases hna : a = n
    · subst hna
      apply attribPort_append_some
      simp [attribPort, hmod]
    · rw [attribPort_append_none]
      · exact ih a (by omega) (by omega)
      · simp [attribPort, hmod]
        intro h; exact absurd h.symm hna

theorem attribPort_update_ports (m : MeshStream) (T : VertexType) (port a : Nat)
    (hl : T.elements.length ≤ UINT32_MOD) (ha : a < T.elements.length) :
    attribPort m.id a (m.update_ports T port) = some port := by
  rw [update_ports_eq]
  exact attribPort_bindings m.id port _ a hl ha

theorem attach_vertices_eq (m : MeshStream) (T : VertexType) :
    m.attach_vertices T
      = [MeshCall.glVertexArrayVertexBuffer m.id (0 % UINT32_MOD) m.vertices.id
            (((0 * m.vertices.size_bytes) % SIZE_MOD) % UINT32_MOD) (T.sizeof % UINT32_MOD),
         MeshCall.glVertexArrayVertexBuffer m.id (1 % UINT32_MOD) m.vertices.id
            (((1 * m.vertices.size_bytes) % SIZE_MOD) % UINT32_MOD) (T.sizeof % UINT32_MOD),
         MeshCall.glVertexArrayVertexBuffer m.id (2 % UINT32_MOD) m.vertices.id
            (((2 * m.vertices.size_bytes) % SIZE_MOD) % UINT32_MOD) (T.sizeof % UINT32_MOD)]
        ++ m.set_attrib_formats 0 T.elements
        ++ m.update_ports T (m.vertices.current_slot % UINT32_MOD) := rfl

theorem portBuffer_ports (id buf sb sz i : Nat) (hi : i < 3) (h : i * sb < UINT32_MOD)
    (hs : sz < UINT32_MOD) :
    portBuffer id i
      [MeshCall.glVertexArrayVertexBuffer id (0 % UINT32_MOD) buf
          (((0 * sb) % SIZE_MOD) % UINT32_MOD) (sz % UINT32_MOD),
       MeshCall.glVertexArrayVertexBuffer id (1 % UINT32_MOD) buf
          (((1 * sb) % SIZE_MOD) % UINT32_MOD) (sz % UINT32_MOD),
       MeshCall.glVertexArrayVertexBuffer id (2 % UINT32_MOD) buf
          (((2 * sb) % SIZE_MOD) % UINT32_MOD) (sz % UINT32_MOD)]
      = some (buf, i * sb, sz) := by
  have e1 : sz % UINT32_MOD = sz := Nat.mod_eq_of_lt hs
  have e2 : ((i * sb) % SIZE_MOD) % UINT32_MOD = i * sb := by
    simp only [UINT32_MOD, SIZE_MOD] at h ⊢
    omega
  have p0 : 0 % UINT32_MOD = 0 := rfl
  have p1 : 1 % UINT32_MOD = 1 := by decide
  have p2 : 2 % UINT32_MOD = 2 := by decide
  rw [e1, p0, p1, p2]
  interval_cases i
  · rw [e2]; simp [portBuffer]
  · rw [e2]; simp [portBuffer]
  · rw [e2]; simp [portBuffer]

/-- What one `ArrayBufferStream::update` does to a valid stream when some answer
on offer is ready. -/
theorem array_update_spec (s : BufferStreamBase) (T : VertexType) (answers : List WaitResult)
    (sync : Nat) (hv : s.Valid) (hT : T.sizeof ≠ 0) (hr : ∃ r ∈ answers, r.ready = true) :
    ∃ fence fs, s.fences.get ((s.slot + 1) % 3) = some fence
      ∧ s.fences.set { handle := sync } ((s.slot + 1) % 3) = some fs
      ∧ ArrayBufferStream.update s T answers sync = some
          ({ s with slot := (s.slot + 1) % 3, fences := fs },
           ((polled answers).map (fun r => StreamCall.glClientWaitSync fence.handle r)).map
               MeshCall.stream
             ++ [MeshCall.writer (s.buffer.data + (s.slot + 1) % 3 * (s.buffer.size / 3))
                  (s.buffer.size / 3 / T.sizeof)]
             ++ [StreamCall.glMemoryBarrier, .glDeleteSync fence.handle,
                  .glFenceSync sync].map MeshCall.stream) := by
  have hk : (s.slot + 1) % 3 < 3 := Nat.mod_lt _ (by decide)
  obtain ⟨fence, hf⟩ := s.fences.get_of_lt _ hk
  obtain ⟨fs, hset, _, _⟩ := s.fences.set_of_lt { handle := sync } _ hk
  refine ⟨fence, fs, hf, hset, ?_⟩
  have hslot : (s.slot + 1) % SIZE_MOD % s.slots = (s.slot + 1) % 3 := by
    have := hv.2
    simp only [BufferStreamBase.slots, FenceArray.size] at this ⊢
    have e : (s.slot + 1) % SIZE_MOD = s.slot + 1 :=
      Nat.mod_eq_of_lt (by simp only [SIZE_MOD]; omega)
    rw [e]
  have hv1 : BufferStreamBase.Valid { s with slot := (s.slot + 1) % 3 } := ⟨hv.1, hk⟩
  have hspan := slot_span_eq _ hv1
  simp only [ArrayBufferStream.update, BufferStreamBase.write_lock_acquire, hslot, hf,
    spin_eq_some fence answers hr, Option.map_some', hspan, if_neg hT,
    BufferStreamBase.write_lock_release, FenceSync.resubmit, hset]

theorem mesh_update_spec (m : MeshStream) (T : VertexType) (answers : List WaitResult)
    (sync : Nat) (hv : m.vertices.Valid) (hT : T.sizeof ≠ 0)
    (hr : ∃ r ∈ answers, r.ready = true) :
    ∃ fs t, (∀ c ∈ t, c.isAttribBinding = false ∧ c.isVertexBuffer = false)
      ∧ MeshCall.writer
          (m.vertices.buffer.data + (m.vertices.slot + 1) % 3 * (m.vertices.buffer.size / 3))
          (m.vertices.buffer.size / 3 / T.sizeof) ∈ t
      ∧ m.update T answers sync = some
          ({ m with vertices := { m.vertices with slot := (m.vertices.slot + 1) % 3,
                                                  fences := fs } },
           t ++ MeshStream.update_ports
                  { m with vertices := { m.vertices with slot := (m.vertices.slot + 1) % 3,
                                                         fences := fs } }
                  T (((m.vertices.slot + 1) % 3) % UINT32_MOD)) := by
  obtain ⟨fence, fs, _, _, hu⟩ := array_update_spec m.vertices T answers sync hv hT hr
  refine ⟨fs,
    ((polled answers).map (fun r => StreamCall.glClientWaitSync fence.handle r)).map
        MeshCall.stream
      ++ [MeshCall.writer
            (m.vertices.buffer.data + (m.vertices.slot + 1) % 3 * (m.vertices.buffer.size / 3))
            (m.vertices.buffer.size / 3 / T.sizeof)]
      ++ [StreamCall.glMemoryBarrier, .glDeleteSync fence.handle,
            .glFenceSync sync].map MeshCall.stream, ?_, ?_, ?_⟩
  · intro c hc
    simp only [List.mem_append, List.mem_map, List.mem_singleton] at hc
    rcases hc with (⟨x, _, rfl⟩ | rfl) | ⟨x, _, rfl⟩ <;> exact ⟨rfl, rfl⟩
  · simp
  · simp only [MeshStream.update, hu]
    rfl

theorem portBuffer_attach (m : MeshStream) (T : VertexType) (indices : Nat)
    (pre : List MeshCall) (i : Nat) (hi : i < 3)
    (h : i * m.vertices.size_bytes < UINT32_MOD) (hs : T.sizeof < UINT32_MOD) :
    portBuffer m.id i (pre ++ m.attach_vertices T ++ m.attach indices)
      = some (m.vertices.id, i * m.vertices.size_bytes, T.sizeof) := by
  rw [attach_vertices_eq, List.append_assoc, List.append_assoc, List.append_assoc]
  apply portBuffer_append_some
  rw [portBuffer_append_none]
  · exact portBuffer_ports m.id m.vertices.id m.vertices.size_bytes T.sizeof i hi h hs
  · apply portBuffer_none
    intro c hc
    rcases List.mem_append.mp hc with hc | hc
    · exact (set_attrib_formats_plain m T.elements 0 c hc).2
    · rcases List.mem_append.mp hc with hc | hc
      · exact update_ports_no_buffer m T _ c hc
      · simp only [MeshStream.attach, List.mem_singleton] at hc
        subst hc
        rfl

theorem attribPort_attach (m : MeshStream) (T : VertexType) (indices : Nat)
    (pre : List MeshCall) (a : Nat) (hl : T.elements.length ≤ UINT32_MOD)
    (ha : a < T.elements.length) (hslot : m.vertices.current_slot < UINT32_MOD) :
    attribPort m.id a (pre ++ m.attach_vertices T ++ m.attach indices)
      = some m.vertices.current_slot := by
  rw [attribPort_append_none]
  · rw [attach_vertices_eq, ← List.append_assoc]
    apply attribPort_append_some
    rw [attribPort_update_ports m T _ a hl ha, Nat.mod_eq_of_lt hslot]
  · apply attribPort_none
    intro c hc
    simp only [MeshStream.attach, List.mem_singleton] at hc
    subst hc
    rfl

theorem ranges_apart (sb i j : Nat) (h : i < j) : i * sb + sb ≤ j * sb := by
  calc i * sb + sb = (i + 1) * sb := by ring
    _ ≤ j * sb := Nat.mul_le_mul_right sb h

/-- C16 fails on the code for a mesh built from a stream that has already
been written: the stream below has had one `update` (its slot is 1) before
`MeshStream(ArrayBufferStream&&, const IndexBuffer&)` takes it, and right
after construction attribute 0 reads from port 1, not port 0. -/
theorem mesh_stream_from_written_stream_reads_port_one :
    (ArrayBufferStream.update
        (ArrayBufferStream.new { sizeof := 16, elements := [⟨.float, 3, 0⟩, ⟨.float, 1, 12⟩] }
          4 11 12 13 5 4096).1
        { sizeof := 16, elements := [⟨.float, 3, 0⟩, ⟨.float, 1, 12⟩] }
        [.GL_ALREADY_SIGNALED] 21).map
        (fun r => (r.1.current_slot, attribPort 7 0
          (MeshStream.ctor_stream
            { sizeof := 16, elements := [⟨.float, 3, 0⟩, ⟨.float, 1, 12⟩] } r.1 3 7).2))
      = some (1, some 1) := by
  decide

/-- C16, amended.  For a vertex type with `0 < sizeof(value_type) < 2^32` and
at most `2^32` tuple elements:
the constructor from a vertex count yields a valid stream on slot 0, binds
every port `i < slots()` whose byte offset `i * size_bytes()` is below `2^32`
to the stream buffer at that offset with stride `sizeof(value_type)`, and
leaves every attribute reading from port 0;
the constructor from a stream does the same for the stream it is given, and
leaves every attribute reading from port `current_slot()` of that stream;
`update`, given a ready answer, returns, moves the stream to the next slot,
hands that slot to the writer, leaves every attribute reading from port
`current_slot()` and leaves the port bindings as they were;
and the byte ranges of different slots do not overlap. -/
theorem mesh_stream_ports_follow_slot (T : VertexType) (hs0 : 0 < T.sizeof)
    (hs : T.sizeof < UINT32_MOD) (hl : T.elements.length ≤ UINT32_MOD) :
    (∀ (vertices indices vao sync0 sync1 sync2 id data : Nat) (m : MeshStream)
        (t : List MeshCall),
        MeshStream.ctor_size T vertices indices vao sync0 sync1 sync2 id data = (m, t) →
        m.vertices.Valid ∧ m.vertices.current_slot = 0 ∧ m.vertices.slots = 3
          ∧ (∀ i, i < m.vertices.slots → i * m.vertices.size_bytes < UINT32_MOD →
              portBuffer m.id i t = some (m.vertices.id, i * m.vertices.size_bytes, T.sizeof))
          ∧ (∀ a, a < T.elements.length → attribPort m.id a t = some 0))
      ∧ (∀ (v : BufferStreamBase) (indices vao : Nat) (m : MeshStream) (t : List MeshCall),
          v.Valid → MeshStream.ctor_stream T v indices vao = (m, t) →
          m.vertices = v
            ∧ (∀ i, i < v.slots → i * v.size_bytes < UINT32_MOD →
                portBuffer m.id i t = some (v.id, i * v.size_bytes, T.sizeof))
            ∧ (∀ a, a < T.elements.length → attribPort m.id a t = some v.current_slot))
      ∧ (∀ (m : MeshStream) (answers : List WaitResult) (sync : Nat),
          m.vertices.Valid → (∃ r ∈ answers, r.ready = true) →
          ∃ m1 t, m.update T answers sync = some (m1, t)
            ∧ m1.id = m.id ∧ m1.vertices.Valid
            ∧ m1.vertices.id = m.vertices.id
            ∧ m1.vertices.size_bytes = m.vertices.size_bytes
            ∧ m1.vertices.current_slot = (m.vertices.current_slot + 1) % 3
            ∧ MeshCall.writer
                (m.vertices.buffer.data + m1.vertices.current_slot * m.vertices.size_bytes)
                (m.vertices.size_bytes / T.sizeof) ∈ t
            ∧ (∀ (t0 : List MeshCall) (a : Nat), a < T.elements.length →
                attribPort m.id a (t0 ++ t) = some m1.vertices.current_slot)
            ∧ (∀ (t0 : List MeshCall) (i : Nat),
                portBuffer m.id i (t0 ++ t) = portBuffer m.id i t0))
      ∧ (∀ (v : BufferStreamBase) (i j : Nat), i < j →
          i * v.size_bytes + v.size_bytes ≤ j * v.size_bytes) := by
  refine ⟨?_, ?_, ?_, fun v i j h => ranges_apart _ i j h⟩
  · intro vertices indices vao sync0 sync1 sync2 id data m t h
    have hm : m = ⟨⟨vao⟩, (ArrayBufferStream.new T vertices sync0 sync1 sync2 id data).1⟩ :=
      (congrArg Prod.fst h).symm
    have ht : t = ([MeshCall.gl (.glCreateVertexArrays vao)]
          ++ (ArrayBufferStream.new T vertices sync0 sync1 sync2 id data).2.map .stream)
        ++ m.attach_vertices T ++ m.attach indices := by
      rw [hm]
      exact (congrArg Prod.snd h).symm
    have hv : m.vertices.Valid := by
      rw [hm]
      exact new_valid _ _ _ _ _ _
    have h0 : m.vertices.current_slot = 0 := by rw [hm]; rfl
    refine ⟨hv, h0, rfl, ?_, ?_⟩
    · intro i hi hoff
      rw [ht]
      exact portBuffer_attach m T indices _ i hi hoff hs
    · intro a ha
      rw [ht, ← h0]
      exact attribPort_attach m T indices _ a hl ha (by rw [h0]; decide)
  · intro v indices vao m t hv h
    have hm : m = { handle := { _id := vao }, vertices := v } := (congrArg Prod.fst h).symm
    have ht : t = [MeshCall.gl (.glCreateVertexArrays vao)]
        ++ m.attach_vertices T ++ m.attach indices := by
      rw [hm]
      exact (congrArg Prod.snd h).symm
    have hmv : m.vertices = v := by rw [hm]
    refine ⟨hmv, ?_, ?_⟩
    · intro i hi hoff
      rw [ht, ← hmv]
      exact portBuffer_attach m T indices _ i hi (by rw [hmv]; exact hoff) hs
    · intro a ha
      rw [ht, ← hmv]
      refine attribPort_attach m T indices _ a hl ha ?_
      rw [hmv]
      have := hv.2
      simp only [BufferStreamBase.slots, FenceArray.size] at this
      simp only [BufferStreamBase.current_slot, UINT32_MOD]
      omega
  · intro m answers sync hv hr
    obtain ⟨fs, t, hplain, hw, hu⟩ := mesh_update_spec m T answers sync hv (by omega) hr
    have hk : (m.vertices.slot + 1) % 3 < 3 := Nat.mod_lt _ (by decide)
    refine ⟨_, _, hu, rfl, ⟨hv.1, hk⟩, rfl, rfl, rfl, ?_, ?_, ?_⟩
    · apply List.mem_append_left
      exact hw
    · intro t0 a ha
      rw [← List.append_assoc]
      apply attribPort_append_some
      have e : (m.vertices.slot + 1) % 3 % UINT32_MOD = (m.vertices.slot + 1) % 3 :=
        Nat.mod_eq_of_lt (by simp only [UINT32_MOD]; omega)
      rw [e]
      exact attribPort_update_ports _ T _ a hl ha
    · intro t0 i
      rw [portBuffer_append_none]
      apply portBuffer_none
      intro c hc
      rcases List.mem_append.mp hc with hc | hc
      · exact (hplain c hc).2
      · exact update_ports_no_buffer _ T _ c hc

theorem mesh_stream_ports_follow_slot_witness :
    (0 < 20 ∧ 20 < UINT32_MOD ∧ 2 ≤ UINT32_MOD)
      ∧ attribPort 7 0
          (MeshStream.ctor_size { sizeof := 20, elements := [⟨.float, 3, 0⟩, ⟨.float, 2, 12⟩] }
            4 3 7 11 12 13 5 4096).2 = some 0
      ∧ portBuffer 7 2
          (MeshStream.ctor_size { sizeof := 20, elements := [⟨.float, 3, 0⟩, ⟨.float, 2, 12⟩] }
            4 3 7 11 12 13 5 4096).2 = some (5, 160, 20) :=
  ⟨⟨by decide, by decide, by decide⟩,
   ((mesh_stream_ports_follow_slot
      { sizeof := 20, elements := [⟨.float, 3, 0⟩, ⟨.float, 2, 12⟩] }
      (by decide) (by decide) (by decide)).1 4 3 7 11 12 13 5 4096 _ _ rfl).2.2.2.2 0
      (by decide),
   ((mesh_stream_ports_follow_slot
      { sizeof := 20, elements := [⟨.float, 3, 0⟩, ⟨.float, 2, 12⟩] }
      (by decide) (by decide) (by decide)).1 4 3 7 11 12 13 5 4096 _ _ rfl).2.2.2.1 2
      (by decide) (by decide)⟩

/-! ### Input polling -/

/-- C21 fails on the code: `Frame::released(MouseButton)` compares the state
with `GLFW_PRESS`, as `pressed(MouseButton)` does.  For the left button
(value 0) of window 7 in state `GLFW_PRESS` both `pressed` and `released`
are true, and in state `GLFW_RELEASE` both are false; whatever the state,
`released(button)` makes the query `pressed(button)` makes and gives the same
answer.  For keys the claim's pattern holds: `released(key)` is true exactly
for `GLFW_RELEASE`, `pressed(key)` exactly for `GLFW_PRESS`, never both, and
exactly one of them for the two states `glfwGetKey` reports. -/
theorem released_button_tests_press :
    Frame.released_button { window := 7 } { val := 0 } GLFW_PRESS
        = (true, [.glfwGetMouseButton 7 0 GLFW_PRESS])
      ∧ Frame.pressed_button { window := 7 } { val := 0 } GLFW_PRESS
        = (true, [.glfwGetMouseButton 7 0 GLFW_PRESS])
      ∧ Frame.released_button { window := 7 } { val := 0 } GLFW_RELEASE
        = (false, [.glfwGetMouseButton 7 0 GLFW_RELEASE])
      ∧ Frame.pressed_button { window := 7 } { val := 0 } GLFW_RELEASE
        = (false, [.glfwGetMouseButton 7 0 GLFW_RELEASE])
      ∧ (∀ (f : Frame) (b : MouseButton) (ret : Int),
          f.released_button b ret = f.pressed_button b ret
            ∧ ((f.released_button b ret).1 = true ↔ ret = GLFW_PRESS))
      ∧ (∀ (f : Frame) (k : Key) (ret : Int),
          ((f.released_key k ret).1 = true ↔ ret = GLFW_RELEASE)
            ∧ ((f.pressed_key k ret).1 = true ↔ ret = GLFW_PRESS)
            ∧ ¬ ((f.pressed_key k ret).1 = true ∧ (f.released_key k ret).1 = true)
            ∧ (ret = GLFW_PRESS ∨ ret = GLFW_RELEASE →
                ((f.pressed_key k ret).1 = true ∨ (f.released_key k ret).1 = true))) := by
  refine ⟨by decide, by decide, by decide, by decide, ?_, ?_⟩
  · intro f b ret
    exact ⟨rfl, by simp [Frame.released_button]⟩
  · intro f k ret
    refine ⟨by simp [Frame.released_key], by simp [Frame.pressed_key], ?_, ?_⟩
    · simp only [Frame.pressed_key, Frame.released_key, decide_eq_true_eq, GLFW_PRESS,
        GLFW_RELEASE]
      omega
    · simp only [Frame.pressed_key, Frame.released_key, decide_eq_true_eq]
      intro h
      exact h

end ori
